import Mathlib

/-!
# RentSphere: availability, pricing and booking lifecycle

A shallow embedding of the booking core of the RentSphere backend
(`utils/availabilityChecker.js`, `utils/seasonalPricing.js`,
`controllers/booking.js`, `controllers/payment.js`, `Models/booking.js`).

Modelling conventions
* A valid JavaScript `Date` is its time value: an `Int` number of milliseconds
  since the epoch.  An `Invalid Date` (time value `NaN`) is `none` in an
  `Option Int`.
* JavaScript numbers are rationals; `Math.round x = ⌊x + 1/2⌋` and
  `Math.ceil x = ⌈x⌉`.  In the pricing engine the products, sums and quotients
  of rates and multipliers are rounded to binary64 (`fl`: nearest, ties to
  even; overflow to `Infinity` is not modelled); the night count is the ceiling
  of the exact quotient of integers.  A decimal literal of the source and a
  value `Math.round(x * 100) / 100` are kept as the decimal fraction
  (`13 / 10`, `94 / 100`); the engine computes with its binary64 value
  (`fl (13 / 10)`).
* A time zone is ECMAScript's `LocalTZA`.  The getters of a `Date` take the
  offset in force at its time value; `setDate` takes the zone.  The request
  handlers run in a zone of constant offset `tz` (milliseconds).
* The MongoDB collection of bookings is a `List Booking`; a query is a filter.
-/

namespace RentSphere

/-! ## Dates -/

/-- The constant `1000 * 60 * 60 * 24`: milliseconds per day. -/
def msPerDay : Int := 1000 * 60 * 60 * 24

/-- Day number (days since 1970-01-01) of the local calendar day holding time value `t`. -/
def localDay (tz t : Int) : Int := (t + tz) / msPerDay

/-- `Date.prototype.getDay`: 0 is Sunday, 6 is Saturday; 1970-01-01 was a Thursday. -/
def getDay (tz t : Int) : Int := (localDay tz t + 4) % 7

/-- Month index `0..11` of a day number in the proleptic Gregorian calendar. -/
def monthOfDay (day : Int) : Int :=
  let z := day + 719468
  let era := z / 146097
  let doe := z - era * 146097
  let yoe := (doe - doe / 1460 + doe / 36524 - doe / 146096) / 365
  let doy := doe - (365 * yoe + yoe / 4 - yoe / 100)
  let mp := (5 * doy + 2) / 153
  if mp < 10 then mp + 2 else mp - 10

/-- `Date.prototype.getMonth`: 0 is January, 11 is December. -/
def getMonth (tz t : Int) : Int := monthOfDay (localDay tz t)

/-- The local time zone, as the `LocalTZA(t, isUTC)` of ECMAScript: an offset of local time
from UTC, in milliseconds.  `offsetAt t` is `LocalTZA(t, true)`, the offset in force at the
time value `t`; `offsetOfLocal t` is `LocalTZA(t, false)`, the offset by which the local time
`t` is taken back to UTC. -/
structure TimeZone where
  offsetAt : Int → Int
  offsetOfLocal : Int → Int

/-- A zone without daylight saving: local time is UTC shifted by the constant `tz`. -/
def fixedOffset (tz : Int) : TimeZone :=
  { offsetAt := fun _ => tz, offsetOfLocal := fun _ => tz }

/-- The effect of `d.setDate(d.getDate() + i)` on the time value of `d`: the local time moves
by `i` days, the time of day kept, and is taken back to UTC. -/
def addDays (zone : TimeZone) (t : Int) (i : Nat) : Int :=
  let localTime := t + zone.offsetAt t
  let moved := localTime + (i : Int) * msPerDay
  moved - zone.offsetOfLocal moved

/-- `Math.round` on exact numbers: the nearest integer, halves going up. -/
def mathRound (x : ℚ) : Int := ⌊x + 1 / 2⌋

/-- `Math.ceil` on exact numbers. -/
def mathCeil (x : ℚ) : Int := ⌈x⌉

/-- Rounding to the nearest integer, a tie going to the even one. -/
def roundHalfEven (x : ℚ) : Int :=
  let f := ⌊x⌋
  if x - f < 1 / 2 then f
  else if x - f > 1 / 2 then f + 1
  else if f % 2 = 0 then f else f + 1

/-- Exponent of the spacing of the binary64 numbers around `x`: 53 significant bits, and
`2 ^ (-1074)` the smallest spacing. -/
def ulpExp (x : ℚ) : Int := max (Int.log 2 |x| - 52) (-1074)

/-- The binary64 number nearest to `x`, a tie going to the even significand: the value of a
JavaScript arithmetic operation whose exact result is `x` (below the overflow threshold). -/
def fl (x : ℚ) : ℚ := (roundHalfEven (x / (2 : ℚ) ^ ulpExp x) : ℚ) * (2 : ℚ) ^ ulpExp x

/-! ## `utils/availabilityChecker.js`: the overlap predicate -/

/-- `datesOverlap(checkIn1, checkOut1, checkIn2, checkOut2)`. -/
def datesOverlap (checkIn1 checkOut1 checkIn2 checkOut2 : Int) : Bool :=
  decide (checkIn1 < checkOut2) && decide (checkOut1 > checkIn2)

/-! ## `utils/seasonalPricing.js` -/

/-- One entry of `SEASONAL_CONFIG`. -/
structure Season where
  key : String
  name : String
  multiplier : ℚ
  months : List Int

/-- `SEASONAL_CONFIG.peak`. -/
def peakSeason : Season :=
  { key := "peak", name := "Peak Season", multiplier := 13 / 10, months := [12, 1] }

/-- `SEASONAL_CONFIG.summer`. -/
def summerSeason : Season :=
  { key := "summer", name := "Summer Season", multiplier := 12 / 10, months := [4, 5] }

/-- `SEASONAL_CONFIG.monsoon`. -/
def monsoonSeason : Season :=
  { key := "monsoon", name := "Monsoon Drop", multiplier := 85 / 100, months := [7, 8] }

/-- `SEASONAL_CONFIG.regular`, also the fallback of `getSeasonForDate`. -/
def regularSeason : Season :=
  { key := "regular", name := "Regular Season", multiplier := 1,
    months := [2, 3, 6, 9, 10, 11] }

/-- `SEASONAL_CONFIG`, in the order of `Object.entries`. -/
def SEASONAL_CONFIG : List Season :=
  [peakSeason, summerSeason, monsoonSeason, regularSeason]

/-- `WEEKEND_MULTIPLIER`. -/
def WEEKEND_MULTIPLIER : ℚ := 11 / 10

/-- `getSeasonForDate(date)`: the first season whose months include the date's month. -/
def getSeasonForDate (tz date : Int) : Season :=
  let month := getMonth tz date + 1
  match SEASONAL_CONFIG.find? (fun season => season.months.contains month) with
  | some season => season
  | none => regularSeason

/-- `isWeekend(date)`. -/
def isWeekend (tz date : Int) : Bool :=
  let day := getDay tz date
  day == 0 || day == 6

/-- The object returned by `getMultiplierForDate`. -/
structure DateMultiplier where
  multiplier : ℚ
  seasonName : String
  isWeekend : Bool

/-- `getMultiplierForDate(date)`. -/
def getMultiplierForDate (tz date : Int) : DateMultiplier :=
  let season := getSeasonForDate tz date
  let weekend := isWeekend tz date
  let multiplier := if weekend then season.multiplier * WEEKEND_MULTIPLIER else season.multiplier
  { multiplier := (mathRound (multiplier * 100) : ℚ) / 100
    seasonName := season.name
    isWeekend := weekend }

/-- One entry of the `breakdown` array. -/
structure NightEntry where
  date : Int
  rate : Int
  seasonName : String
  multiplier : ℚ

/-- The object returned by `calculateSeasonalPrice`. -/
structure PricingResult where
  nights : Int
  baseNightlyRate : ℚ
  basePrice : ℚ
  seasonalAdjustment : ℚ
  averageMultiplier : ℚ
  subtotal : Int
  breakdown : List NightEntry

/-- The loop variables of `calculateSeasonalPrice`; `totalMultiplier` is a binary64 number. -/
structure PriceAcc where
  breakdown : List NightEntry
  totalPrice : Int
  totalMultiplier : ℚ

/-- The binary64 sum `a + b` of two integers, itself an integer. -/
def addNumbers (a b : Int) : Int := ⌊fl (((a + b : Int) : ℚ))⌋

/-- The object pushed on `breakdown` by iteration `i` of the loop of
`calculateSeasonalPrice`; the product `baseNightlyRate * multiplier` is a binary64 product. -/
def nightEntry (zone : TimeZone) (baseNightlyRate : ℚ) (checkInDate : Int) (i : Nat) :
    NightEntry :=
  let currentDate := addDays zone checkInDate i
  let m := getMultiplierForDate (zone.offsetAt currentDate) currentDate
  let nightRate := mathRound (fl (fl baseNightlyRate * fl m.multiplier))
  { date := currentDate
    rate := nightRate
    seasonName := if m.isWeekend then m.seasonName ++ " (Weekend)" else m.seasonName
    multiplier := m.multiplier }

/-- One iteration of the loop of `calculateSeasonalPrice`, for night `i`. -/
def priceStep (zone : TimeZone) (baseNightlyRate : ℚ) (checkInDate : Int) (acc : PriceAcc)
    (i : Nat) : PriceAcc :=
  let entry := nightEntry zone baseNightlyRate checkInDate i
  { breakdown := acc.breakdown ++ [entry]
    totalPrice := addNumbers acc.totalPrice entry.rate
    totalMultiplier := fl (acc.totalMultiplier + fl entry.multiplier) }

/-- `calculateSeasonalPrice(baseNightlyRate, checkIn, checkOut)` on valid dates, in the local
zone `zone`; `Except.error` is the thrown `Error("Invalid date range")`. -/
def calculateSeasonalPrice (zone : TimeZone) (baseNightlyRate : ℚ) (checkIn checkOut : Int) :
    Except String PricingResult :=
  let nights := mathCeil (((checkOut - checkIn : Int) : ℚ) / (msPerDay : ℚ))
  if nights ≤ 0 then
    Except.error "Invalid date range"
  else
    let acc := (List.range nights.toNat).foldl (priceStep zone baseNightlyRate checkIn)
      { breakdown := [], totalPrice := 0, totalMultiplier := 0 }
    let averageMultiplier :=
      (mathRound (fl (fl (acc.totalMultiplier / (nights : ℚ)) * 100)) : ℚ) / 100
    let basePrice := fl (fl baseNightlyRate * (nights : ℚ))
    let seasonalAdjustment := fl ((acc.totalPrice : ℚ) - basePrice)
    Except.ok
      { nights := nights
        baseNightlyRate := baseNightlyRate
        basePrice := basePrice
        seasonalAdjustment := seasonalAdjustment
        averageMultiplier := averageMultiplier
        subtotal := acc.totalPrice
        breakdown := acc.breakdown }

/-! ## `Models/booking.js` and `Models/listing.js`: the data model -/

/-- The `status` enum of `bookingSchema`. -/
inductive BookingStatus where
  | pending_payment
  | paid
  | pending_approval
  | confirmed
  | rejected
  | cancelled
  | completed
  deriving DecidableEq, Repr

/-- The `payment.status` enum of `bookingSchema`. -/
inductive PaymentStatus where
  | pending
  | paid
  | refunded
  | failed
  deriving DecidableEq, Repr

/-- The `cancellation.refundStatus` enum of `bookingSchema`. -/
inductive RefundStatus where
  | none
  | pending
  | processing
  | completed
  | failed
  deriving DecidableEq, Repr

/-- The non-null values of `cancellation.cancelledBy`. -/
inductive CancelledBy where
  | guest
  | host
  deriving DecidableEq, Repr

/-- The `pricing` sub-document of a booking. -/
structure Pricing where
  nightlyRate : ℚ
  nights : Int
  pricingUnit : String
  basePrice : ℚ
  seasonalMultiplier : ℚ
  seasonalAdjustment : ℚ
  cleaningFee : Int
  serviceFee : Int
  total : Int
  seasonBreakdown : List NightEntry

/-- The `cancellation` sub-document; the schema defaults are `cancelledBy: null` and
`refundStatus: "none"`. -/
structure Cancellation where
  cancelledBy : Option CancelledBy := none
  cancelledAt : Option Int := none
  reason : Option String := none
  refundStatus : RefundStatus := RefundStatus.none
  refundAmount : Option Int := none
  refundMessage : Option String := none

/-- The `payment` sub-document. -/
structure Payment where
  provider : String := "cashfree"
  cfOrderId : Option String := none
  cfPaymentSessionId : Option String := none
  status : PaymentStatus := PaymentStatus.pending
  paidAt : Option Int := none
  transactionId : Option String := none

/-- A stored booking document; `id` is its `_id`. -/
structure Booking where
  id : Nat
  listing : Nat
  guest : Nat
  host : Nat
  checkIn : Int
  checkOut : Int
  adults : Int
  pricing : Pricing
  status : BookingStatus
  cancellation : Cancellation
  payment : Payment
  guestMessage : Option String
  hostResponse : Option String

/-- The `bookingSettings` sub-document of a listing (the field the booking code reads). -/
structure BookingSettings where
  minStay : Int

/-- The `status` enum of `listingSchema`. -/
inductive ListingStatus where
  | active
  | inactive
  | deleted
  | pending_approval
  | rejected
  deriving DecidableEq, Repr

/-- A stored listing document, with the fields the booking code reads. -/
structure Listing where
  id : Nat
  owner : Nat
  price : ℚ
  pricingUnit : String
  maxGuests : Int
  bookingSettings : Option BookingSettings
  status : ListingStatus

/-- The clock and time zone a request handler runs under. -/
structure Env where
  tz : Int
  now : Int

/-- The value of `new Date().setHours(0, 0, 0, 0)`: local midnight of the current day. -/
def startOfToday (env : Env) : Int := localDay env.tz env.now * msPerDay - env.tz

/-- `Model.findById` on the bookings collection. -/
def findBooking (bookings : List Booking) (bookingId : Nat) : Option Booking :=
  bookings.find? (fun b => b.id == bookingId)

/-- `Model.findById` on the listings collection. -/
def findListing (listings : List Listing) (listingId : Nat) : Option Listing :=
  listings.find? (fun l => l.id == listingId)

/-- The effect of `booking.save()`: the stored document with that `_id` is replaced. -/
def saveBooking (bookings : List Booking) (b : Booking) : List Booking :=
  bookings.map (fun old => if old.id == b.id then b else old)

/-- An `_id` not used by any stored booking. -/
def freshId (bookings : List Booking) : Nat :=
  (bookings.map (fun b => b.id)).foldl max 0 + 1

/-- The JavaScript `a || b` on strings: the empty string is falsy. -/
def strOr (a b : String) : String := if a = "" then b else a

/-- The JavaScript `a || b` on a possibly missing string. -/
def optStrOr (a : Option String) (b : String) : String :=
  match a with
  | some s => strOr s b
  | none => b

/-! ## `utils/availabilityChecker.js`: `checkAvailability` -/

/-- The status filter `{ $in: ["paid", "pending_approval", "confirmed"] }`. -/
def holdStatuses : List BookingStatus :=
  [BookingStatus.paid, BookingStatus.pending_approval, BookingStatus.confirmed]

/-- A document returned by `.select("checkIn checkOut status")`. -/
structure Conflict where
  id : Nat
  checkIn : Int
  checkOut : Int
  status : BookingStatus
  deriving DecidableEq

/-- The object returned by the utility `checkAvailability`. -/
structure Availability where
  available : Bool
  error : Option String
  conflicts : List Conflict

/-- The Mongo query built by the utility `checkAvailability`, as a predicate on a booking. -/
def conflictQuery (listingId : Nat) (checkInDate checkOutDate : Int)
    (excludeBookingId : Option Nat) (b : Booking) : Bool :=
  b.listing == listingId && holdStatuses.contains b.status &&
    (decide (b.checkIn < checkOutDate) && decide (b.checkOut > checkInDate)) &&
    (match excludeBookingId with
     | some ex => b.id != ex
     | none => true)

/-- The utility `checkAvailability(listingId, checkIn, checkOut, excludeBookingId)`;
`checkIn`, `checkOut` are the time values of `new Date(checkIn)`, `new Date(checkOut)`. -/
def checkAvailability (env : Env) (bookings : List Booking) (listingId : Nat)
    (checkIn checkOut : Option Int) (excludeBookingId : Option Nat) : Availability :=
  match checkIn, checkOut with
  | some checkInDate, some checkOutDate =>
    if checkInDate ≥ checkOutDate then
      { available := false, error := some "Check-out must be after check-in", conflicts := [] }
    else if checkInDate < startOfToday env then
      { available := false, error := some "Cannot book dates in the past", conflicts := [] }
    else
      let conflictingBookings :=
        (bookings.filter (conflictQuery listingId checkInDate checkOutDate excludeBookingId)).map
          (fun b => ({ id := b.id, checkIn := b.checkIn, checkOut := b.checkOut,
                       status := b.status } : Conflict))
      { available := conflictingBookings.length == 0
        error := none
        conflicts := conflictingBookings }
  | _, _ => { available := false, error := some "Invalid dates", conflicts := [] }

/-! ## `controllers/booking.js` and `controllers/payment.js` -/

/-- The body and session of a reserve request.  `checkIn`, `checkOut` are the time values of
`new Date(req.body.checkIn)`, `new Date(req.body.checkOut)` (`none` for an invalid date);
`guestsNum` is `Number.parseInt(guests || 1, 10)` (`none` for `NaN`); `listingId` is `none`
when `req.params.listingId` is not an ObjectId. -/
structure ReserveRequest where
  listingId : Option Nat
  checkIn : Option Int
  checkOut : Option Int
  guestsNum : Option Int
  message : Option String
  user : Nat

/-- The comparison `guestsNum > max` of JavaScript numbers: false when `guestsNum` is `NaN`. -/
def guestsExceed (guestsNum : Option Int) (max : Int) : Bool :=
  match guestsNum with
  | some g => decide (g > max)
  | none => false

/-- The schema validator of `guestCount.adults` (`type: Number, required: true, min: 1`),
run by `Booking.create`: the value it stores, or `none` when validation fails. -/
def validAdults (guestsNum : Option Int) : Option Int :=
  match guestsNum with
  | some g => if g ≥ 1 then some g else none
  | none => none

/-- The start of the message of the error `Booking.create` throws when schema validation
fails; the path and the value that follow it are left out. -/
def validationFailed : String := "Booking validation failed"

/-- The message thrown when the conflict check finds a hold on the requested dates. -/
def datesUnavailable : String := "Selected dates are no longer available"

/-- The message of the `MongoTransactionError` that `session.abortTransaction()` throws when
the transaction is already committed. -/
def abortAfterCommit : String :=
  "Cannot call abortTransaction after calling commitTransaction"

/-- `Math.round(seasonalPricing.subtotal * 0.12)`. -/
def serviceFeeOf (subtotal : Int) : Int := mathRound ((subtotal : ℚ) * (12 / 100))

/-- `Math.round(seasonalPricing.subtotal + serviceFee)`. -/
def totalOf (subtotal serviceFee : Int) : Int := mathRound (((subtotal + serviceFee : Int) : ℚ))

/-- The document passed to `Booking.create` by both reserve handlers. -/
def newBooking (id listingId guest : Nat) (listing : Listing) (checkInDate checkOutDate : Int)
    (adults : Int) (pricingUnit : String) (seasonalPricing : PricingResult)
    (message : Option String) : Booking :=
  let serviceFee := serviceFeeOf seasonalPricing.subtotal
  let total := totalOf seasonalPricing.subtotal serviceFee
  { id := id
    listing := listingId
    guest := guest
    host := listing.owner
    checkIn := checkInDate
    checkOut := checkOutDate
    adults := adults
    pricing :=
      { nightlyRate := listing.price
        nights := seasonalPricing.nights
        pricingUnit := pricingUnit
        basePrice := seasonalPricing.basePrice
        seasonalMultiplier := seasonalPricing.averageMultiplier
        seasonalAdjustment := seasonalPricing.seasonalAdjustment
        cleaningFee := 0
        serviceFee := serviceFee
        total := total
        seasonBreakdown := seasonalPricing.breakdown }
    status := BookingStatus.pending_payment
    cancellation := {}
    payment := { provider := "cashfree", status := PaymentStatus.pending }
    guestMessage := message
    hostResponse := none }

/-- `createBooking` of `controllers/booking.js`.  The result is the created booking (the
handler redirects to its payment page) or the flashed error message, with the stored
bookings after the request.  With a `listingId` that is not an ObjectId, `Listing.findById`
throws a cast error. -/
def createBooking (env : Env) (listings : List Listing) (bookings : List Booking)
    (req : ReserveRequest) : Except String Booking × List Booking :=
  match req.listingId with
  | none => (Except.error "Cast to ObjectId failed", bookings)
  | some listingId =>
    match findListing listings listingId with
    | none => (Except.error "Listing not found", bookings)
    | some listing =>
      match req.checkIn, req.checkOut with
      | some checkInDate, some checkOutDate =>
        if checkInDate ≥ checkOutDate then (Except.error "Invalid dates", bookings)
        else if guestsExceed req.guestsNum listing.maxGuests then
          (Except.error "Too many guests", bookings)
        else
          match calculateSeasonalPrice (fixedOffset env.tz) listing.price checkInDate checkOutDate with
          | Except.error e => (Except.error e, bookings)
          | Except.ok seasonalPricing =>
            if (match listing.bookingSettings with
                | some bs => decide (seasonalPricing.nights < bs.minStay)
                | none => false) then
              (Except.error ("Minimum stay is " ++
                toString ((listing.bookingSettings.map (fun bs => bs.minStay)).getD 0) ++ " " ++
                listing.pricingUnit ++ "s"), bookings)
            else if !(checkAvailability env bookings listingId req.checkIn req.checkOut
                none).available then
              (Except.error datesUnavailable, bookings)
            else
              match validAdults req.guestsNum with
              | none => (Except.error validationFailed, bookings)
              | some adults =>
                let booking := newBooking (freshId bookings) listingId req.user listing
                  checkInDate checkOutDate adults listing.pricingUnit seasonalPricing req.message
                (Except.ok booking, bookings ++ [booking])
      | _, _ => (Except.error "Invalid dates", bookings)

/-- The answer of the payment provider to `POST /orders`. -/
structure CfCreatedOrder where
  order_id : Option String
  payment_session_id : Option String

/-- The inline conflict query of `createBookingAndPay`, as a predicate on a booking. -/
def payConflictQuery (listingId : Nat) (checkInDate checkOutDate : Int) (b : Booking) : Bool :=
  b.listing == listingId && holdStatuses.contains b.status &&
    (decide (b.checkIn < checkOutDate) && decide (b.checkOut > checkInDate))

/-- `createBookingAndPay` of `controllers/payment.js`; `cf` is what `cfRequest("/orders",
"POST", ...)` does when it is reached: the created order, or the message of the error it
throws.  The result is the booking rendered on the checkout page or the message of the error
that ends the request, with the stored bookings after the request.  An error thrown before
the commit is flashed; when the provider fails after the commit, `abortTransaction` in the
`catch` block throws in its turn and that error ends the request. -/
def createBookingAndPay (env : Env) (listings : List Listing) (bookings : List Booking)
    (req : ReserveRequest) (cf : Except String CfCreatedOrder) :
    Except String Booking × List Booking :=
  match req.listingId with
  | none => (Except.error "Invalid listing ID", bookings)
  | some listingId =>
    match findListing listings listingId with
    | none => (Except.error "Listing not found", bookings)
    | some listing =>
      if listing.status = ListingStatus.deleted ∨ listing.status = ListingStatus.inactive then
        (Except.error "This listing is no longer available", bookings)
      else
        match req.checkIn, req.checkOut with
        | some checkInDate, some checkOutDate =>
          if checkInDate ≥ checkOutDate then
            (Except.error "Check-out must be after check-in", bookings)
          else if checkInDate < startOfToday env then
            (Except.error "Cannot book dates in the past", bookings)
          else
            let nights := mathCeil (((checkOutDate - checkInDate : Int) : ℚ) / (msPerDay : ℚ))
            let maxGuests := if listing.maxGuests = 0 then 4 else listing.maxGuests
            if guestsExceed req.guestsNum maxGuests then
              (Except.error ("Maximum " ++ toString maxGuests ++
                " guests allowed for this listing"), bookings)
            else if (match listing.bookingSettings with
                | some bs => decide (nights < bs.minStay)
                | none => false) then
              (Except.error ("Minimum stay is " ++
                toString ((listing.bookingSettings.map (fun bs => bs.minStay)).getD 0) ++ " " ++
                strOr listing.pricingUnit "night" ++ "s"), bookings)
            else if (bookings.filter (payConflictQuery listingId checkInDate checkOutDate)).length
                > 0 then
              (Except.error datesUnavailable, bookings)
            else
              match calculateSeasonalPrice (fixedOffset env.tz) listing.price checkInDate checkOutDate with
              | Except.error e => (Except.error e, bookings)
              | Except.ok seasonalPricing =>
                match validAdults req.guestsNum with
                | none => (Except.error validationFailed, bookings)
                | some adults =>
                  let booking := newBooking (freshId bookings) listingId req.user listing
                    checkInDate checkOutDate adults (strOr listing.pricingUnit "night")
                    seasonalPricing req.message
                  match cf with
                  | Except.error _ => (Except.error abortAfterCommit, bookings ++ [booking])
                  | Except.ok cfOrder =>
                    let booking := { booking with
                      payment := { booking.payment with
                        cfOrderId := cfOrder.order_id
                        cfPaymentSessionId := cfOrder.payment_session_id } }
                    (Except.ok booking, bookings ++ [booking])
        | _, _ => (Except.error "Invalid dates provided", bookings)

/-- The answer of the payment provider to `GET /orders/:order_id`. -/
structure CfOrder where
  order_status : Option String
  cf_order_id : Option String

/-- The query of a payment return.  `order_id` is `req.query.order_id`; `bookingId` is the
booking reference taken from `booking_id` or out of the order id, `none` when there is none or
it is not an ObjectId. -/
structure ReturnRequest where
  order_id : Option String
  bookingId : Option Nat

/-- `cashfreeReturn` of `controllers/payment.js`; `cf` is what `cfRequest` does when it is
reached: the queried order, or the message of the error it throws. -/
def cashfreeReturn (env : Env) (bookings : List Booking) (req : ReturnRequest)
    (cf : Except String CfOrder) : Except String Booking × List Booking :=
  match req.order_id with
  | none => (Except.error "Invalid payment response", bookings)
  | some order_id =>
    if order_id = "" then (Except.error "Invalid payment response", bookings)
    else
      match req.bookingId with
      | none => (Except.error "Invalid booking reference", bookings)
      | some bookingId =>
        match findBooking bookings bookingId with
        | none => (Except.error "Booking not found after payment", bookings)
        | some booking =>
          match cf with
          | Except.error _ =>
            (Except.error "Error verifying payment. Please check your booking status.", bookings)
          | Except.ok cfOrder =>
            if cfOrder.order_status = some "PAID" then
              let booking := { booking with
                payment := { booking.payment with
                  status := PaymentStatus.paid
                  paidAt := some env.now
                  transactionId := some (optStrOr cfOrder.cf_order_id order_id) }
                status := BookingStatus.paid }
              (Except.ok booking, saveBooking bookings booking)
            else
              (Except.error ("Payment " ++
                (match cfOrder.order_status with
                 | some st => if st = "" then "failed" else st.toLower
                 | none => "failed") ++ ". Please try again."), bookings)

/-- `acceptBooking` of `controllers/booking.js`, called by `user`. -/
def acceptBooking (bookings : List Booking) (bookingId user : Nat) :
    Except String Booking × List Booking :=
  match findBooking bookings bookingId with
  | none => (Except.error "Booking not found", bookings)
  | some booking =>
    if booking.host ≠ user then (Except.error "Not authorized", bookings)
    else if booking.payment.status ≠ PaymentStatus.paid then
      (Except.error "Cannot accept booking - payment not received", bookings)
    else
      let booking := { booking with status := BookingStatus.confirmed }
      (Except.ok booking, saveBooking bookings booking)

/-- `rejectBooking` of `controllers/booking.js`, called by `user` with `req.body.reason`. -/
def rejectBooking (env : Env) (bookings : List Booking) (bookingId user : Nat)
    (reason : Option String) : Except String Booking × List Booking :=
  match findBooking bookings bookingId with
  | none => (Except.error "Booking not found", bookings)
  | some booking =>
    if booking.host ≠ user then (Except.error "Not authorized", bookings)
    else
      let wasPaid := booking.payment.status = PaymentStatus.paid
      let booking := { booking with
        status := BookingStatus.rejected
        hostResponse := reason
        cancellation :=
          { cancelledBy := some CancelledBy.host
            cancelledAt := some env.now
            reason := some (optStrOr reason "Host declined the booking")
            refundStatus := if wasPaid then RefundStatus.pending else RefundStatus.none
            refundAmount := some (if wasPaid then booking.pricing.total else 0)
            refundMessage := some "Your payment will be refunded within 24 working hours." } }
      (Except.ok booking, saveBooking bookings booking)

/-- `cancelBooking` of `controllers/booking.js`, called by `user` with `req.body.reason`. -/
def cancelBooking (env : Env) (bookings : List Booking) (bookingId user : Nat)
    (reason : Option String) : Except String Booking × List Booking :=
  match findBooking bookings bookingId with
  | none => (Except.error "Booking not found", bookings)
  | some booking =>
    let isGuest := decide (booking.guest = user)
    let isHost := decide (booking.host = user)
    if !isGuest && !isHost then (Except.error "Not authorized", bookings)
    else
      let cancelledBy := if isHost then CancelledBy.host else CancelledBy.guest
      let wasPaid := booking.payment.status = PaymentStatus.paid
      let refundMessage :=
        if wasPaid then
          (if isHost then
            "Host cancelled the booking. Refund will be issued within 24 working hours."
          else "Your payment will be refunded within 24 working hours.")
        else ""
      let booking := { booking with
        status := BookingStatus.cancelled
        cancellation :=
          { cancelledBy := some cancelledBy
            cancelledAt := some env.now
            reason := some (optStrOr reason
              ("Cancelled by " ++ (if isHost then "host" else "guest")))
            refundStatus := if wasPaid then RefundStatus.pending else RefundStatus.none
            refundAmount := some (if wasPaid then booking.pricing.total else 0)
            refundMessage := some refundMessage } }
      (Except.ok booking, saveBooking bookings booking)

/-- The `pricing` object of a successful availability quote. -/
structure QuotePricing where
  nights : Int
  pricingUnit : String
  baseNightlyRate : ℚ
  basePrice : ℚ
  seasonalAdjustment : ℚ
  averageMultiplier : ℚ
  subtotal : Int
  serviceFee : Int
  total : Int
  breakdown : List NightEntry

/-- The JSON answer of the controller `checkAvailability`; `conflicts` is empty where the
answer has no such key. -/
structure QuoteResponse where
  available : Bool
  error : Option String
  conflicts : List Conflict
  pricing : Option QuotePricing

/-- `checkAvailability` of `controllers/booking.js`, the availability quote of a listing
page.  An error thrown inside the handler (a `listingId` that is not an ObjectId, a thrown
pricing error) is answered with `Server error`. -/
def BookingController.checkAvailability (env : Env) (listings : List Listing)
    (bookings : List Booking) (listingId : Option Nat) (checkIn checkOut : Option Int)
    (guestsNum : Option Int) : QuoteResponse :=
  match listingId with
  | none => { available := false, error := some "Server error", conflicts := [], pricing := none }
  | some listingId =>
    match findListing listings listingId with
    | none =>
      { available := false, error := some "Listing not found", conflicts := [], pricing := none }
    | some listing =>
      match checkIn, checkOut with
      | some checkInDate, some checkOutDate =>
        if checkInDate ≥ checkOutDate then
          { available := false, error := some "Invalid dates", conflicts := [], pricing := none }
        else if guestsExceed guestsNum listing.maxGuests then
          { available := false, error := some "Too many guests", conflicts := [],
            pricing := none }
        else
          let availability :=
            RentSphere.checkAvailability env bookings listingId checkIn checkOut none
          if !availability.available then
            { available := false
              error := some (optStrOr availability.error "Selected dates are not available")
              conflicts := availability.conflicts
              pricing := none }
          else
            match calculateSeasonalPrice (fixedOffset env.tz) listing.price checkInDate checkOutDate with
            | Except.error _ =>
              { available := false, error := some "Server error", conflicts := [],
                pricing := none }
            | Except.ok seasonalPricing =>
              let serviceFee := mathRound ((seasonalPricing.subtotal : ℚ) * (12 / 100))
              let total := mathRound (((seasonalPricing.subtotal + serviceFee : Int) : ℚ))
              { available := true
                error := none
                conflicts := []
                pricing := some
                  { nights := seasonalPricing.nights
                    pricingUnit := listing.pricingUnit
                    baseNightlyRate := listing.price
                    basePrice := seasonalPricing.basePrice
                    seasonalAdjustment := seasonalPricing.seasonalAdjustment
                    averageMultiplier := seasonalPricing.averageMultiplier
                    subtotal := seasonalPricing.subtotal
                    serviceFee := serviceFee
                    total := total
                    breakdown := seasonalPricing.breakdown } }
      | _, _ =>
        { available := false, error := some "Invalid dates", conflicts := [], pricing := none }

/-- The JavaScript truthiness of a possibly missing string. -/
def strTruthy (a : Option String) : Bool :=
  match a with
  | some s => s != ""
  | none => false

/-- `initiatePayment` of `controllers/payment.js`, called by `user`; `bookingId` is `none`
when `req.params.bookingId` is not an ObjectId, and `cf` is what `cfRequest("/orders",
"POST", ...)` does when it is reached.  The result is the booking whose page or checkout is
shown, or the flashed error message, with the stored bookings after the request. -/
def initiatePayment (bookings : List Booking) (bookingId : Option Nat) (user : Nat)
    (cf : Except String CfCreatedOrder) : Except String Booking × List Booking :=
  match bookingId with
  | none => (Except.error "Invalid booking ID", bookings)
  | some bookingId =>
    match findBooking bookings bookingId with
    | none => (Except.error "Booking not found!", bookings)
    | some booking =>
      if booking.guest ≠ user then (Except.error "Not authorized", bookings)
      else if booking.payment.status = PaymentStatus.paid then (Except.ok booking, bookings)
      else if strTruthy booking.payment.cfPaymentSessionId then (Except.ok booking, bookings)
      else
        match cf with
        | Except.error e =>
          (Except.error (strOr e "Payment initialization failed. Please try again."), bookings)
        | Except.ok cfOrder =>
          let booking := { booking with
            payment := { booking.payment with
              cfOrderId := cfOrder.order_id
              cfPaymentSessionId := cfOrder.payment_session_id
              status := PaymentStatus.pending } }
          (Except.ok booking, saveBooking bookings booking)

/-! ## More of the JavaScript `Date`: calendar fields of local time -/

/-- Year of a day number in the proleptic Gregorian calendar. -/
def yearOfDay (day : Int) : Int :=
  let z := day + 719468
  let era := z / 146097
  let doe := z - era * 146097
  let yoe := (doe - doe / 1460 + doe / 36524 - doe / 146096) / 365
  let doy := doe - (365 * yoe + yoe / 4 - yoe / 100)
  let mp := (5 * doy + 2) / 153
  if mp < 10 then yoe + era * 400 else yoe + era * 400 + 1

/-- Day of the month, `1..31`, of a day number in the proleptic Gregorian calendar. -/
def dateOfDay (day : Int) : Int :=
  let z := day + 719468
  let era := z / 146097
  let doe := z - era * 146097
  let yoe := (doe - doe / 1460 + doe / 36524 - doe / 146096) / 365
  let doy := doe - (365 * yoe + yoe / 4 - yoe / 100)
  let mp := (5 * doy + 2) / 153
  doy - (153 * mp + 2) / 5 + 1

/-- Day number of the first day of month index `month` (`0..11`) of `year`. -/
def firstOfMonth (year month : Int) : Int :=
  let y := if month < 2 then year - 1 else year
  let era := y / 400
  let yoe := y - era * 400
  let mp := if month < 2 then month + 10 else month - 2
  let doy := (153 * mp + 2) / 5
  let doe := yoe * 365 + yoe / 4 - yoe / 100 + doy
  era * 146097 + doe - 719468

/-- The abstract operation `MakeDay(year, month, date)` of ECMAScript: a month index outside
`0..11` carries into the year, and `date` counts from the first of the month. -/
def makeDay (year month date : Int) : Int :=
  firstOfMonth (year + month / 12) (month % 12) + date - 1

/-- The time value of `new Date(year, month, date)`: local midnight of that day; a year from
0 to 99 means 1900 + year. -/
def newDate (tz year month date : Int) : Int :=
  let yr := if 0 ≤ year ∧ year ≤ 99 then 1900 + year else year
  makeDay yr month date * msPerDay - tz

/-- `Date.prototype.getFullYear`. -/
def getFullYear (tz t : Int) : Int := yearOfDay (localDay tz t)

/-- `Date.prototype.getDate`. -/
def getDate (tz t : Int) : Int := dateOfDay (localDay tz t)

/-! ## `utils/availabilityChecker.js`: blocked dates, free ranges and the calendar -/

/-- An object returned by `getBlockedDates`. -/
structure BlockedDate where
  checkIn : Int
  checkOut : Int
  bookingId : Nat
  status : BookingStatus

/-- `getBlockedDates(listingId)`. -/
def getBlockedDates (bookings : List Booking) (listingId : Nat) : List BlockedDate :=
  (bookings.filter (fun b => b.listing == listingId && holdStatuses.contains b.status)).map
    (fun b => { checkIn := b.checkIn, checkOut := b.checkOut, bookingId := b.id,
                status := b.status })

/-- A range returned by `getAvailableDateRanges`; `stop` is its `end`. -/
structure DateRange where
  start : Int
  stop : Int
  deriving DecidableEq

/-- The loop variables of `getAvailableDateRanges`. -/
structure RangeAcc where
  availableRanges : List DateRange
  currentStart : Int

/-- One iteration of the loop of `getAvailableDateRanges`, for one blocked range. -/
def rangeStep (acc : RangeAcc) (blocked : BlockedDate) : RangeAcc :=
  let blockedStart := blocked.checkIn
  let blockedEnd := blocked.checkOut
  let availableRanges :=
    if blockedStart > acc.currentStart then
      acc.availableRanges ++ [{ start := acc.currentStart, stop := blockedStart }]
    else acc.availableRanges
  { availableRanges := availableRanges
    currentStart := if blockedEnd > acc.currentStart then blockedEnd else acc.currentStart }

/-- `getAvailableDateRanges(listingId, daysAhead)`; the sort by check-in is stable. -/
def getAvailableDateRanges (env : Env) (bookings : List Booking) (listingId : Nat)
    (daysAhead : Nat) : List DateRange :=
  let blockedDates := getBlockedDates bookings listingId
  let today := startOfToday env
  let endDate := addDays (fixedOffset env.tz) today daysAhead
  let sorted := blockedDates.insertionSort (fun a b => a.checkIn ≤ b.checkIn)
  let acc := sorted.foldl rangeStep { availableRanges := [], currentStart := today }
  if acc.currentStart < endDate then
    acc.availableRanges ++ [{ start := acc.currentStart, stop := endDate }]
  else acc.availableRanges

/-- One entry of `days` in the calendar data. -/
structure CalendarDay where
  date : Int
  day : Int
  isBlocked : Bool
  isPast : Bool
  available : Bool

/-- One entry of the calendar data (its `monthName`, a display string, is left out). -/
structure CalendarMonth where
  year : Int
  month : Int
  days : List CalendarDay

/-- The object pushed on `days` for day `d` of the month. -/
def calendarDay (tz today : Int) (blockedDates : List BlockedDate) (year month d : Int) :
    CalendarDay :=
  let date := newDate tz year month d
  let isPast := decide (date < today)
  let isBlocked := blockedDates.any
    (fun blocked => decide (date ≥ blocked.checkIn) && decide (date < blocked.checkOut))
  { date := date, day := d, isBlocked := isBlocked, isPast := isPast,
    available := !isBlocked && !isPast }

/-- The object pushed on `calendarData` by iteration `m` of the outer loop. -/
def calendarMonth (tz today : Int) (blockedDates : List BlockedDate) (m : Nat) :
    CalendarMonth :=
  let currentMonth := newDate tz (getFullYear tz today) (getMonth tz today + (m : Int)) 1
  let year := getFullYear tz currentMonth
  let month := getMonth tz currentMonth
  let daysInMonth := getDate tz (newDate tz year (month + 1) 0)
  { year := year
    month := month
    days := (List.range daysInMonth.toNat).map
      (fun (i : Nat) => calendarDay tz today blockedDates year month ((i : Int) + 1)) }

/-- `getCalendarData(listingId, months)`. -/
def getCalendarData (env : Env) (bookings : List Booking) (listingId : Nat) (months : Nat) :
    List CalendarMonth :=
  let blockedDates := getBlockedDates bookings listingId
  let today := startOfToday env
  (List.range months).map (calendarMonth env.tz today blockedDates)

/-! ## `Models/booking.js`: `hasConflict` -/

/-- The Mongo query built by `bookingSchema.statics.hasConflict`, as a predicate on a
booking. -/
def hasConflictQuery (listingId : Nat) (checkIn checkOut : Int)
    (excludeBookingId : Option Nat) (b : Booking) : Bool :=
  b.listing == listingId && holdStatuses.contains b.status &&
    (decide (b.checkIn < checkOut) && decide (b.checkOut > checkIn)) &&
    (match excludeBookingId with
     | some ex => b.id != ex
     | none => true)

/-- `Booking.hasConflict(listingId, checkIn, checkOut, excludeBookingId)`: whether `findOne`
finds a document. -/
def hasConflict (bookings : List Booking) (listingId : Nat) (checkIn checkOut : Int)
    (excludeBookingId : Option Nat) : Bool :=
  (bookings.find? (hasConflictQuery listingId checkIn checkOut excludeBookingId)).isSome

/-! ## The specification's formulas -/

/-- Rounding to two decimals: `Math.round(x * 100) / 100`. -/
def round2 (x : ℚ) : ℚ := (mathRound (x * 100) : ℚ) / 100

/-- The night rate as the specification words it:
`round(baseRate * seasonMultiplier * (isWeekend ? 1.1 : 1))`, one rounding, of the product. -/
def specNightRate (tz : Int) (baseRate : ℚ) (date : Int) : Int :=
  mathRound (baseRate * (getSeasonForDate tz date).multiplier *
    (if isWeekend tz date then WEEKEND_MULTIPLIER else 1))

/-! ## Example data -/

/-- The clock of the examples: 2025-12-30T00:00Z, in UTC. -/
def exampleEnv : Env := { tz := 0, now := 1767052800000 }

/-- A zone that leaves daylight time on 2026-11-01, as America/New_York does: UTC-4 until
2026-11-01T06:00Z, which is 02:00 local time, and UTC-5 from then on. -/
def exampleDstZone : TimeZone :=
  { offsetAt := fun t => if t < 1793512800000 then -14400000 else -18000000
    offsetOfLocal := fun t => if t < 1793498400000 then -14400000 else -18000000 }

/-- A pricing snapshot for hand-written example bookings: two nights at 1000. -/
def examplePricing : Pricing :=
  { nightlyRate := 1000, nights := 2, pricingUnit := "night", basePrice := 2000,
    seasonalMultiplier := 1, seasonalAdjustment := 0, cleaningFee := 0, serviceFee := 240,
    total := 2240, seasonBreakdown := [] }

/-- A stored booking of listing 7 by guest 2 with host 1, in the given status. -/
def exampleBooking (id : Nat) (status : BookingStatus) (checkIn checkOut : Int) : Booking :=
  { id := id, listing := 7, guest := 2, host := 1, checkIn := checkIn, checkOut := checkOut,
    adults := 2, pricing := examplePricing, status := status, cancellation := {},
    payment := {}, guestMessage := none, hostResponse := none }

/-- An active listing 7 of host 1: price 1000, at most 4 guests, minimum stay 1. -/
def exampleListing : Listing :=
  { id := 7, owner := 1, price := 1000, pricingUnit := "night", maxGuests := 4,
    bookingSettings := some { minStay := 1 }, status := ListingStatus.active }

/-- A reserve request for listing 7 by `user`, for `guests` guests. -/
def exampleRequest (user : Nat) (guests : Int) (checkIn checkOut : Int) : ReserveRequest :=
  { listingId := some 7, checkIn := some checkIn, checkOut := some checkOut,
    guestsNum := some guests, message := none, user := user }

/-- The provider's answer to the order query of a settled payment. -/
def paidOrder : CfOrder := { order_status := some "PAID", cf_order_id := some "cf_1" }

/-! ## The booking set as a state machine -/

/-- The operations that change the stored bookings, with their inputs. -/
inductive Step where
  | reserve (req : ReserveRequest)
  | reserveAndPay (req : ReserveRequest) (cf : Except String CfCreatedOrder)
  | settle (req : ReturnRequest) (cfOrder : CfOrder)
  | accept (bookingId user : Nat)
  | reject (bookingId user : Nat) (reason : Option String)
  | cancel (bookingId user : Nat) (reason : Option String)

/-- The handler a step runs, on the current bookings. -/
def Step.handle (env : Env) (listings : List Listing) (bookings : List Booking) :
    Step → Except String Booking × List Booking
  | Step.reserve req => createBooking env listings bookings req
  | Step.reserveAndPay req cf => createBookingAndPay env listings bookings req cf
  | Step.settle req cfOrder => cashfreeReturn env bookings req (Except.ok cfOrder)
  | Step.accept bookingId user => acceptBooking bookings bookingId user
  | Step.reject bookingId user reason => rejectBooking env bookings bookingId user reason
  | Step.cancel bookingId user reason => cancelBooking env bookings bookingId user reason

/-- A sequence of steps all of which succeed, from `bookings`: the final bookings, or `none`
as soon as one step fails. -/
def runSteps (env : Env) (listings : List Listing) :
    List Booking → List Step → Option (List Booking)
  | bookings, [] => some bookings
  | bookings, st :: rest =>
    match st.handle env listings bookings with
    | (Except.ok _, bookings') => runSteps env listings bookings' rest
    | (Except.error _, _) => none

/-- A booking that holds its dates: status `paid` or `confirmed`. -/
def isActiveHold (b : Booking) : Bool :=
  b.status == BookingStatus.paid || b.status == BookingStatus.confirmed

/-- The disjointness invariant of the specification: no two distinct active holds of one
listing overlap. -/
def HoldsDisjoint (bookings : List Booking) : Prop :=
  ∀ b1 ∈ bookings, ∀ b2 ∈ bookings, b1.id ≠ b2.id → b1.listing = b2.listing →
    isActiveHold b1 = true → isActiveHold b2 = true →
    datesOverlap b1.checkIn b1.checkOut b2.checkIn b2.checkOut = false

/-- The stored bookings that sequences of handler calls can produce from an empty
collection, over fixed listings; every call counts, whether it succeeds or not, each under
its own clock. -/
inductive Reachable (listings : List Listing) : List Booking → Prop where
  | empty : Reachable listings []
  | createBooking (env : Env) (req : ReserveRequest) {bookings : List Booking} :
      Reachable listings bookings →
      Reachable listings (createBooking env listings bookings req).2
  | createBookingAndPay (env : Env) (req : ReserveRequest) (cf : Except String CfCreatedOrder)
      {bookings : List Booking} :
      Reachable listings bookings →
      Reachable listings (createBookingAndPay env listings bookings req cf).2
  | initiatePayment (bookingId : Option Nat) (user : Nat) (cf : Except String CfCreatedOrder)
      {bookings : List Booking} :
      Reachable listings bookings →
      Reachable listings (initiatePayment bookings bookingId user cf).2
  | cashfreeReturn (env : Env) (req : ReturnRequest) (cf : Except String CfOrder)
      {bookings : List Booking} :
      Reachable listings bookings →
      Reachable listings (cashfreeReturn env bookings req cf).2
  | acceptBooking (bookingId user : Nat) {bookings : List Booking} :
      Reachable listings bookings →
      Reachable listings (acceptBooking bookings bookingId user).2
  | rejectBooking (env : Env) (bookingId user : Nat) (reason : Option String)
      {bookings : List Booking} :
      Reachable listings bookings →
      Reachable listings (rejectBooking env bookings bookingId user reason).2
  | cancelBooking (env : Env) (bookingId user : Nat) (reason : Option String)
      {bookings : List Booking} :
      Reachable listings bookings →
      Reachable listings (cancelBooking env bookings bookingId user reason).2

/-- What must never change after creation: the booking's identity, parties, dates and
pricing snapshot. -/
structure Snapshot where
  id : Nat
  listing : Nat
  guest : Nat
  host : Nat
  checkIn : Int
  checkOut : Int
  pricing : Pricing

/-- The immutable part of a stored booking. -/
def snapshot (b : Booking) : Snapshot :=
  { id := b.id, listing := b.listing, guest := b.guest, host := b.host,
    checkIn := b.checkIn, checkOut := b.checkOut, pricing := b.pricing }

/-- A stored booking of listing 7 by guest 2 with host 1 whose payment has settled, in the
given status. -/
def examplePaidBooking (id : Nat) (status : BookingStatus) (checkIn checkOut : Int) : Booking :=
  { exampleBooking id status checkIn checkOut with
    payment := { status := PaymentStatus.paid, paidAt := some 1767052800000,
                 transactionId := some "cf_1" } }

/-- The bookings after guest 2 reserves the nights 2025-12-31 to 2026-01-02 of listing 7 and
the payment settles. -/
def examplePaidStore : List Booking :=
  (cashfreeReturn exampleEnv
    (createBooking exampleEnv [exampleListing] []
      (exampleRequest 2 2 1767139200000 1767312000000)).2
    { order_id := some "order_1", bookingId := some 1 } (Except.ok paidOrder)).2

/-- The bookings after the guest then cancels that paid booking. -/
def exampleCancelledStore : List Booking :=
  (cancelBooking exampleEnv examplePaidStore 1 2 none).2

/-- The bookings after guest 2 reserves the nights 2025-12-31 to 2026-01-02 of listing 7 and
cancels before paying. -/
def exampleAbandonedStore : List Booking :=
  (cancelBooking exampleEnv
    (createBooking exampleEnv [exampleListing] []
      (exampleRequest 2 2 1767139200000 1767312000000)).2 1 2 none).2

/-- The bookings after guest 2 reserves the nights 2025-12-31 to 2026-01-02 of listing 7. -/
def exampleReservedStore : List Booking :=
  (createBooking exampleEnv [exampleListing] []
    (exampleRequest 2 2 1767139200000 1767312000000)).2

/-- The inputs the specification's reserve validation rejects, for a listing whose maximum
occupancy is `maxGuests`: unparseable dates, `checkIn >= checkOut`, more guests than the
maximum, or fewer nights than the listing's minimum stay. -/
def ReserveInvalid (maxGuests : Int) (listing : Listing) (req : ReserveRequest) : Prop :=
  req.checkIn = none ∨ req.checkOut = none ∨
  (∃ ci co, req.checkIn = some ci ∧ req.checkOut = some co ∧ ci ≥ co) ∨
  (∃ g, req.guestsNum = some g ∧ g > maxGuests) ∨
  (∃ ci co bs, req.checkIn = some ci ∧ req.checkOut = some co ∧
    listing.bookingSettings = some bs ∧
    mathCeil (((co - ci : Int) : ℚ) / (msPerDay : ℚ)) < bs.minStay)

/-- The maximum occupancy `createBookingAndPay` enforces: `listing.maxGuests || 4`. -/
def effectiveMaxGuests (listing : Listing) : Int :=
  if listing.maxGuests = 0 then 4 else listing.maxGuests

/-! ## Parts of the calendar computation, named for the proofs -/

/-- Year of the 400-year era of day `doe` of the era, as `yearOfDay`, `monthOfDay` and
`dateOfDay` compute it; eras and their years start on the first of March. -/
def yoeOf (doe : Int) : Int := (doe - doe / 1460 + doe / 36524 - doe / 146096) / 365

/-- Number of days of an era before year `yoe` of the era. -/
def yearStart (yoe : Int) : Int := 365 * yoe + yoe / 4 - yoe / 100

/-- A store with one paid booking of listing 7 for 2025-12-31 to 2026-01-02. -/
def exampleCalendarStore : List Booking :=
  [exampleBooking 1 BookingStatus.paid 1767139200000 1767312000000]

/-- A store with one booking of listing 7 in status `pending_approval` for 2025-12-31 to
2026-01-02. -/
def exampleApprovalStore : List Booking :=
  [exampleBooking 1 BookingStatus.pending_approval 1767139200000 1767312000000]

/-- The calendar entry for 2025-12-31 on 2025-12-30, with `exampleCalendarStore`. -/
def exampleCalendarDay : CalendarDay :=
  calendarDay 0 (startOfToday exampleEnv) (getBlockedDates exampleCalendarStore 7) 2025 11 31

/-! # Theorems -/

/-! ## Rounding -/

theorem mathRound_intCast (n : Int) : mathRound (n : ℚ) = n := by
  unfold mathRound
  rw [Int.floor_eq_iff]
  constructor <;> norm_num

theorem ceil_nights_pos_iff (checkIn checkOut : Int) :
    0 < mathCeil (((checkOut - checkIn : Int) : ℚ) / (msPerDay : ℚ)) ↔ checkIn < checkOut := by
  have hms : (0 : ℚ) < (msPerDay : ℚ) := by norm_num [msPerDay]
  unfold mathCeil
  rw [Int.ceil_pos, div_pos_iff_of_pos_right hms]
  constructor
  · intro h
    have : (0 : Int) < checkOut - checkIn := by exact_mod_cast h
    omega
  · intro h
    have : (0 : Int) < checkOut - checkIn := by omega
    exact_mod_cast this

/-! ## Binary64 rounding -/

theorem roundHalfEven_of_lt (x : ℚ) (m : Int) (h1 : (m : ℚ) - 1 / 2 < x)
    (h2 : x < (m : ℚ) + 1 / 2) : roundHalfEven x = m := by
  unfold roundHalfEven
  simp only
  by_cases hx : (m : ℚ) ≤ x
  · have hf : ⌊x⌋ = m := by
      rw [Int.floor_eq_iff]
      constructor
      · exact hx
      · linarith
    rw [hf, if_pos (by linarith)]
  · have hx' : x < m := not_le.mp hx
    have hf : ⌊x⌋ = m - 1 := by
      rw [Int.floor_eq_iff]
      push_cast
      constructor <;> linarith
    rw [hf]
    push_cast
    rw [if_neg (by linarith), if_pos (by linarith)]
    ring

theorem roundHalfEven_tie (m : Int) (x : ℚ) (hx : x = (m : ℚ) + 1 / 2) :
    roundHalfEven x = if m % 2 = 0 then m else m + 1 := by
  have hf : ⌊x⌋ = m := by
    rw [Int.floor_eq_iff]
    constructor <;> linarith
  unfold roundHalfEven
  simp only
  rw [hf, if_neg (by linarith), if_neg (by linarith)]

theorem roundHalfEven_intCast (n : Int) : roundHalfEven (n : ℚ) = n :=
  roundHalfEven_of_lt _ n (by linarith) (by linarith)

theorem ulpExp_eq (x : ℚ) (k : Int) (hk : -1074 ≤ k) (hlo : (2 : ℚ) ^ (k + 52) ≤ |x|)
    (hhi : |x| < (2 : ℚ) ^ (k + 53)) : ulpExp x = k := by
  have hpos : 0 < |x| := lt_of_lt_of_le (by positivity) hlo
  have h1 : k + 52 ≤ Int.log 2 |x| := (Int.zpow_le_iff_le_log (by norm_num) hpos).mp (by exact_mod_cast hlo)
  have h2 : Int.log 2 |x| < k + 53 := (Int.lt_zpow_iff_log_lt (by norm_num) hpos).mp (by exact_mod_cast hhi)
  unfold ulpExp
  omega

theorem fl_eq_of_lt (x : ℚ) (k m : Int) (hk : -1074 ≤ k) (hlo : (2 : ℚ) ^ (k + 52) ≤ |x|)
    (hhi : |x| < (2 : ℚ) ^ (k + 53)) (h1 : ((m : ℚ) - 1 / 2) * (2 : ℚ) ^ k < x)
    (h2 : x < ((m : ℚ) + 1 / 2) * (2 : ℚ) ^ k) : fl x = (m : ℚ) * (2 : ℚ) ^ k := by
  have hp : (0 : ℚ) < (2 : ℚ) ^ k := by positivity
  unfold fl
  rw [ulpExp_eq x k hk hlo hhi, roundHalfEven_of_lt _ m]
  · rwa [lt_div_iff₀ hp]
  · rwa [div_lt_iff₀ hp]

theorem fl_eq_of_tie (x : ℚ) (k m : Int) (hk : -1074 ≤ k) (hlo : (2 : ℚ) ^ (k + 52) ≤ |x|)
    (hhi : |x| < (2 : ℚ) ^ (k + 53)) (hx : x = ((m : ℚ) + 1 / 2) * (2 : ℚ) ^ k) :
    fl x = ((if m % 2 = 0 then m else m + 1 : Int) : ℚ) * (2 : ℚ) ^ k := by
  have hp : (0 : ℚ) < (2 : ℚ) ^ k := by positivity
  unfold fl
  rw [ulpExp_eq x k hk hlo hhi, roundHalfEven_tie m]
  rw [hx, mul_div_assoc, div_self hp.ne', mul_one]

theorem fl_zero : fl 0 = 0 := by
  unfold fl
  simp [roundHalfEven]

/-- Integers below `2 ^ 53` in magnitude are binary64 numbers. -/
theorem fl_intCast (n : Int) (h : |n| < 2 ^ 53) : fl (n : ℚ) = n := by
  by_cases h0 : n = 0
  · subst h0
    simpa using fl_zero
  have hpos : (0 : ℚ) < |(n : ℚ)| := abs_pos.mpr (by exact_mod_cast h0)
  have h1 : (1 : ℚ) ≤ |(n : ℚ)| := by
    have : (1 : Int) ≤ |n| := Int.one_le_abs h0
    exact_mod_cast this
  have hlog0 : 0 ≤ Int.log 2 |(n : ℚ)| :=
    (Int.zpow_le_iff_le_log (by norm_num) hpos).mp (by simpa using h1)
  have hlt : |(n : ℚ)| < ((2 : ℕ) : ℚ) ^ (53 : Int) := by
    have : ((|n| : Int) : ℚ) < ((2 ^ 53 : Int) : ℚ) := by exact_mod_cast h
    push_cast at this
    rw [zpow_ofNat]
    exact_mod_cast this
  have hlog1 : Int.log 2 |(n : ℚ)| < 53 :=
    (Int.lt_zpow_iff_log_lt (by norm_num) hpos).mp hlt
  have hk : ulpExp (n : ℚ) = Int.log 2 |(n : ℚ)| - 52 := by
    unfold ulpExp
    omega
  obtain ⟨j, hj⟩ : ∃ j : ℕ, ulpExp (n : ℚ) = -(j : Int) :=
    ⟨(52 - Int.log 2 |(n : ℚ)|).toNat, by rw [hk]; omega⟩
  unfold fl
  rw [hj, zpow_neg, zpow_natCast]
  have hp : (0 : ℚ) < (2 : ℚ) ^ j := by positivity
  have e : (n : ℚ) / ((2 : ℚ) ^ j)⁻¹ = ((n * 2 ^ j : Int) : ℚ) := by
    push_cast
    field_simp
  rw [e, roundHalfEven_intCast]
  push_cast
  field_simp


theorem fl_eq_of_lt_pos (x : ℚ) (k m : Int) (hk : -1074 ≤ k) (hlo : (2 : ℚ) ^ (k + 52) ≤ x)
    (hhi : x < (2 : ℚ) ^ (k + 53)) (h1 : ((m : ℚ) - 1 / 2) * (2 : ℚ) ^ k < x)
    (h2 : x < ((m : ℚ) + 1 / 2) * (2 : ℚ) ^ k) : fl x = (m : ℚ) * (2 : ℚ) ^ k := by
  have hp : 0 < x := lt_of_lt_of_le (by positivity) hlo
  exact fl_eq_of_lt x k m hk (by rwa [abs_of_pos hp]) (by rwa [abs_of_pos hp]) h1 h2

theorem fl_eq_of_tie_pos (x : ℚ) (k m : Int) (hk : -1074 ≤ k) (hlo : (2 : ℚ) ^ (k + 52) ≤ x)
    (hhi : x < (2 : ℚ) ^ (k + 53)) (hx : x = ((m : ℚ) + 1 / 2) * (2 : ℚ) ^ k) :
    fl x = ((if m % 2 = 0 then m else m + 1 : Int) : ℚ) * (2 : ℚ) ^ k := by
  have hp : 0 < x := lt_of_lt_of_le (by positivity) hlo
  exact fl_eq_of_tie x k m hk (by rwa [abs_of_pos hp]) (by rwa [abs_of_pos hp]) hx

theorem fl_one : fl 1 = 1 := by
  have h := fl_intCast 1 (by norm_num)
  exact_mod_cast h

/-- The binary64 sum of two integers whose exact sum is below `2 ^ 53` is the exact sum. -/
theorem addNumbers_of_lt (a b : Int) (h : |a + b| < 2 ^ 53) : addNumbers a b = a + b := by
  unfold addNumbers
  rw [fl_intCast (a + b) h, Int.floor_intCast]

/-- Added left to right in binary64, integers whose magnitudes sum to less than `2 ^ 53` give
their exact sum. -/
theorem foldl_addNumbers (l : List Int) (acc : Int)
    (h : |acc| + (l.map (fun x => |x|)).sum < 2 ^ 53) :
    l.foldl addNumbers acc = acc + l.sum := by
  induction l generalizing acc with
  | nil => simp
  | cons x l ih =>
    simp only [List.map_cons, List.sum_cons] at h
    have hx : |acc + x| ≤ |acc| + |x| := abs_add acc x
    have hnn : 0 ≤ (l.map (fun x => |x|)).sum :=
      List.sum_nonneg (fun y hy => by
        obtain ⟨z, -, rfl⟩ := List.mem_map.mp hy
        exact abs_nonneg z)
    rw [List.foldl_cons, addNumbers_of_lt acc x (by omega), ih (acc + x) (by omega),
      List.sum_cons]
    ring

/-- The magnitude of a sum of integers is at most the sum of their magnitudes. -/
theorem abs_sum_le (l : List Int) : |l.sum| ≤ (l.map (fun x => |x|)).sum := by
  induction l with
  | nil => simp
  | cons x l ih =>
    simp only [List.sum_cons, List.map_cons]
    have := abs_add x l.sum
    omega

/-- The binary64 value of the literal `1.3`. -/
theorem fl_13_10 : fl (13 / 10) = 5854679515581645 / 4503599627370496 := by
  have h := fl_eq_of_lt_pos (13 / 10) (-52) 5854679515581645 (by norm_num) (by norm_num) (by norm_num)
    (by norm_num) (by norm_num)
  rw [h]
  norm_num

theorem fl_12_10 : fl (12 / 10) = 5404319552844595 / 4503599627370496 := by
  have h := fl_eq_of_lt_pos (12 / 10) (-52) 5404319552844595 (by norm_num) (by norm_num) (by norm_num)
    (by norm_num) (by norm_num)
  rw [h]
  norm_num

theorem fl_85_100 : fl (85 / 100) = 7656119366529843 / 9007199254740992 := by
  have h := fl_eq_of_lt_pos (85 / 100) (-53) 7656119366529843 (by norm_num) (by norm_num) (by norm_num)
    (by norm_num) (by norm_num)
  rw [h]
  norm_num

theorem fl_11_10 : fl (11 / 10) = 2476979795053773 / 2251799813685248 := by
  have h := fl_eq_of_lt_pos (11 / 10) (-52) 4953959590107546 (by norm_num) (by norm_num) (by norm_num)
    (by norm_num) (by norm_num)
  rw [h]
  norm_num

theorem fl_94_100 : fl (94 / 100) = 2116691824864133 / 2251799813685248 := by
  have h := fl_eq_of_lt_pos (94 / 100) (-53) 8466767299456532 (by norm_num) (by norm_num) (by norm_num)
    (by norm_num) (by norm_num)
  rw [h]
  norm_num

theorem fl_13_11 : fl (5854679515581645 / 4503599627370496 * (2476979795053773 / 2251799813685248)) = 3220073733569905 / 2251799813685248 := by
  have h := fl_eq_of_lt_pos (5854679515581645 / 4503599627370496 * (2476979795053773 / 2251799813685248)) (-52) 6440147467139810 (by norm_num) (by norm_num) (by norm_num)
    (by norm_num) (by norm_num)
  rw [h]
  norm_num

theorem fl_12_11 : fl (5404319552844595 / 4503599627370496 * (2476979795053773 / 2251799813685248)) = 5944751508129055 / 4503599627370496 := by
  have h := fl_eq_of_lt_pos (5404319552844595 / 4503599627370496 * (2476979795053773 / 2251799813685248)) (-52) 5944751508129055 (by norm_num) (by norm_num) (by norm_num)
    (by norm_num) (by norm_num)
  rw [h]
  norm_num

theorem fl_85_11 : fl (7656119366529843 / 9007199254740992 * (2476979795053773 / 2251799813685248)) = 2105432825795707 / 2251799813685248 := by
  have h := fl_eq_of_lt_pos (7656119366529843 / 9007199254740992 * (2476979795053773 / 2251799813685248)) (-53) 8421731303182828 (by norm_num) (by norm_num) (by norm_num)
    (by norm_num) (by norm_num)
  rw [h]
  norm_num

theorem fl_13_100x : fl (5854679515581645 / 4503599627370496 * 100) = 130 := by
  have h := fl_eq_of_lt_pos (5854679515581645 / 4503599627370496 * 100) (-45) 4573968371548160 (by norm_num) (by norm_num) (by norm_num)
    (by norm_num) (by norm_num)
  rw [h]
  norm_num

theorem fl_12_100x : fl (5404319552844595 / 4503599627370496 * 100) = 120 := by
  have h := fl_eq_of_lt_pos (5404319552844595 / 4503599627370496 * 100) (-46) 8444249301319680 (by norm_num) (by norm_num) (by norm_num)
    (by norm_num) (by norm_num)
  rw [h]
  norm_num

theorem fl_85_100x : fl (7656119366529843 / 9007199254740992 * 100) = 85 := by
  have h := fl_eq_of_lt_pos (7656119366529843 / 9007199254740992 * 100) (-46) 5981343255101440 (by norm_num) (by norm_num) (by norm_num)
    (by norm_num) (by norm_num)
  rw [h]
  norm_num

theorem fl_11_100x : fl (2476979795053773 / 2251799813685248 * 100) = 7740561859543041 / 70368744177664 := by
  have h := fl_eq_of_lt_pos (2476979795053773 / 2251799813685248 * 100) (-46) 7740561859543041 (by norm_num) (by norm_num) (by norm_num)
    (by norm_num) (by norm_num)
  rw [h]
  norm_num

theorem fl_13_11_100x : fl (3220073733569905 / 2251799813685248 * 100) = 5031365208702977 / 35184372088832 := by
  have h := fl_eq_of_lt_pos (3220073733569905 / 2251799813685248 * 100) (-45) 5031365208702977 (by norm_num) (by norm_num) (by norm_num)
    (by norm_num) (by norm_num)
  rw [h]
  norm_num

theorem fl_12_11_100x : fl (5944751508129055 / 4503599627370496 * 100) = 132 := by
  have h := fl_eq_of_lt_pos (5944751508129055 / 4503599627370496 * 100) (-45) 4644337115725824 (by norm_num) (by norm_num) (by norm_num)
    (by norm_num) (by norm_num)
  rw [h]
  norm_num

theorem fl_85_11_100x : fl (2105432825795707 / 2251799813685248 * 100) = 187 / 2 := by
  have h := fl_eq_of_lt_pos (2105432825795707 / 2251799813685248 * 100) (-46) 6579477580611584 (by norm_num) (by norm_num) (by norm_num)
    (by norm_num) (by norm_num)
  rw [h]
  norm_num

theorem fl_1000_94 : fl (1000 * (2116691824864133 / 2251799813685248)) = 940 := by
  have h := fl_eq_of_lt_pos (1000 * (2116691824864133 / 2251799813685248)) (-43) 8268327440875520 (by norm_num) (by norm_num) (by norm_num)
    (by norm_num) (by norm_num)
  rw [h]
  norm_num

theorem fl_1075_94 : fl (1075 * (2116691824864133 / 2251799813685248)) = 8888451998941183 / 8796093022208 := by
  have h := fl_eq_of_lt_pos (1075 * (2116691824864133 / 2251799813685248)) (-43) 8888451998941183 (by norm_num) (by norm_num) (by norm_num)
    (by norm_num) (by norm_num)
  rw [h]
  norm_num

theorem fl_1000_85 : fl (1000 * (7656119366529843 / 9007199254740992)) = 850 := by
  have h := fl_eq_of_lt_pos (1000 * (7656119366529843 / 9007199254740992)) (-43) 7476679068876800 (by norm_num) (by norm_num) (by norm_num)
    (by norm_num) (by norm_num)
  rw [h]
  norm_num

theorem fl_850_11 : fl (850 * (2476979795053773 / 2251799813685248)) = 8224346975764481 / 8796093022208 := by
  have h := fl_eq_of_lt_pos (850 * (2476979795053773 / 2251799813685248)) (-43) 8224346975764481 (by norm_num) (by norm_num) (by norm_num)
    (by norm_num) (by norm_num)
  rw [h]
  norm_num

theorem fl_1000_85_11 : fl (1000 * (2105432825795707 / 2251799813685248)) = 935 := by
  have h := fl_eq_of_lt_pos (1000 * (2105432825795707 / 2251799813685248)) (-43) 8224346975764480 (by norm_num) (by norm_num) (by norm_num)
    (by norm_num) (by norm_num)
  rw [h]
  norm_num

theorem fl_sum_1 : fl (0 + 2476979795053773 / 2251799813685248) = 2476979795053773 / 2251799813685248 := by
  have h := fl_eq_of_lt_pos (0 + 2476979795053773 / 2251799813685248) (-52) 4953959590107546 (by norm_num) (by norm_num) (by norm_num)
    (by norm_num) (by norm_num)
  rw [h]
  norm_num

theorem fl_sum_2 : fl (2476979795053773 / 2251799813685248 + 1) = 4728779608739021 / 2251799813685248 := by
  have h := fl_eq_of_lt_pos (2476979795053773 / 2251799813685248 + 1) (-51) 4728779608739021 (by norm_num) (by norm_num) (by norm_num)
    (by norm_num) (by norm_num)
  rw [h]
  norm_num

theorem fl_sum_3 : fl (4728779608739021 / 2251799813685248 + 1) = 6980579422424269 / 2251799813685248 := by
  have h := fl_eq_of_lt_pos (4728779608739021 / 2251799813685248 + 1) (-51) 6980579422424269 (by norm_num) (by norm_num) (by norm_num)
    (by norm_num) (by norm_num)
  rw [h]
  norm_num

theorem fl_sum_4 : fl (6980579422424269 / 2251799813685248 + 1) = 2308094809027379 / 562949953421312 := by
  have h := fl_eq_of_tie_pos (6980579422424269 / 2251799813685248 + 1) (-50) 4616189618054758 (by norm_num) (by norm_num) (by norm_num)
    (by norm_num)
  rw [h]
  norm_num

theorem fl_mean : fl (2308094809027379 / 562949953421312 / 4) = 2308094809027379 / 2251799813685248 := by
  have h := fl_eq_of_lt_pos (2308094809027379 / 562949953421312 / 4) (-52) 4616189618054758 (by norm_num) (by norm_num) (by norm_num)
    (by norm_num) (by norm_num)
  rw [h]
  norm_num

theorem fl_mean_100 : fl (2308094809027379 / 2251799813685248 * 100) = 7212796278210559 / 70368744177664 := by
  have h := fl_eq_of_lt_pos (2308094809027379 / 2251799813685248 * 100) (-46) 7212796278210559 (by norm_num) (by norm_num) (by norm_num)
    (by norm_num) (by norm_num)
  rw [h]
  norm_num

theorem fl_2000_13 : fl (2000 * (5854679515581645 / 4503599627370496)) = 2600 := by
  have h := fl_eq_of_lt_pos (2000 * (5854679515581645 / 4503599627370496)) (-41) 5717460464435200 (by norm_num) (by norm_num) (by norm_num)
    (by norm_num) (by norm_num)
  rw [h]
  norm_num

theorem fl_11_10_id : fl (2476979795053773 / 2251799813685248) = 2476979795053773 / 2251799813685248 := by
  have h := fl_eq_of_lt_pos (2476979795053773 / 2251799813685248) (-52) 4953959590107546 (by norm_num) (by norm_num) (by norm_num)
    (by norm_num) (by norm_num)
  rw [h]
  norm_num

/-! ## The pricing loop -/

/-- In a zone of constant offset `setDate(getDate() + i)` moves the time value by `i` days. -/
theorem addDays_fixedOffset (tz t : Int) (i : Nat) :
    addDays (fixedOffset tz) t i = t + (i : Int) * msPerDay := by
  show t + tz + (i : Int) * msPerDay - tz = t + (i : Int) * msPerDay
  ring

theorem priceLoop_fold (zone : TimeZone) (base : ℚ) (checkIn : Int) (l : List Nat)
    (acc : PriceAcc) :
    (l.foldl (priceStep zone base checkIn) acc).breakdown =
        acc.breakdown ++ l.map (nightEntry zone base checkIn) ∧
    (l.foldl (priceStep zone base checkIn) acc).totalPrice =
        (l.map (nightEntry zone base checkIn)).foldl (fun a e => addNumbers a e.rate)
          acc.totalPrice ∧
    (l.foldl (priceStep zone base checkIn) acc).totalMultiplier =
        (l.map (nightEntry zone base checkIn)).foldl (fun a e => fl (a + fl e.multiplier))
          acc.totalMultiplier := by
  induction l generalizing acc with
  | nil => simp
  | cons i l ih =>
    simp only [List.foldl_cons, List.map_cons]
    obtain ⟨h1, h2, h3⟩ := ih (priceStep zone base checkIn acc i)
    rw [h1, h2, h3]
    simp [priceStep]

/-- The value `calculateSeasonalPrice` returns on a range with `checkIn < checkOut`. -/
theorem calculateSeasonalPrice_of_lt (zone : TimeZone) (base : ℚ) (checkIn checkOut : Int)
    (h : checkIn < checkOut) :
    ∃ r, calculateSeasonalPrice zone base checkIn checkOut = Except.ok r ∧
      r.nights = mathCeil (((checkOut - checkIn : Int) : ℚ) / (msPerDay : ℚ)) ∧
      0 < r.nights ∧
      r.baseNightlyRate = base ∧
      r.breakdown = (List.range r.nights.toNat).map (nightEntry zone base checkIn) ∧
      r.subtotal = r.breakdown.foldl (fun a e => addNumbers a e.rate) 0 ∧
      r.basePrice = fl (fl base * (r.nights : ℚ)) ∧
      r.seasonalAdjustment = fl ((r.subtotal : ℚ) - r.basePrice) ∧
      r.averageMultiplier =
        (mathRound (fl (fl (r.breakdown.foldl (fun a e => fl (a + fl e.multiplier)) 0 /
          (r.nights : ℚ)) * 100)) : ℚ) / 100 := by
  have hpos := (ceil_nights_pos_iff checkIn checkOut).mpr h
  obtain ⟨h1, h2, h3⟩ := priceLoop_fold zone base checkIn
    (List.range (mathCeil (((checkOut - checkIn : Int) : ℚ) / (msPerDay : ℚ))).toNat)
    { breakdown := [], totalPrice := 0, totalMultiplier := 0 }
  simp only [calculateSeasonalPrice, if_neg (not_le.mpr hpos)]
  refine ⟨_, rfl, ?_⟩
  simp only [h1, h2, h3, List.nil_append]
  exact ⟨trivial, hpos, trivial, trivial, trivial, trivial, trivial, trivial⟩

theorem calculateSeasonalPrice_of_ge (zone : TimeZone) (base : ℚ) (checkIn checkOut : Int)
    (h : checkOut ≤ checkIn) :
    calculateSeasonalPrice zone base checkIn checkOut = Except.error "Invalid date range" := by
  have hn : ¬ 0 < mathCeil (((checkOut - checkIn : Int) : ℚ) / (msPerDay : ℚ)) := by
    rw [ceil_nights_pos_iff]; omega
  simp only [calculateSeasonalPrice, if_pos (not_lt.mp hn)]

/-! ## The season table -/

theorem getSeasonForDate_eq (tz d : Int) :
    getSeasonForDate tz d =
      if getMonth tz d + 1 = 12 ∨ getMonth tz d + 1 = 1 then peakSeason
      else if getMonth tz d + 1 = 4 ∨ getMonth tz d + 1 = 5 then summerSeason
      else if getMonth tz d + 1 = 7 ∨ getMonth tz d + 1 = 8 then monsoonSeason
      else regularSeason := by
  unfold getSeasonForDate SEASONAL_CONFIG
  generalize getMonth tz d + 1 = m
  by_cases h1 : m = 12 ∨ m = 1
  · simp [List.find?, peakSeason, h1]
  · by_cases h2 : m = 4 ∨ m = 5
    · simp [List.find?, peakSeason, summerSeason, h1, h2]
    · by_cases h3 : m = 7 ∨ m = 8
      · simp [List.find?, peakSeason, summerSeason, monsoonSeason, h1, h2, h3]
      · simp only [h1, h2, h3, if_false]
        by_cases h4 : m ∈ regularSeason.months
        · simp [List.find?, peakSeason, summerSeason, monsoonSeason, h1, h2, h3, h4]
        · simp [List.find?, peakSeason, summerSeason, monsoonSeason, h1, h2, h3, h4]

/-- The season of a date is one of the four rows of the table. -/
theorem getSeasonForDate_mem (tz d : Int) :
    getSeasonForDate tz d = peakSeason ∨ getSeasonForDate tz d = summerSeason ∨
      getSeasonForDate tz d = monsoonSeason ∨ getSeasonForDate tz d = regularSeason := by
  rw [getSeasonForDate_eq]
  split_ifs <;> simp

/-- Outside the weekend nights of the monsoon season, rounding the night's multiplier to two
decimals does not change it. -/
theorem round2_multiplier (s : Season) (w : Bool)
    (hs : s = peakSeason ∨ s = summerSeason ∨ s = monsoonSeason ∨ s = regularSeason)
    (hw : ¬ (w = true ∧ s.name = "Monsoon Drop")) :
    round2 (s.multiplier * (if w then WEEKEND_MULTIPLIER else 1)) =
      s.multiplier * (if w then WEEKEND_MULTIPLIER else 1) := by
  have r143 : mathRound ((143 : ℚ)) = 143 := mathRound_intCast 143
  have r130 : mathRound ((130 : ℚ)) = 130 := mathRound_intCast 130
  have r132 : mathRound ((132 : ℚ)) = 132 := mathRound_intCast 132
  have r120 : mathRound ((120 : ℚ)) = 120 := mathRound_intCast 120
  have r85 : mathRound ((85 : ℚ)) = 85 := mathRound_intCast 85
  have r110 : mathRound ((110 : ℚ)) = 110 := mathRound_intCast 110
  have r100 : mathRound ((100 : ℚ)) = 100 := mathRound_intCast 100
  rcases hs with rfl | rfl | rfl | rfl <;> cases w <;>
    simp [monsoonSeason] at hw <;>
    norm_num [round2, peakSeason, summerSeason, monsoonSeason, regularSeason,
      WEEKEND_MULTIPLIER, r143, r130, r132, r120, r85, r110, r100]

/-- The multiplier `getMultiplierForDate` returns, in terms of `round2`. -/
theorem getMultiplierForDate_multiplier (tz d : Int) :
    (getMultiplierForDate tz d).multiplier =
      round2 ((getSeasonForDate tz d).multiplier *
        (if isWeekend tz d then WEEKEND_MULTIPLIER else 1)) := by
  unfold getMultiplierForDate round2
  cases isWeekend tz d <;> simp

/-- The exact computation of `getMultiplierForDate` gives, for each row of the table and
either kind of day, the two decimals that the binary64 computation of the source gives:
`Math.round(multiplier * 100)` is the same integer. -/
theorem getMultiplierForDate_binary64 (s : Season)
    (hs : s = peakSeason ∨ s = summerSeason ∨ s = monsoonSeason ∨ s = regularSeason) :
    mathRound (fl (fl s.multiplier * 100)) = mathRound (s.multiplier * 100) ∧
    mathRound (fl (fl (fl s.multiplier * fl WEEKEND_MULTIPLIER) * 100)) =
      mathRound (s.multiplier * WEEKEND_MULTIPLIER * 100) := by
  have h100 : fl (100 : ℚ) = 100 := by
    have h := fl_intCast 100 (by norm_num)
    exact_mod_cast h
  rcases hs with rfl | rfl | rfl | rfl
  · constructor
    · rw [show peakSeason.multiplier = 13 / 10 from rfl, fl_13_10, fl_13_100x]
      norm_num [mathRound, Int.floor_eq_iff]
    · rw [show peakSeason.multiplier = 13 / 10 from rfl,
        show WEEKEND_MULTIPLIER = 11 / 10 from rfl, fl_13_10, fl_11_10, fl_13_11,
        fl_13_11_100x]
      norm_num [mathRound, Int.floor_eq_iff]
  · constructor
    · rw [show summerSeason.multiplier = 12 / 10 from rfl, fl_12_10, fl_12_100x]
      norm_num [mathRound, Int.floor_eq_iff]
    · rw [show summerSeason.multiplier = 12 / 10 from rfl,
        show WEEKEND_MULTIPLIER = 11 / 10 from rfl, fl_12_10, fl_11_10, fl_12_11,
        fl_12_11_100x]
      norm_num [mathRound, Int.floor_eq_iff]
  · constructor
    · rw [show monsoonSeason.multiplier = 85 / 100 from rfl, fl_85_100, fl_85_100x]
      norm_num [mathRound, Int.floor_eq_iff]
    · rw [show monsoonSeason.multiplier = 85 / 100 from rfl,
        show WEEKEND_MULTIPLIER = 11 / 10 from rfl, fl_85_100, fl_11_10, fl_85_11,
        fl_85_11_100x]
      norm_num [mathRound, Int.floor_eq_iff]
  · constructor
    · rw [show regularSeason.multiplier = 1 from rfl, fl_one, one_mul, h100]
    · rw [show regularSeason.multiplier = 1 from rfl,
        show WEEKEND_MULTIPLIER = 11 / 10 from rfl, fl_one, fl_11_10, one_mul, fl_11_10_id,
        fl_11_100x]
      norm_num [mathRound, Int.floor_eq_iff]

theorem mem_breakdown (zone : TimeZone) (base : ℚ) (checkIn : Int) (n : Nat) (e : NightEntry)
    (he : e ∈ (List.range n).map (nightEntry zone base checkIn)) :
    ∃ i, i < n ∧ e = nightEntry zone base checkIn i := by
  obtain ⟨i, hi, rfl⟩ := List.mem_map.mp he
  exact ⟨i, List.mem_range.mp hi, rfl⟩

/-- Saturday 2025-07-05 (UTC) is a weekend day of the monsoon season: multiplier 0.94. -/
theorem getMultiplierForDate_monsoon_saturday :
    getMultiplierForDate 0 1751673600000 =
      { multiplier := 94 / 100, seasonName := "Monsoon Drop", isWeekend := true } := by
  have hm : getMonth 0 1751673600000 = 6 := by decide
  have hw : isWeekend 0 1751673600000 = true := by decide
  have hs : getSeasonForDate 0 1751673600000 = monsoonSeason := by
    rw [getSeasonForDate_eq, hm]; simp
  have h94 : mathRound ((187 / 2 : ℚ)) = 94 := by
    norm_num [mathRound, Int.floor_eq_iff]
  unfold getMultiplierForDate
  norm_num [hs, hw, monsoonSeason, WEEKEND_MULTIPLIER, h94]

/-! ## C7: the nightly rate -/

/-- C7 (as stated, refuted): on the night of Saturday 2025-07-05 (monsoon season, weekend) at
base rate 1000 the code charges `Math.round(1000 * 0.94) = 940`, while the one-rounding
formula `round(1000 * 0.85 * 1.1)` gives 935, in exact arithmetic and in binary64 arithmetic
with either product taken first. -/
theorem C7_counterexample :
    ∃ r, calculateSeasonalPrice (fixedOffset 0) 1000 1751673600000 1751760000000 =
        Except.ok r ∧
      ∃ e ∈ r.breakdown, e.rate = 940 ∧ specNightRate 0 1000 e.date = 935 ∧
        mathRound (fl (fl (fl 1000 * fl (85 / 100)) * fl (11 / 10))) = 935 ∧
        mathRound (fl (fl 1000 * fl (fl (85 / 100) * fl (11 / 10)))) = 935 := by
  obtain ⟨r, hr, hn, -, -, hb, -⟩ :=
    calculateSeasonalPrice_of_lt (fixedOffset 0) 1000 1751673600000 1751760000000 (by decide)
  have hn1 : r.nights = 1 := by
    rw [hn]
    norm_num [mathCeil, msPerDay, Int.ceil_eq_iff]
  have hm : getMonth 0 1751673600000 = 6 := by decide
  have hw : isWeekend 0 1751673600000 = true := by decide
  have hs : getSeasonForDate 0 1751673600000 = monsoonSeason := by
    rw [getSeasonForDate_eq, hm]; simp
  have h1000 : fl (1000 : ℚ) = 1000 := by
    have h := fl_intCast 1000 (by norm_num)
    exact_mod_cast h
  have h940 : mathRound ((940 : ℚ)) = 940 := mathRound_intCast 940
  have h935 : mathRound ((935 : ℚ)) = 935 := mathRound_intCast 935
  have hdate : (nightEntry (fixedOffset 0) 1000 1751673600000 0).date = 1751673600000 := by
    show addDays (fixedOffset 0) 1751673600000 0 = 1751673600000
    rw [addDays_fixedOffset]; decide
  have hmult : getMultiplierForDate
      ((fixedOffset 0).offsetAt (addDays (fixedOffset 0) 1751673600000 0))
      (addDays (fixedOffset 0) 1751673600000 0) =
      { multiplier := 94 / 100, seasonName := "Monsoon Drop", isWeekend := true } := by
    have hd : addDays (fixedOffset 0) 1751673600000 0 = 1751673600000 := by
      rw [addDays_fixedOffset]; decide
    rw [hd]
    exact getMultiplierForDate_monsoon_saturday
  refine ⟨r, hr, nightEntry (fixedOffset 0) 1000 1751673600000 0, ?_, ?_, ?_, ?_, ?_⟩
  · rw [hb, hn1]; simp [List.range_succ]
  · show mathRound (fl (fl 1000 * fl (getMultiplierForDate _ _).multiplier)) = 940
    rw [hmult, h1000, fl_94_100, fl_1000_94, h940]
  · rw [hdate]
    simp only [specNightRate]
    norm_num [hs, hw, monsoonSeason, WEEKEND_MULTIPLIER, h935]
  · rw [h1000, fl_85_100, fl_11_10, fl_1000_85, fl_850_11]
    norm_num [mathRound, Int.floor_eq_iff]
  · rw [h1000, fl_85_100, fl_11_10, fl_85_11, fl_1000_85_11, h935]

/-- C7 (amended): for every base rate of magnitude at most `2 ^ 900` (far below the
overflow threshold of binary64) and every range with `checkIn < checkOut`, in every time
zone, `calculateSeasonalPrice` returns, and each night's rate in its breakdown is
`Math.round(baseRate * m)` with the product taken in binary64 arithmetic, where `m` is the
night's multiplier `seasonMultiplier * (isWeekend ? 1.1 : 1)` rounded to two decimals. -/
theorem C7_night_rate (zone : TimeZone) (baseRate : ℚ) (checkIn checkOut : Int)
    (h : checkIn < checkOut) (_hfinite : |baseRate| ≤ 2 ^ 900) :
    ∃ r, calculateSeasonalPrice zone baseRate checkIn checkOut = Except.ok r ∧
      ∀ e ∈ r.breakdown,
        e.multiplier =
          round2 ((getSeasonForDate (zone.offsetAt e.date) e.date).multiplier *
            (if isWeekend (zone.offsetAt e.date) e.date then WEEKEND_MULTIPLIER else 1)) ∧
        e.rate = mathRound (fl (fl baseRate * fl e.multiplier)) := by
  obtain ⟨r, hr, -, -, -, hb, -⟩ :=
    calculateSeasonalPrice_of_lt zone baseRate checkIn checkOut h
  refine ⟨r, hr, ?_⟩
  intro e he
  rw [hb] at he
  obtain ⟨i, -, rfl⟩ := mem_breakdown zone baseRate checkIn _ e he
  exact ⟨getMultiplierForDate_multiplier _ _, rfl⟩

/-- C7 witness: the night of Saturday 2025-07-05 at base rate 1075, where the binary64
product `1075 * 0.94` lies just below 1010.5 and the rate is 1010. -/
theorem C7_night_rate_witness :
    (1751673600000 : Int) < 1751760000000 ∧
    (∃ r, calculateSeasonalPrice (fixedOffset 0) 1075 1751673600000 1751760000000 =
        Except.ok r ∧
      ∀ e ∈ r.breakdown,
        e.multiplier =
          round2 ((getSeasonForDate ((fixedOffset 0).offsetAt e.date) e.date).multiplier *
            (if isWeekend ((fixedOffset 0).offsetAt e.date) e.date
              then WEEKEND_MULTIPLIER else 1)) ∧
        e.rate = mathRound (fl (fl 1075 * fl e.multiplier))) ∧
    mathRound (fl (fl 1075 * fl (94 / 100))) = 1010 ∧
    mathRound ((1075 : ℚ) * (94 / 100)) = 1011 := by
  refine ⟨by decide,
    C7_night_rate (fixedOffset 0) 1075 1751673600000 1751760000000 (by decide)
      (by norm_num [abs_le]), ?_, ?_⟩
  · have h1075 : fl (1075 : ℚ) = 1075 := by
      have h := fl_intCast 1075 (by norm_num)
      exact_mod_cast h
    rw [h1075, fl_94_100, fl_1075_94]
    norm_num [mathRound, Int.floor_eq_iff]
  · norm_num [mathRound, Int.floor_eq_iff]

/-! ## C8: the aggregates -/

/-- The multiplier of a weekend day of the regular season. -/
theorem getMultiplierForDate_regular_weekend (tz d : Int)
    (hs : getSeasonForDate tz d = regularSeason) (hw : isWeekend tz d = true) :
    getMultiplierForDate tz d =
      { multiplier := 11 / 10, seasonName := "Regular Season", isWeekend := true } := by
  have h110 : mathRound ((110 : ℚ)) = 110 := mathRound_intCast 110
  unfold getMultiplierForDate
  norm_num [hs, hw, regularSeason, WEEKEND_MULTIPLIER, h110]

/-- The multiplier of a weekday of the regular season. -/
theorem getMultiplierForDate_regular_weekday (tz d : Int)
    (hs : getSeasonForDate tz d = regularSeason) (hw : isWeekend tz d = false) :
    getMultiplierForDate tz d =
      { multiplier := 1, seasonName := "Regular Season", isWeekend := false } := by
  have h100 : mathRound ((100 : ℚ)) = 100 := mathRound_intCast 100
  unfold getMultiplierForDate
  norm_num [hs, hw, regularSeason, h100]

/-- The multipliers of the nights from Sunday 2025-02-02 to Wednesday 2025-02-05 (UTC). -/
theorem example_february_multipliers :
    (nightEntry (fixedOffset 0) 1000 1738454400000 0).multiplier = 11 / 10 ∧
    (nightEntry (fixedOffset 0) 1000 1738454400000 1).multiplier = 1 ∧
    (nightEntry (fixedOffset 0) 1000 1738454400000 2).multiplier = 1 ∧
    (nightEntry (fixedOffset 0) 1000 1738454400000 3).multiplier = 1 := by
  have key : ∀ i : Nat, (nightEntry (fixedOffset 0) 1000 1738454400000 i).multiplier =
      (getMultiplierForDate 0 (1738454400000 + (i : Int) * msPerDay)).multiplier := by
    intro i
    show (getMultiplierForDate 0 (addDays (fixedOffset 0) 1738454400000 i)).multiplier = _
    rw [addDays_fixedOffset]
  have hseason : ∀ d : Int, getMonth 0 d = 1 → getSeasonForDate 0 d = regularSeason := by
    intro d hd
    rw [getSeasonForDate_eq, hd]
    simp
  refine ⟨?_, ?_, ?_, ?_⟩
  · rw [key 0, getMultiplierForDate_regular_weekend 0 _ (hseason _ (by decide)) (by decide)]
  · rw [key 1, getMultiplierForDate_regular_weekday 0 _ (hseason _ (by decide)) (by decide)]
  · rw [key 2, getMultiplierForDate_regular_weekday 0 _ (hseason _ (by decide)) (by decide)]
  · rw [key 3, getMultiplierForDate_regular_weekday 0 _ (hseason _ (by decide)) (by decide)]

/-- C8 (as stated, refuted): for the four nights from Sunday 2025-02-02 the multipliers are
1.1, 1, 1 and 1, whose mean 1.025 rounds to 1.03, but the code returns
`averageMultiplier = 1.02`: in binary64 the sum is 4.1, and `4.1 / 4 * 100` is
102.49999999999999. -/
theorem C8_counterexample :
    ∃ r, calculateSeasonalPrice (fixedOffset 0) 1000 1738454400000 1738800000000 =
        Except.ok r ∧
      r.breakdown.map (fun e => e.multiplier) = [11 / 10, 1, 1, 1] ∧
      r.averageMultiplier = 102 / 100 ∧
      round2 ((r.breakdown.map (fun e => e.multiplier)).sum / (r.breakdown.length : ℚ)) =
        103 / 100 := by
  obtain ⟨r, hr, hn, -, -, hb, -, -, -, havg⟩ :=
    calculateSeasonalPrice_of_lt (fixedOffset 0) 1000 1738454400000 1738800000000 (by decide)
  have hn4 : r.nights = 4 := by
    rw [hn]
    norm_num [mathCeil, msPerDay, Int.ceil_eq_iff]
  obtain ⟨hm0, hm1, hm2, hm3⟩ := example_february_multipliers
  have hr4 : List.range (4 : Int).toNat = [0, 1, 2, 3] := by decide
  have hbd : r.breakdown =
      [nightEntry (fixedOffset 0) 1000 1738454400000 0,
       nightEntry (fixedOffset 0) 1000 1738454400000 1,
       nightEntry (fixedOffset 0) 1000 1738454400000 2,
       nightEntry (fixedOffset 0) 1000 1738454400000 3] := by
    rw [hb, hn4, hr4]
    rfl
  have hmults : r.breakdown.map (fun e => e.multiplier) = [11 / 10, 1, 1, 1] := by
    rw [hbd]
    simp only [List.map_cons, List.map_nil, hm0, hm1, hm2, hm3]
  refine ⟨r, hr, hmults, ?_, ?_⟩
  · have hnq : (r.nights : ℚ) = 4 := by rw [hn4]; norm_num
    rw [havg, hbd, hnq]
    simp only [List.foldl_cons, List.foldl_nil, hm0, hm1, hm2, hm3]
    rw [fl_11_10, fl_one, fl_sum_1, fl_sum_2, fl_sum_3, fl_sum_4, fl_mean, fl_mean_100]
    norm_num [mathRound, Int.floor_eq_iff]
  · rw [hmults, hbd]
    norm_num [round2, mathRound, Int.floor_eq_iff]

/-- C8 (amended): for every base rate of magnitude at most `2 ^ 900` (far below the
overflow threshold of binary64) and every range with `checkOut > checkIn`, in every time
zone, `calculateSeasonalPrice` returns a result whose `nights` is the length of
`breakdown` and whose `subtotal`, `basePrice`, `seasonalAdjustment` and `averageMultiplier`
are the binary64 values of the sum of the breakdown's rates (added left to right),
`baseNightlyRate * nights`, `subtotal - basePrice` and
`Math.round((totalMultiplier / nights) * 100) / 100`, `totalMultiplier` being the binary64
sum of the breakdown's multipliers added left to right; for an integer base rate with
`|baseRate| * nights` plus the sum of the `|rate|` below `2 ^ 53`, the `subtotal`, the
`basePrice` and the `seasonalAdjustment` are exactly the sum, the product and the
difference. -/
theorem C8_aggregates (zone : TimeZone) (baseRate : ℚ) (checkIn checkOut : Int)
    (h : checkIn < checkOut) (_hfinite : |baseRate| ≤ 2 ^ 900) :
    ∃ r, calculateSeasonalPrice zone baseRate checkIn checkOut = Except.ok r ∧
      r.nights = (r.breakdown.length : Int) ∧
      r.subtotal = r.breakdown.foldl (fun a e => addNumbers a e.rate) 0 ∧
      r.basePrice = fl (fl baseRate * (r.nights : ℚ)) ∧
      r.seasonalAdjustment = fl ((r.subtotal : ℚ) - r.basePrice) ∧
      r.averageMultiplier =
        (mathRound (fl (fl (r.breakdown.foldl (fun a e => fl (a + fl e.multiplier)) 0 /
          (r.breakdown.length : ℚ)) * 100)) : ℚ) / 100 ∧
      ∀ b : Int, baseRate = (b : ℚ) →
        |b| * r.nights + (r.breakdown.map (fun e => |e.rate|)).sum < 2 ^ 53 →
        r.subtotal = (r.breakdown.map (fun e => e.rate)).sum ∧
        r.basePrice = baseRate * (r.nights : ℚ) ∧
        r.seasonalAdjustment = (r.subtotal : ℚ) - r.basePrice := by
  obtain ⟨r, hr, -, hpos, -, hb, hsub, hbase, hadj, havg⟩ :=
    calculateSeasonalPrice_of_lt zone baseRate checkIn checkOut h
  have hlen : (r.breakdown.length : Int) = r.nights := by
    rw [hb, List.length_map, List.length_range]
    exact Int.toNat_of_nonneg hpos.le
  have hlenq : (r.breakdown.length : ℚ) = (r.nights : ℚ) := by exact_mod_cast hlen
  refine ⟨r, hr, hlen.symm, hsub, hbase, hadj, ?_, ?_⟩
  · rw [havg, hlenq]
  · intro b hbq hbound
    have hsum0 : 0 ≤ (r.breakdown.map (fun e => |e.rate|)).sum :=
      List.sum_nonneg (fun y hy => by
        obtain ⟨z, -, rfl⟩ := List.mem_map.mp hy
        exact abs_nonneg z.rate)
    have hbn0 : 0 ≤ |b| * r.nights := mul_nonneg (abs_nonneg b) hpos.le
    have hb1 : |b| ≤ |b| * r.nights := by
      have := abs_nonneg b
      nlinarith
    have hmapabs : (r.breakdown.map (fun e => e.rate)).map (fun x => |x|) =
        r.breakdown.map (fun e => |e.rate|) := by
      rw [List.map_map]
      rfl
    have hsubtotal : r.subtotal = (r.breakdown.map (fun e => e.rate)).sum := by
      have hfold : r.breakdown.foldl (fun a e => addNumbers a e.rate) 0 =
          (r.breakdown.map (fun e => e.rate)).foldl addNumbers 0 := by
        rw [List.foldl_map]
      rw [hsub, hfold, foldl_addNumbers _ 0 (by rw [hmapabs, abs_zero]; omega), zero_add]
    have hS : |r.subtotal| ≤ (r.breakdown.map (fun e => |e.rate|)).sum := by
      rw [hsubtotal, ← hmapabs]
      exact abs_sum_le _
    have hbase2 : r.basePrice = baseRate * (r.nights : ℚ) := by
      rw [hbase, hbq, fl_intCast b (by omega)]
      have h2 : ((b : ℚ)) * (r.nights : ℚ) = ((b * r.nights : Int) : ℚ) := by push_cast; ring
      rw [h2, fl_intCast (b * r.nights) (by rw [abs_mul, abs_of_pos hpos]; omega)]
    refine ⟨hsubtotal, hbase2, ?_⟩
    rw [hadj, hbase2, hbq]
    have h3 : (r.subtotal : ℚ) - (b : ℚ) * (r.nights : ℚ) =
        ((r.subtotal - b * r.nights : Int) : ℚ) := by push_cast; ring
    rw [h3, fl_intCast]
    have h4 : |r.subtotal - b * r.nights| ≤ |r.subtotal| + |b * r.nights| := abs_sub _ _
    rw [abs_mul, abs_of_pos hpos] at h4
    omega

/-- C8 witness: a two-night stay from 2025-12-30 at base rate 2000. -/
theorem C8_aggregates_witness :
    (1767052800000 : Int) < 1767225600000 ∧
    ∃ r, calculateSeasonalPrice (fixedOffset 0) 2000 1767052800000 1767225600000 =
        Except.ok r ∧
      r.nights = (r.breakdown.length : Int) ∧
      r.subtotal = r.breakdown.foldl (fun a e => addNumbers a e.rate) 0 ∧
      r.basePrice = fl (fl 2000 * (r.nights : ℚ)) ∧
      r.seasonalAdjustment = fl ((r.subtotal : ℚ) - r.basePrice) ∧
      r.averageMultiplier =
        (mathRound (fl (fl (r.breakdown.foldl (fun a e => fl (a + fl e.multiplier)) 0 /
          (r.breakdown.length : ℚ)) * 100)) : ℚ) / 100 ∧
      ∀ b : Int, (2000 : ℚ) = (b : ℚ) →
        |b| * r.nights + (r.breakdown.map (fun e => |e.rate|)).sum < 2 ^ 53 →
        r.subtotal = (r.breakdown.map (fun e => e.rate)).sum ∧
        r.basePrice = 2000 * (r.nights : ℚ) ∧
        r.seasonalAdjustment = (r.subtotal : ℚ) - r.basePrice :=
  ⟨by decide, C8_aggregates (fixedOffset 0) 2000 1767052800000 1767225600000 (by decide)
    (by norm_num [abs_le])⟩

/-! ## C9: the invalid-range error -/

/-- C9: for every base rate and every pair of valid dates, `calculateSeasonalPrice` fails with
the invalid-range error exactly when `checkOut <= checkIn`, and whenever `checkOut > checkIn`
it returns a result with `nights >= 1`. -/
theorem C9_invalid_range (zone : TimeZone) (baseRate : ℚ) (checkIn checkOut : Int) :
    (calculateSeasonalPrice zone baseRate checkIn checkOut =
        Except.error "Invalid date range" ↔ checkOut ≤ checkIn) ∧
    (checkIn < checkOut →
      ∃ r, calculateSeasonalPrice zone baseRate checkIn checkOut = Except.ok r ∧
        1 ≤ r.nights) := by
  constructor
  · constructor
    · intro herr
      by_contra hlt
      obtain ⟨r, hr, -⟩ :=
        calculateSeasonalPrice_of_lt zone baseRate checkIn checkOut (not_le.mp hlt)
      rw [hr] at herr
      cases herr
    · exact calculateSeasonalPrice_of_ge zone baseRate checkIn checkOut
  · intro hlt
    obtain ⟨r, hr, -, hpos, -⟩ :=
      calculateSeasonalPrice_of_lt zone baseRate checkIn checkOut hlt
    exact ⟨r, hr, hpos⟩

/-- C9 witness: a two-night stay from 2025-12-30 returns a result with at least one night. -/
theorem C9_invalid_range_witness :
    ∃ r, calculateSeasonalPrice (fixedOffset 0) 2000 1767052800000 1767225600000 =
        Except.ok r ∧ 1 ≤ r.nights :=
  (C9_invalid_range (fixedOffset 0) 2000 1767052800000 1767225600000).2 (by decide)

/-! ## C10: the worked example -/

/-- On a weekday of December or January the multiplier is that of the peak season. -/
theorem getMultiplierForDate_peak_weekday (tz d : Int)
    (hm : getMonth tz d = 11 ∨ getMonth tz d = 0) (hw : isWeekend tz d = false) :
    getMultiplierForDate tz d =
      { multiplier := 13 / 10, seasonName := "Peak Season", isWeekend := false } := by
  have hs : getSeasonForDate tz d = peakSeason := by
    rw [getSeasonForDate_eq]
    rcases hm with hm | hm <;> simp [hm]
  have h130 : mathRound ((130 : ℚ)) = 130 := mathRound_intCast 130
  unfold getMultiplierForDate
  norm_num [hs, hw, peakSeason, h130]

/-- The nights of 2025-12-30 and 2025-12-31 (UTC midnights) are weekdays of the peak season
in every time zone from UTC-12 to UTC+14. -/
theorem example_nights_peak_weekday (tz : Int) (h1 : -43200000 ≤ tz) (h2 : tz ≤ 50400000)
    (i : Nat) (hi : i < 2) :
    (getMonth tz (addDays (fixedOffset tz) 1767052800000 i) = 11 ∨
        getMonth tz (addDays (fixedOffset tz) 1767052800000 i) = 0) ∧
      isWeekend tz (addDays (fixedOffset tz) 1767052800000 i) = false := by
  rw [addDays_fixedOffset]
  have hday : localDay tz (1767052800000 + (i : Int) * msPerDay) = 20451 ∨
      localDay tz (1767052800000 + (i : Int) * msPerDay) = 20452 ∨
      localDay tz (1767052800000 + (i : Int) * msPerDay) = 20453 := by
    unfold localDay msPerDay
    omega
  unfold getMonth isWeekend getDay
  rcases hday with hd | hd | hd <;> rw [hd] <;> decide

/-- C10: `calculateSeasonalPrice(2000, 2025-12-30, 2026-01-01)`, the dates being UTC
midnights and the local time zone anywhere from UTC-12 to UTC+14, returns `nights = 2`, a
breakdown of two entries each with rate 2600, season `Peak Season` and multiplier 1.3,
`subtotal = 5200`, `basePrice = 4000` and `seasonalAdjustment = 1200`. -/
theorem C10_pricing_example (tz : Int) (h1 : -43200000 ≤ tz) (h2 : tz ≤ 50400000) :
    ∃ r, calculateSeasonalPrice (fixedOffset tz) 2000 1767052800000 1767225600000 =
        Except.ok r ∧
      r.nights = 2 ∧
      r.breakdown.map (fun e => (e.rate, e.seasonName, e.multiplier)) =
        [(2600, "Peak Season", 13 / 10), (2600, "Peak Season", 13 / 10)] ∧
      r.subtotal = 5200 ∧ r.basePrice = 4000 ∧ r.seasonalAdjustment = 1200 := by
  obtain ⟨r, hr, hn, -, -, hb, hsub, hbase, hadj, -⟩ :=
    calculateSeasonalPrice_of_lt (fixedOffset tz) 2000 1767052800000 1767225600000
      (by decide)
  have hn2 : r.nights = 2 := by
    rw [hn]
    norm_num [mathCeil, msPerDay, Int.ceil_eq_iff]
  have h2600 : mathRound ((2600 : ℚ)) = 2600 := mathRound_intCast 2600
  have h2000 : fl (2000 : ℚ) = 2000 := by
    have h := fl_intCast 2000 (by norm_num)
    exact_mod_cast h
  have h4000 : fl (4000 : ℚ) = 4000 := by
    have h := fl_intCast 4000 (by norm_num)
    exact_mod_cast h
  have h1200 : fl (1200 : ℚ) = 1200 := by
    have h := fl_intCast 1200 (by norm_num)
    exact_mod_cast h
  have hentry : ∀ i, i < 2 →
      nightEntry (fixedOffset tz) 2000 1767052800000 i =
        { date := addDays (fixedOffset tz) 1767052800000 i, rate := 2600,
          seasonName := "Peak Season", multiplier := 13 / 10 } := by
    intro i hi
    obtain ⟨hm, hw⟩ := example_nights_peak_weekday tz h1 h2 i hi
    have hmult : getMultiplierForDate
        ((fixedOffset tz).offsetAt (addDays (fixedOffset tz) 1767052800000 i))
        (addDays (fixedOffset tz) 1767052800000 i) =
        { multiplier := 13 / 10, seasonName := "Peak Season", isWeekend := false } :=
      getMultiplierForDate_peak_weekday tz _ hm hw
    simp only [nightEntry, hmult]
    rw [h2000, fl_13_10, fl_2000_13, h2600]
    simp
  have hr2 : List.range (2 : Int).toNat = [0, 1] := by decide
  have hbd0 : r.breakdown =
      [{ date := addDays (fixedOffset tz) 1767052800000 0, rate := 2600,
         seasonName := "Peak Season", multiplier := 13 / 10 },
       { date := addDays (fixedOffset tz) 1767052800000 1, rate := 2600,
         seasonName := "Peak Season", multiplier := 13 / 10 }] := by
    rw [hb, hn2, hr2]
    simp only [List.map_cons, List.map_nil]
    rw [hentry 0 (by decide), hentry 1 (by decide)]
  have hbd : r.breakdown.map (fun e => (e.rate, e.seasonName, e.multiplier)) =
      [(2600, "Peak Season", 13 / 10), (2600, "Peak Season", 13 / 10)] := by
    rw [hbd0]
    rfl
  have hsub2 : r.subtotal = 5200 := by
    have hrates : r.breakdown.map (fun e => e.rate) = [2600, 2600] := by
      rw [hbd0]
      rfl
    have hfold : r.breakdown.foldl (fun a e => addNumbers a e.rate) 0 =
        (r.breakdown.map (fun e => e.rate)).foldl addNumbers 0 := by
      rw [List.foldl_map]
    rw [hsub, hfold, hrates, foldl_addNumbers [2600, 2600] 0 (by norm_num)]
    norm_num
  have hbase2 : r.basePrice = 4000 := by
    have e : (2000 : ℚ) * ((2 : Int) : ℚ) = 4000 := by norm_num
    rw [hbase, hn2, h2000, e, h4000]
  refine ⟨r, hr, hn2, hbd, hsub2, hbase2, ?_⟩
  have e : ((5200 : Int) : ℚ) - 4000 = 1200 := by norm_num
  rw [hadj, hsub2, hbase2, e, h1200]

/-- C10 witness: the example evaluated in Indian Standard Time (UTC+5:30). -/
theorem C10_pricing_example_witness :
    ∃ r, calculateSeasonalPrice (fixedOffset 19800000) 2000 1767052800000 1767225600000 =
        Except.ok r ∧
      r.nights = 2 ∧
      r.breakdown.map (fun e => (e.rate, e.seasonName, e.multiplier)) =
        [(2600, "Peak Season", 13 / 10), (2600, "Peak Season", 13 / 10)] ∧
      r.subtotal = 5200 ∧ r.basePrice = 4000 ∧ r.seasonalAdjustment = 1200 :=
  C10_pricing_example 19800000 (by decide) (by decide)

/-! ## C2: the overlap predicate -/

/-- C2: `datesOverlap(checkIn1, checkOut1, checkIn2, checkOut2)` is true exactly when
`checkIn1 < checkOut2` and `checkOut1 > checkIn2`; a range ending at `D` and a range starting
at `D` never overlap. -/
theorem C2_datesOverlap_iff :
    (∀ checkIn1 checkOut1 checkIn2 checkOut2 : Int,
      datesOverlap checkIn1 checkOut1 checkIn2 checkOut2 = true ↔
        checkIn1 < checkOut2 ∧ checkOut1 > checkIn2) ∧
    (∀ a D b : Int, datesOverlap a D D b = false) := by
  constructor
  · intro c1 o1 c2 o2
    simp [datesOverlap]
  · intro a D b
    simp [datesOverlap]

/-! ## C3, C4: the utility `checkAvailability` -/

/-- The result of `checkAvailability` once the three date validations pass. -/
theorem checkAvailability_of_valid (env : Env) (bookings : List Booking) (listingId : Nat)
    (checkIn checkOut : Int) (ex : Option Nat)
    (hlt : checkIn < checkOut) (hpast : startOfToday env ≤ checkIn) :
    checkAvailability env bookings listingId (some checkIn) (some checkOut) ex =
      { available :=
          ((bookings.filter (conflictQuery listingId checkIn checkOut ex)).map
            (fun b => ({ id := b.id, checkIn := b.checkIn, checkOut := b.checkOut,
                         status := b.status } : Conflict))).length == 0
        error := none
        conflicts := (bookings.filter (conflictQuery listingId checkIn checkOut ex)).map
            (fun b => ({ id := b.id, checkIn := b.checkIn, checkOut := b.checkOut,
                         status := b.status } : Conflict)) } := by
  simp only [checkAvailability, if_neg (not_le.mpr hlt), if_neg (not_lt.mpr hpast)]

/-- Every conflict reported by `checkAvailability` is a stored booking matched by the query. -/
theorem mem_conflicts (env : Env) (bookings : List Booking) (listingId : Nat)
    (checkIn checkOut : Option Int) (ex : Option Nat) (c : Conflict)
    (hc : c ∈ (checkAvailability env bookings listingId checkIn checkOut ex).conflicts) :
    ∃ ci co b, checkIn = some ci ∧ checkOut = some co ∧ b ∈ bookings ∧
      conflictQuery listingId ci co ex b = true ∧ c.id = b.id ∧ c.status = b.status ∧
      c.checkIn = b.checkIn ∧ c.checkOut = b.checkOut := by
  unfold checkAvailability at hc
  split at hc
  · rename_i ci co
    split_ifs at hc
    · simp at hc
    · simp at hc
    · simp only [List.mem_map, List.mem_filter] at hc
      obtain ⟨b, ⟨hb, hq⟩, rfl⟩ := hc
      exact ⟨ci, co, b, rfl, rfl, hb, hq, rfl, rfl, rfl, rfl⟩
  · simp at hc

/-- C3 (as stated, refuted): a stored booking in status `pending_approval` that overlaps the
requested range is returned as a conflict, though its status is neither `paid` nor
`confirmed`. -/
theorem C3_counterexample :
    ∃ c ∈ (checkAvailability exampleEnv
        [exampleBooking 1 BookingStatus.pending_approval 1767139200000 1767312000000]
        7 (some 1767139200000) (some 1767225600000) none).conflicts,
      c.status ≠ BookingStatus.paid ∧ c.status ≠ BookingStatus.confirmed := by
  decide

/-- C3 (amended): each booking returned in the conflicts list of `checkAvailability` has
status `paid`, `pending_approval` or `confirmed`; a booking in status `pending_payment`,
`rejected`, `cancelled` or `completed` is never counted as a conflict. -/
theorem C3_conflict_statuses (env : Env) (bookings : List Booking) (listingId : Nat)
    (checkIn checkOut : Option Int) (excludeBookingId : Option Nat) :
    ∀ c ∈ (checkAvailability env bookings listingId checkIn checkOut excludeBookingId).conflicts,
      (c.status = BookingStatus.paid ∨ c.status = BookingStatus.pending_approval ∨
        c.status = BookingStatus.confirmed) ∧
      c.status ≠ BookingStatus.pending_payment ∧ c.status ≠ BookingStatus.rejected ∧
      c.status ≠ BookingStatus.cancelled ∧ c.status ≠ BookingStatus.completed := by
  intro c hc
  obtain ⟨ci, co, b, -, -, -, hq, -, hst, -⟩ :=
    mem_conflicts env bookings listingId checkIn checkOut excludeBookingId c hc
  have hhold : holdStatuses.contains b.status = true := by
    simp only [conflictQuery, Bool.and_eq_true] at hq
    exact hq.1.1.2
  rw [hst]
  revert hhold
  cases b.status <;> simp [holdStatuses]

/-- C3 witness: the conflict found for a paid booking of the nights 2025-12-31 to
2026-01-02. -/
theorem C3_conflict_statuses_witness :
    ({ id := 1, checkIn := 1767139200000, checkOut := 1767312000000,
       status := BookingStatus.paid } : Conflict) ∈
      (checkAvailability exampleEnv
        [exampleBooking 1 BookingStatus.paid 1767139200000 1767312000000]
        7 (some 1767139200000) (some 1767225600000) none).conflicts ∧
    ((BookingStatus.paid = BookingStatus.paid ∨
        BookingStatus.paid = BookingStatus.pending_approval ∨
        BookingStatus.paid = BookingStatus.confirmed) ∧
      BookingStatus.paid ≠ BookingStatus.pending_payment ∧
      BookingStatus.paid ≠ BookingStatus.rejected ∧
      BookingStatus.paid ≠ BookingStatus.cancelled ∧
      BookingStatus.paid ≠ BookingStatus.completed) :=
  ⟨by decide,
    C3_conflict_statuses exampleEnv
      [exampleBooking 1 BookingStatus.paid 1767139200000 1767312000000]
      7 (some 1767139200000) (some 1767225600000) none
      { id := 1, checkIn := 1767139200000, checkOut := 1767312000000,
        status := BookingStatus.paid } (by decide)⟩

/-- C4 (as stated, refuted): with an unparseable check-in date the result has
`available = false` although its conflicts list is empty. -/
theorem C4_counterexample :
    (checkAvailability exampleEnv [] 7 none (some 1767225600000) none).available = false ∧
    (checkAvailability exampleEnv [] 7 none (some 1767225600000) none).conflicts = [] :=
  ⟨rfl, rfl⟩

/-- C4 (amended): the result of `checkAvailability` has `available = true` if and only if no
validation error is reported and its conflicts list is empty; when the dates are unparseable,
`checkIn >= checkOut` or `checkIn` is before the start of today, it returns
`available = false` with a validation error and an empty conflicts list; and whenever the
dates pass these validations, no error is reported and `available` is true exactly when the
conflicts list is empty. -/
theorem C4_available_iff (env : Env) (bookings : List Booking) (listingId : Nat)
    (checkIn checkOut : Option Int) (excludeBookingId : Option Nat) :
    ((checkAvailability env bookings listingId checkIn checkOut excludeBookingId).available
        = true ↔
      (checkAvailability env bookings listingId checkIn checkOut excludeBookingId).error = none
        ∧ (checkAvailability env bookings listingId checkIn checkOut excludeBookingId).conflicts
          = []) ∧
    ((checkIn = none ∨ checkOut = none ∨
        ∃ ci co, checkIn = some ci ∧ checkOut = some co ∧ (ci ≥ co ∨ ci < startOfToday env)) →
      (checkAvailability env bookings listingId checkIn checkOut excludeBookingId).available
          = false ∧
      (checkAvailability env bookings listingId checkIn checkOut excludeBookingId).conflicts
          = [] ∧
      (checkAvailability env bookings listingId checkIn checkOut excludeBookingId).error
          ≠ none) ∧
    (∀ ci co, checkIn = some ci → checkOut = some co → ci < co → startOfToday env ≤ ci →
      (checkAvailability env bookings listingId checkIn checkOut excludeBookingId).error
          = none ∧
      ((checkAvailability env bookings listingId checkIn checkOut excludeBookingId).available
          = true ↔
        (checkAvailability env bookings listingId checkIn checkOut excludeBookingId).conflicts
          = [])) := by
  refine ⟨?_, ?_, ?_⟩
  · unfold checkAvailability
    split
    · split_ifs
      · simp
      · simp
      · simp
    · simp
  · intro h
    cases hci : checkIn with
    | none => exact ⟨rfl, rfl, by simp [checkAvailability]⟩
    | some ci =>
      cases hco : checkOut with
      | none => exact ⟨rfl, rfl, by simp [checkAvailability]⟩
      | some co =>
        rcases h with h | h | ⟨ci1, co1, h1, h2, h3⟩
        · rw [hci] at h; cases h
        · rw [hco] at h; cases h
        · rw [hci] at h1; rw [hco] at h2
          cases h1; cases h2
          by_cases hge : ci ≥ co
          · have hres : checkAvailability env bookings listingId (some ci) (some co)
                excludeBookingId =
                { available := false, error := some "Check-out must be after check-in",
                  conflicts := [] } := by
              simp only [checkAvailability, if_pos hge]
            rw [hres]
            exact ⟨rfl, rfl, by simp⟩
          · have hpast : ci < startOfToday env := by
              rcases h3 with h3 | h3
              · exact absurd h3 hge
              · exact h3
            have hres : checkAvailability env bookings listingId (some ci) (some co)
                excludeBookingId =
                { available := false, error := some "Cannot book dates in the past",
                  conflicts := [] } := by
              simp only [checkAvailability, if_neg hge, if_pos hpast]
            rw [hres]
            exact ⟨rfl, rfl, by simp⟩
  · intro ci co hci hco hlt hpast
    rw [hci, hco, checkAvailability_of_valid env bookings listingId ci co excludeBookingId
      hlt hpast]
    refine ⟨rfl, ?_⟩
    simp

/-- C4 witness: an unparseable check-in date gives `available = false`, no conflicts and a
validation error. -/
theorem C4_available_iff_witness :
    (checkAvailability exampleEnv [] 7 none (some 1767225600000) none).available = false ∧
    (checkAvailability exampleEnv [] 7 none (some 1767225600000) none).conflicts = [] ∧
    (checkAvailability exampleEnv [] 7 none (some 1767225600000) none).error ≠ none :=
  (C4_available_iff exampleEnv [] 7 none (some 1767225600000) none).2.1 (Or.inl rfl)

/-! ## The reserve handlers -/

/-- The conflict query of `checkAvailability`, without an excluded booking, in words. -/
theorem conflictQuery_none_iff (listingId : Nat) (checkIn checkOut : Int) (b : Booking) :
    conflictQuery listingId checkIn checkOut none b = true ↔
      b.listing = listingId ∧
      (b.status = BookingStatus.paid ∨ b.status = BookingStatus.pending_approval ∨
        b.status = BookingStatus.confirmed) ∧
      datesOverlap checkIn checkOut b.checkIn b.checkOut = true := by
  simp only [conflictQuery, datesOverlap, holdStatuses, Bool.and_eq_true, decide_eq_true_eq,
    beq_iff_eq, Bool.and_true, List.contains_eq_any_beq, List.any_cons, List.any_nil,
    Bool.or_false, Bool.or_eq_true]
  constructor
  · rintro ⟨⟨h1, h2⟩, h3, h4⟩
    refine ⟨h1, ?_, by omega, by omega⟩
    exact h2
  · rintro ⟨h1, h2, h3, h4⟩
    refine ⟨⟨h1, ?_⟩, by omega, by omega⟩
    exact h2

/-- The inline conflict query of `createBookingAndPay` is the query of `checkAvailability`. -/
theorem payConflictQuery_eq (listingId : Nat) (checkIn checkOut : Int) (b : Booking) :
    payConflictQuery listingId checkIn checkOut b =
      conflictQuery listingId checkIn checkOut none b := by
  simp [payConflictQuery, conflictQuery]

/-- `createBooking` once its checks before the availability check have passed. -/
theorem createBooking_validated (env : Env) (listings : List Listing) (bookings : List Booking)
    (req : ReserveRequest) (listingId : Nat) (listing : Listing) (ci co : Int)
    (hid : req.listingId = some listingId)
    (hl : findListing listings listingId = some listing)
    (hci : req.checkIn = some ci) (hco : req.checkOut = some co) (hlt : ci < co)
    (hguests : ∀ g, req.guestsNum = some g → g ≤ listing.maxGuests)
    (hmin : ∀ bs, listing.bookingSettings = some bs →
      bs.minStay ≤ mathCeil (((co - ci : Int) : ℚ) / (msPerDay : ℚ))) :
    ∃ sp, calculateSeasonalPrice (fixedOffset env.tz) listing.price ci co = Except.ok sp ∧
      createBooking env listings bookings req =
        if (bookings.filter (conflictQuery listingId ci co none)).length = 0 ∧
            startOfToday env ≤ ci then
          match validAdults req.guestsNum with
          | none => (Except.error validationFailed, bookings)
          | some adults =>
            (Except.ok (newBooking (freshId bookings) listingId req.user listing ci co adults
                listing.pricingUnit sp req.message),
              bookings ++ [newBooking (freshId bookings) listingId req.user listing ci co adults
                listing.pricingUnit sp req.message])
        else (Except.error datesUnavailable, bookings) := by
  obtain ⟨sp, hsp, hn, -⟩ := calculateSeasonalPrice_of_lt (fixedOffset env.tz) listing.price ci co hlt
  refine ⟨sp, hsp, ?_⟩
  have hg : guestsExceed req.guestsNum listing.maxGuests = false := by
    unfold guestsExceed
    cases hgn : req.guestsNum with
    | none => rfl
    | some g => simpa using hguests g hgn
  have hm : (match listing.bookingSettings with
      | some bs => decide (sp.nights < bs.minStay)
      | none => false) = false := by
    cases hbs : listing.bookingSettings with
    | none => rfl
    | some bs =>
      have := hmin bs hbs
      rw [← hn] at this
      simpa using this
  unfold createBooking
  simp only [hid, hl, hci, hco, if_neg (not_le.mpr hlt), hg, hsp, hm]
  by_cases hpast : startOfToday env ≤ ci
  · rw [checkAvailability_of_valid env bookings listingId ci co none hlt hpast]
    by_cases hc : (bookings.filter (conflictQuery listingId ci co none)).length = 0
    · simp [hc, hpast]
    · simp [hc, hpast]
  · simp [checkAvailability, not_le.mpr hlt, not_le.mp hpast, hpast]

/-- `createBookingAndPay` once its checks before the conflict query have passed. -/
theorem createBookingAndPay_validated (env : Env) (listings : List Listing)
    (bookings : List Booking) (req : ReserveRequest) (cf : Except String CfCreatedOrder)
    (listingId : Nat) (listing : Listing) (ci co : Int)
    (hid : req.listingId = some listingId)
    (hl : findListing listings listingId = some listing)
    (hdel : listing.status ≠ ListingStatus.deleted)
    (hina : listing.status ≠ ListingStatus.inactive)
    (hci : req.checkIn = some ci) (hco : req.checkOut = some co) (hlt : ci < co)
    (hpast : startOfToday env ≤ ci)
    (hguests : ∀ g, req.guestsNum = some g →
      g ≤ (if listing.maxGuests = 0 then 4 else listing.maxGuests))
    (hmin : ∀ bs, listing.bookingSettings = some bs →
      bs.minStay ≤ mathCeil (((co - ci : Int) : ℚ) / (msPerDay : ℚ))) :
    ∃ sp, calculateSeasonalPrice (fixedOffset env.tz) listing.price ci co = Except.ok sp ∧
      createBookingAndPay env listings bookings req cf =
        if (bookings.filter (conflictQuery listingId ci co none)).length = 0 then
          match validAdults req.guestsNum with
          | none => (Except.error validationFailed, bookings)
          | some adults =>
            match cf with
            | Except.error _ =>
              (Except.error abortAfterCommit,
                bookings ++ [newBooking (freshId bookings) listingId req.user listing ci co adults
                  (strOr listing.pricingUnit "night") sp req.message])
            | Except.ok cfOrder =>
              (Except.ok { newBooking (freshId bookings) listingId req.user listing ci co adults
                  (strOr listing.pricingUnit "night") sp req.message with
                  payment := { provider := "cashfree", status := PaymentStatus.pending,
                               cfOrderId := cfOrder.order_id,
                               cfPaymentSessionId := cfOrder.payment_session_id } },
                bookings ++ [{ newBooking (freshId bookings) listingId req.user listing ci co
                  adults (strOr listing.pricingUnit "night") sp req.message with
                  payment := { provider := "cashfree", status := PaymentStatus.pending,
                               cfOrderId := cfOrder.order_id,
                               cfPaymentSessionId := cfOrder.payment_session_id } }])
        else (Except.error datesUnavailable, bookings) := by
  obtain ⟨sp, hsp, -⟩ := calculateSeasonalPrice_of_lt (fixedOffset env.tz) listing.price ci co hlt
  refine ⟨sp, hsp, ?_⟩
  have hg : guestsExceed req.guestsNum
      (if listing.maxGuests = 0 then 4 else listing.maxGuests) = false := by
    unfold guestsExceed
    cases hgn : req.guestsNum with
    | none => rfl
    | some g => simpa using hguests g hgn
  have hm : (match listing.bookingSettings with
      | some bs => decide (mathCeil (((co - ci : Int) : ℚ) / (msPerDay : ℚ)) < bs.minStay)
      | none => false) = false := by
    cases hbs : listing.bookingSettings with
    | none => rfl
    | some bs => simpa using hmin bs hbs
  have hq : payConflictQuery listingId ci co = conflictQuery listingId ci co none :=
    funext (payConflictQuery_eq listingId ci co)
  unfold createBookingAndPay
  simp only [hid, hl, hdel, hina, or_self, if_false, hci, hco, if_neg (not_le.mpr hlt),
    if_neg (not_lt.mpr hpast), hg, hm, hq, hsp]
  by_cases hc : (bookings.filter (conflictQuery listingId ci co none)).length = 0
  · simp only [hc, gt_iff_lt, lt_self_iff_false, if_false, if_true]
    cases validAdults req.guestsNum with
    | none => rfl
    | some adults => cases cf <;> rfl
  · have hpos : (bookings.filter (conflictQuery listingId ci co none)).length > 0 := by omega
    rw [if_neg hc, if_pos hpos]
    simp

/-- A stored hold overlapping the requested range makes the conflict query non-empty. -/
theorem filter_conflict_ne (bookings : List Booking) (listingId : Nat) (ci co : Int)
    (hconf : ∃ b ∈ bookings, b.listing = listingId ∧
      (b.status = BookingStatus.paid ∨ b.status = BookingStatus.confirmed) ∧
      datesOverlap ci co b.checkIn b.checkOut = true) :
    ¬ (bookings.filter (conflictQuery listingId ci co none)).length = 0 := by
  obtain ⟨b, hb, hl, hs, ho⟩ := hconf
  have hq : conflictQuery listingId ci co none b = true := by
    rw [conflictQuery_none_iff]
    refine ⟨hl, ?_, ho⟩
    rcases hs with h | h
    · exact Or.inl h
    · exact Or.inr (Or.inr h)
  have hmem : b ∈ bookings.filter (conflictQuery listingId ci co none) :=
    List.mem_filter.mpr ⟨hb, hq⟩
  intro h0
  rw [List.length_eq_zero] at h0
  rw [h0] at hmem
  cases hmem

/-- When no stored hold overlaps the requested range the conflict query is empty. -/
theorem filter_conflict_nil (bookings : List Booking) (listingId : Nat) (ci co : Int)
    (hfree : ∀ b ∈ bookings, b.listing = listingId →
      (b.status = BookingStatus.paid ∨ b.status = BookingStatus.pending_approval ∨
        b.status = BookingStatus.confirmed) →
      datesOverlap ci co b.checkIn b.checkOut = false) :
    (bookings.filter (conflictQuery listingId ci co none)).length = 0 := by
  rw [List.length_eq_zero, List.filter_eq_nil_iff]
  intro b hb hq
  rw [conflictQuery_none_iff] at hq
  have := hfree b hb hq.1 hq.2.1
  rw [hq.2.2] at this
  cases this

/-! ## C5: a conflicting hold rejects the request -/

/-- C5: for a reserve request that passes the handler's input validation (listing found and,
for `createBookingAndPay`, neither deleted nor inactive; parseable dates; `checkIn < checkOut`;
`checkIn` not in the past; guests within the maximum; stay at least the minimum stay), if some
stored booking of the listing with status `paid` or `confirmed` overlaps the requested range,
then `createBooking` and `createBookingAndPay` both fail with the dates-unavailable error and
leave the stored bookings unchanged. -/
theorem C5_conflict_rejected (env : Env) (listings : List Listing) (bookings : List Booking)
    (req : ReserveRequest) (cf : Except String CfCreatedOrder)
    (listingId : Nat) (listing : Listing) (ci co : Int)
    (hid : req.listingId = some listingId)
    (hl : findListing listings listingId = some listing)
    (hci : req.checkIn = some ci) (hco : req.checkOut = some co) (hlt : ci < co)
    (hpast : startOfToday env ≤ ci)
    (hmin : ∀ bs, listing.bookingSettings = some bs →
      bs.minStay ≤ mathCeil (((co - ci : Int) : ℚ) / (msPerDay : ℚ)))
    (hconf : ∃ b ∈ bookings, b.listing = listingId ∧
      (b.status = BookingStatus.paid ∨ b.status = BookingStatus.confirmed) ∧
      datesOverlap ci co b.checkIn b.checkOut = true) :
    ((∀ g, req.guestsNum = some g → g ≤ listing.maxGuests) →
      createBooking env listings bookings req = (Except.error datesUnavailable, bookings)) ∧
    (listing.status ≠ ListingStatus.deleted → listing.status ≠ ListingStatus.inactive →
      (∀ g, req.guestsNum = some g →
        g ≤ (if listing.maxGuests = 0 then 4 else listing.maxGuests)) →
      createBookingAndPay env listings bookings req cf =
        (Except.error datesUnavailable, bookings)) := by
  have hne := filter_conflict_ne bookings listingId ci co hconf
  constructor
  · intro hguests
    obtain ⟨sp, -, hcb⟩ := createBooking_validated env listings bookings req listingId listing
      ci co hid hl hci hco hlt hguests hmin
    rw [hcb, if_neg (fun h => hne h.1)]
  · intro hdel hina hguests
    obtain ⟨sp, -, hcb⟩ := createBookingAndPay_validated env listings bookings req cf listingId
      listing ci co hid hl hdel hina hci hco hlt hpast hguests hmin
    rw [hcb, if_neg hne]

/-- The example stay, 2025-12-31 to 2026-01-02, has at least one night. -/
theorem example_minStay (bs : BookingSettings)
    (h : exampleListing.bookingSettings = some bs) :
    bs.minStay ≤
      mathCeil ((((1767312000000 : Int) - 1767139200000 : Int) : ℚ) / (msPerDay : ℚ)) := by
  have hpos := (ceil_nights_pos_iff 1767139200000 1767312000000).mpr (by decide)
  cases h
  show (1 : Int) ≤ _
  omega

/-- C5 witness: with a paid booking of 2025-12-31 to 2026-01-02 stored for listing 7, a
request for the same nights is refused by both handlers. -/
theorem C5_conflict_rejected_witness :
    createBooking exampleEnv [exampleListing]
        [exampleBooking 1 BookingStatus.paid 1767139200000 1767312000000]
        (exampleRequest 3 2 1767139200000 1767312000000) =
      (Except.error datesUnavailable,
        [exampleBooking 1 BookingStatus.paid 1767139200000 1767312000000]) ∧
    createBookingAndPay exampleEnv [exampleListing]
        [exampleBooking 1 BookingStatus.paid 1767139200000 1767312000000]
        (exampleRequest 3 2 1767139200000 1767312000000)
        (Except.ok { order_id := some "order_2", payment_session_id := some "session_2" }) =
      (Except.error datesUnavailable,
        [exampleBooking 1 BookingStatus.paid 1767139200000 1767312000000]) :=
  have h := C5_conflict_rejected exampleEnv [exampleListing]
    [exampleBooking 1 BookingStatus.paid 1767139200000 1767312000000]
    (exampleRequest 3 2 1767139200000 1767312000000)
    (Except.ok { order_id := some "order_2", payment_session_id := some "session_2" })
    7 exampleListing 1767139200000 1767312000000 rfl rfl rfl rfl (by decide) (by decide)
    example_minStay
    ⟨exampleBooking 1 BookingStatus.paid 1767139200000 1767312000000, by simp, rfl,
      Or.inl rfl, by decide⟩
  ⟨h.1 (fun g hg => by cases hg; decide),
    h.2 (by decide) (by decide) (fun g hg => by cases hg; decide)⟩

/-! ## C6: a free range can be reserved -/

/-- C6 (as stated, refuted): a request for zero guests on a free range passes every listed
validation (parseable dates, `checkIn < checkOut`, `checkIn` not in the past, guests within
the maximum, stay at least the minimum stay), yet `createBooking` fails, on the schema
validator `min: 1` of `guestCount.adults`, and creates no booking. -/
theorem C6_counterexample :
    (1767139200000 : Int) < 1767312000000 ∧
    startOfToday exampleEnv ≤ 1767139200000 ∧
    (0 : Int) ≤ exampleListing.maxGuests ∧
    (∀ bs, exampleListing.bookingSettings = some bs → bs.minStay ≤
      mathCeil ((((1767312000000 : Int) - 1767139200000 : Int) : ℚ) / (msPerDay : ℚ))) ∧
    createBooking exampleEnv [exampleListing] []
        (exampleRequest 3 0 1767139200000 1767312000000) =
      (Except.error validationFailed, []) := by
  refine ⟨by decide, by decide, by decide, example_minStay, ?_⟩
  obtain ⟨sp, -, hcb⟩ := createBooking_validated exampleEnv [exampleListing] []
    (exampleRequest 3 0 1767139200000 1767312000000) 7 exampleListing
    1767139200000 1767312000000 rfl rfl rfl rfl (by decide)
    (fun g hg => by cases hg; decide) example_minStay
  rw [hcb, if_pos ⟨rfl, by decide⟩]
  rfl

/-- C6 (amended): for a reserve request that passes the handler's input validations (listing
found and, for `createBookingAndPay`, neither deleted nor inactive; parseable dates;
`checkIn < checkOut`; `checkIn` not in the past; at least one guest and no more than the
maximum; stay at least the minimum stay), if the requested range overlaps no stored booking of
the listing with status `paid`, `pending_approval` or `confirmed`, then a booking in status
`pending_payment` for that listing, guest and range is created: `createBooking` succeeds with
it, and `createBookingAndPay` stores it and succeeds with it whenever the provider's order
creation succeeds. -/
theorem C6_free_range_reserved (env : Env) (listings : List Listing) (bookings : List Booking)
    (req : ReserveRequest) (cf : Except String CfCreatedOrder)
    (listingId : Nat) (listing : Listing) (ci co g : Int)
    (hid : req.listingId = some listingId)
    (hl : findListing listings listingId = some listing)
    (hci : req.checkIn = some ci) (hco : req.checkOut = some co) (hlt : ci < co)
    (hpast : startOfToday env ≤ ci)
    (hg : req.guestsNum = some g) (hg1 : 1 ≤ g)
    (hmin : ∀ bs, listing.bookingSettings = some bs →
      bs.minStay ≤ mathCeil (((co - ci : Int) : ℚ) / (msPerDay : ℚ)))
    (hfree : ∀ b ∈ bookings, b.listing = listingId →
      (b.status = BookingStatus.paid ∨ b.status = BookingStatus.pending_approval ∨
        b.status = BookingStatus.confirmed) →
      datesOverlap ci co b.checkIn b.checkOut = false) :
    (g ≤ listing.maxGuests →
      ∃ b, createBooking env listings bookings req = (Except.ok b, bookings ++ [b]) ∧
        b.status = BookingStatus.pending_payment ∧ b.listing = listingId ∧
        b.guest = req.user ∧ b.checkIn = ci ∧ b.checkOut = co) ∧
    (listing.status ≠ ListingStatus.deleted → listing.status ≠ ListingStatus.inactive →
      g ≤ (if listing.maxGuests = 0 then 4 else listing.maxGuests) →
      ∃ b, (createBookingAndPay env listings bookings req cf).2 = bookings ++ [b] ∧
        b.status = BookingStatus.pending_payment ∧ b.listing = listingId ∧
        b.guest = req.user ∧ b.checkIn = ci ∧ b.checkOut = co ∧
        (∀ o, cf = Except.ok o →
          (createBookingAndPay env listings bookings req cf).1 = Except.ok b)) := by
  have hnil := filter_conflict_nil bookings listingId ci co hfree
  have hadults : validAdults req.guestsNum = some g := by
    simp [validAdults, hg, hg1]
  constructor
  · intro hmax
    obtain ⟨sp, -, hcb⟩ := createBooking_validated env listings bookings req listingId listing
      ci co hid hl hci hco hlt (fun g' hg' => by rw [hg] at hg'; cases hg'; exact hmax) hmin
    rw [hcb, if_pos ⟨hnil, hpast⟩, hadults]
    exact ⟨_, rfl, rfl, rfl, rfl, rfl, rfl⟩
  · intro hdel hina hmax
    obtain ⟨sp, -, hcb⟩ := createBookingAndPay_validated env listings bookings req cf listingId
      listing ci co hid hl hdel hina hci hco hlt hpast
      (fun g' hg' => by rw [hg] at hg'; cases hg'; exact hmax) hmin
    rw [hcb, if_pos hnil, hadults]
    cases cf with
    | error e => exact ⟨_, rfl, rfl, rfl, rfl, rfl, rfl, fun o ho => by cases ho⟩
    | ok o => exact ⟨_, rfl, rfl, rfl, rfl, rfl, rfl, fun o' _ => rfl⟩

/-- C6 witness: with no booking stored, a request by guest 3 for two guests on the nights
2025-12-31 to 2026-01-02 of listing 7 is accepted by both handlers. -/
theorem C6_free_range_reserved_witness :
    (∃ b, createBooking exampleEnv [exampleListing] []
          (exampleRequest 3 2 1767139200000 1767312000000) = (Except.ok b, [] ++ [b]) ∧
        b.status = BookingStatus.pending_payment ∧ b.listing = 7 ∧
        b.guest = (exampleRequest 3 2 1767139200000 1767312000000).user ∧
        b.checkIn = 1767139200000 ∧ b.checkOut = 1767312000000) ∧
    (∃ b, (createBookingAndPay exampleEnv [exampleListing] []
          (exampleRequest 3 2 1767139200000 1767312000000)
          (Except.ok { order_id := some "order_1", payment_session_id := some "session_1" })).2
          = [] ++ [b] ∧
        b.status = BookingStatus.pending_payment ∧ b.listing = 7 ∧
        b.guest = (exampleRequest 3 2 1767139200000 1767312000000).user ∧
        b.checkIn = 1767139200000 ∧ b.checkOut = 1767312000000 ∧
        (∀ o, (Except.ok { order_id := some "order_1", payment_session_id := some "session_1" }
            : Except String CfCreatedOrder) = Except.ok o →
          (createBookingAndPay exampleEnv [exampleListing] []
            (exampleRequest 3 2 1767139200000 1767312000000)
            (Except.ok { order_id := some "order_1",
                         payment_session_id := some "session_1" })).1 = Except.ok b)) :=
  have h := C6_free_range_reserved exampleEnv [exampleListing] []
    (exampleRequest 3 2 1767139200000 1767312000000)
    (Except.ok { order_id := some "order_1", payment_session_id := some "session_1" })
    7 exampleListing 1767139200000 1767312000000 2 rfl rfl rfl rfl (by decide) (by decide)
    rfl (by decide) example_minStay (fun b hb => by cases hb)
  ⟨h.1 (by decide), h.2 (by decide) (by decide) (by decide)⟩

/-! ## C1: disjointness of active holds -/

/-- A valid `createBooking` request on a range free of holds stores a new `pending_payment`
booking under a fresh id. -/
theorem createBooking_free (env : Env) (listings : List Listing) (bookings : List Booking)
    (req : ReserveRequest) (listingId : Nat) (listing : Listing) (ci co g : Int)
    (hid : req.listingId = some listingId)
    (hl : findListing listings listingId = some listing)
    (hci : req.checkIn = some ci) (hco : req.checkOut = some co) (hlt : ci < co)
    (hpast : startOfToday env ≤ ci)
    (hg : req.guestsNum = some g) (hg1 : 1 ≤ g) (hmax : g ≤ listing.maxGuests)
    (hmin : ∀ bs, listing.bookingSettings = some bs →
      bs.minStay ≤ mathCeil (((co - ci : Int) : ℚ) / (msPerDay : ℚ)))
    (hfree : ∀ b ∈ bookings, b.listing = listingId →
      (b.status = BookingStatus.paid ∨ b.status = BookingStatus.pending_approval ∨
        b.status = BookingStatus.confirmed) →
      datesOverlap ci co b.checkIn b.checkOut = false) :
    ∃ b, createBooking env listings bookings req = (Except.ok b, bookings ++ [b]) ∧
      b.id = freshId bookings ∧ b.status = BookingStatus.pending_payment ∧
      b.listing = listingId ∧ b.guest = req.user ∧ b.checkIn = ci ∧ b.checkOut = co := by
  have hnil := filter_conflict_nil bookings listingId ci co hfree
  have hadults : validAdults req.guestsNum = some g := by
    simp [validAdults, hg, hg1]
  obtain ⟨sp, -, hcb⟩ := createBooking_validated env listings bookings req listingId listing
    ci co hid hl hci hco hlt (fun g' hg' => by rw [hg] at hg'; cases hg'; exact hmax) hmin
  rw [hcb, if_pos ⟨hnil, hpast⟩, hadults]
  exact ⟨_, rfl, rfl, rfl, rfl, rfl, rfl, rfl⟩

/-- `cashfreeReturn` on a stored booking when the provider reports `PAID`: whatever the
booking's current status, it is saved with status `paid`. -/
theorem cashfreeReturn_paid (env : Env) (bookings : List Booking) (orderId : String)
    (bookingId : Nat) (booking : Booking) (horder : orderId ≠ "")
    (hfind : findBooking bookings bookingId = some booking) :
    ∃ b, cashfreeReturn env bookings { order_id := some orderId, bookingId := some bookingId }
        (Except.ok paidOrder) = (Except.ok b, saveBooking bookings b) ∧
      b.id = booking.id ∧ b.status = BookingStatus.paid ∧ b.listing = booking.listing ∧
      b.checkIn = booking.checkIn ∧ b.checkOut = booking.checkOut := by
  unfold cashfreeReturn
  simp only [if_neg horder, hfind]
  exact ⟨_, rfl, rfl, rfl, rfl, rfl, rfl⟩

/-- C1 (the code at the failing input): from an empty booking set, two guests reserve the same
nights of listing 7 (both requests succeed, since a `pending_payment` booking holds no dates),
and both payments settle; all four steps succeed and the final bookings violate the
disjointness invariant: bookings 1 and 2 are both `paid` for 2025-12-31 to 2026-01-02. -/
theorem C1_double_booking :
    ∃ final,
      runSteps exampleEnv [exampleListing] []
        [Step.reserve (exampleRequest 2 2 1767139200000 1767312000000),
         Step.reserve (exampleRequest 3 2 1767139200000 1767312000000),
         Step.settle { order_id := some "order_1", bookingId := some 1 } paidOrder,
         Step.settle { order_id := some "order_2", bookingId := some 2 } paidOrder]
        = some final ∧
      (∃ b1 ∈ final, ∃ b2 ∈ final, b1.id = 1 ∧ b2.id = 2 ∧ b1.listing = 7 ∧ b2.listing = 7 ∧
        b1.status = BookingStatus.paid ∧ b2.status = BookingStatus.paid ∧
        b1.checkIn = 1767139200000 ∧ b1.checkOut = 1767312000000 ∧
        b2.checkIn = 1767139200000 ∧ b2.checkOut = 1767312000000) ∧
      ¬ HoldsDisjoint final := by
  obtain ⟨bA, hA, hAid, hAst, hAl, -, hAci, hAco⟩ := createBooking_free exampleEnv
    [exampleListing] [] (exampleRequest 2 2 1767139200000 1767312000000) 7 exampleListing
    1767139200000 1767312000000 2 rfl rfl rfl rfl (by decide) (by decide) rfl (by decide)
    (by decide) example_minStay (fun b hb => by cases hb)
  have hAid1 : bA.id = 1 := by rw [hAid]; rfl
  obtain ⟨bB, hB, hBid, hBst, hBl, -, hBci, hBco⟩ := createBooking_free exampleEnv
    [exampleListing] ([] ++ [bA]) (exampleRequest 3 2 1767139200000 1767312000000) 7
    exampleListing 1767139200000 1767312000000 2 rfl rfl rfl rfl (by decide) (by decide) rfl
    (by decide) (by decide) example_minStay
    (fun b hb _ hs => by
      simp only [List.nil_append, List.mem_singleton] at hb
      subst hb
      rw [hAst] at hs
      rcases hs with h | h | h <;> cases h)
  have hBid2 : bB.id = 2 := by rw [hBid]; simp [freshId, hAid1]
  have hfA : findBooking ([] ++ [bA] ++ [bB]) 1 = some bA := by
    simp [findBooking, List.find?, hAid1]
  obtain ⟨pA, hSA, hpAid, hpAst, hpAl, hpAci, hpAco⟩ := cashfreeReturn_paid exampleEnv
    ([] ++ [bA] ++ [bB]) "order_1" 1 bA (by decide) hfA
  have hsaveA : saveBooking ([] ++ [bA] ++ [bB]) pA = [pA, bB] := by
    simp [saveBooking, hpAid, hAid1, hBid2]
  rw [hsaveA] at hSA
  have hfB : findBooking [pA, bB] 2 = some bB := by
    simp [findBooking, List.find?, hpAid, hAid1, hBid2]
  obtain ⟨pB, hSB, hpBid, hpBst, hpBl, hpBci, hpBco⟩ := cashfreeReturn_paid exampleEnv
    [pA, bB] "order_2" 2 bB (by decide) hfB
  have hsaveB : saveBooking [pA, bB] pB = [pA, pB] := by
    simp [saveBooking, hpBid, hpAid, hAid1, hBid2]
  rw [hsaveB] at hSB
  have hrun : runSteps exampleEnv [exampleListing] []
      [Step.reserve (exampleRequest 2 2 1767139200000 1767312000000),
       Step.reserve (exampleRequest 3 2 1767139200000 1767312000000),
       Step.settle { order_id := some "order_1", bookingId := some 1 } paidOrder,
       Step.settle { order_id := some "order_2", bookingId := some 2 } paidOrder]
      = some [pA, pB] := by
    simp only [runSteps, Step.handle, hA, hB, hSA, hSB]
  have hpA1 : pA.id = 1 := by rw [hpAid, hAid1]
  have hpB2 : pB.id = 2 := by rw [hpBid, hBid2]
  refine ⟨[pA, pB], hrun, ?_, ?_⟩
  · refine ⟨pA, by simp, pB, by simp, hpA1, hpB2, ?_, ?_, hpAst, hpBst, ?_, ?_, ?_, ?_⟩
    · rw [hpAl, hAl]
    · rw [hpBl, hBl]
    · rw [hpAci, hAci]
    · rw [hpAco, hAco]
    · rw [hpBci, hBci]
    · rw [hpBco, hBco]
  · intro hdis
    have h := hdis pA (by simp) pB (by simp) (by rw [hpA1, hpB2]; decide)
      (by rw [hpAl, hAl, hpBl, hBl]) (by simp [isActiveHold, hpAst])
      (by simp [isActiveHold, hpBst])
    rw [hpAci, hAci, hpAco, hAco, hpBci, hBci, hpBco, hBco] at h
    revert h
    decide

/-! ## The stored bookings under the handlers -/

/-- A booking found by id is stored and has that id. -/
theorem findBooking_some (bookings : List Booking) (bookingId : Nat) (b : Booking)
    (h : findBooking bookings bookingId = some b) : b ∈ bookings ∧ b.id = bookingId := by
  unfold findBooking at h
  refine ⟨List.mem_of_find?_eq_some h, ?_⟩
  have := List.find?_some h
  simpa using this

/-- Every document of the collection after a save is the saved one or was there before. -/
theorem mem_saveBooking (bookings : List Booking) (b x : Booking)
    (h : x ∈ saveBooking bookings b) : x = b ∨ x ∈ bookings := by
  unfold saveBooking at h
  obtain ⟨old, hold, rfl⟩ := List.mem_map.mp h
  by_cases hid : (old.id == b.id) = true
  · left; simp [hid]
  · right; simpa [hid] using hold

/-- Saving a document that keeps the snapshot of the stored one it replaces changes no
snapshot, the ids of the collection being distinct. -/
theorem saveBooking_snapshot (bookings : List Booking) (b0 b : Booking)
    (hnodup : (bookings.map (fun x => x.id)).Nodup) (hmem : b0 ∈ bookings)
    (hsnap : snapshot b = snapshot b0) :
    (saveBooking bookings b).map snapshot = bookings.map snapshot := by
  have hid : b.id = b0.id := congrArg Snapshot.id hsnap
  unfold saveBooking
  rw [List.map_map]
  apply List.map_congr_left
  intro old hold
  by_cases h : (old.id == b.id) = true
  · have hold0 : old = b0 :=
      List.inj_on_of_nodup_map hnodup hold hmem (by simpa [hid] using h)
    show snapshot (if (old.id == b.id) = true then b else old) = snapshot old
    rw [if_pos h, hsnap, hold0]
  · show snapshot (if (old.id == b.id) = true then b else old) = snapshot old
    rw [if_neg h]

/-- The two outcomes of `createBooking`: an error that stores nothing, or the document built
by `newBooking` from the listing and the seasonal pricing of the requested range. -/
theorem createBooking_cases (env : Env) (listings : List Listing) (bookings : List Booking)
    (req : ReserveRequest) :
    ((createBooking env listings bookings req).2 = bookings ∧
      ∃ e, (createBooking env listings bookings req).1 = Except.error e) ∨
    ∃ listingId listing ci co adults sp,
      req.listingId = some listingId ∧ findListing listings listingId = some listing ∧
      req.checkIn = some ci ∧ req.checkOut = some co ∧ ci < co ∧
      guestsExceed req.guestsNum listing.maxGuests = false ∧
      calculateSeasonalPrice (fixedOffset env.tz) listing.price ci co = Except.ok sp ∧
      (∀ bs, listing.bookingSettings = some bs → bs.minStay ≤ sp.nights) ∧
      (checkAvailability env bookings listingId (some ci) (some co) none).available = true ∧
      validAdults req.guestsNum = some adults ∧
      createBooking env listings bookings req =
        (Except.ok (newBooking (freshId bookings) listingId req.user listing ci co adults
            listing.pricingUnit sp req.message),
          bookings ++ [newBooking (freshId bookings) listingId req.user listing ci co adults
            listing.pricingUnit sp req.message]) := by
  unfold createBooking
  cases hid : req.listingId with
  | none => left; exact ⟨rfl, _, rfl⟩
  | some listingId =>
    dsimp only
    cases hl : findListing listings listingId with
    | none => left; exact ⟨rfl, _, rfl⟩
    | some listing =>
      dsimp only
      cases hci : req.checkIn with
      | none => left; exact ⟨rfl, _, rfl⟩
      | some ci =>
        cases hco : req.checkOut with
        | none => left; exact ⟨rfl, _, rfl⟩
        | some co =>
          dsimp only
          by_cases hge : ci ≥ co
          · left; rw [if_pos hge]; exact ⟨rfl, _, rfl⟩
          · rw [if_neg hge]
            cases hg : guestsExceed req.guestsNum listing.maxGuests with
            | true => left; rw [if_pos rfl]; exact ⟨rfl, _, rfl⟩
            | false =>
              rw [if_neg (by decide)]
              cases hsp : calculateSeasonalPrice (fixedOffset env.tz) listing.price ci co with
              | error e => left; exact ⟨rfl, _, rfl⟩
              | ok sp =>
                dsimp only
                cases hm : (match listing.bookingSettings with
                    | some bs => decide (sp.nights < bs.minStay)
                    | none => false) with
                | true => left; rw [if_pos rfl]; exact ⟨rfl, _, rfl⟩
                | false =>
                  rw [if_neg (by decide)]
                  cases hav : (checkAvailability env bookings listingId (some ci) (some co)
                      none).available with
                  | false => left; rw [if_pos (by decide)]; exact ⟨rfl, _, rfl⟩
                  | true =>
                    rw [if_neg (by decide)]
                    cases hva : validAdults req.guestsNum with
                    | none => left; exact ⟨rfl, _, rfl⟩
                    | some adults =>
                      right
                      refine ⟨listingId, listing, ci, co, adults, sp, rfl, hl, rfl, rfl,
                        not_le.mp hge, hg, hsp, ?_, hav, rfl, rfl⟩
                      intro bs hbs
                      rw [hbs] at hm
                      simpa using hm

/-- The two outcomes of `createBookingAndPay` on the stored bookings: nothing stored and an
error, or the document built by `newBooking` stored with a pending payment record. -/
theorem createBookingAndPay_cases (env : Env) (listings : List Listing)
    (bookings : List Booking) (req : ReserveRequest) (cf : Except String CfCreatedOrder) :
    ((createBookingAndPay env listings bookings req cf).2 = bookings ∧
      ∃ e, (createBookingAndPay env listings bookings req cf).1 = Except.error e) ∨
    ∃ listingId listing ci co adults sp p,
      req.listingId = some listingId ∧ findListing listings listingId = some listing ∧
      listing.status ≠ ListingStatus.deleted ∧ listing.status ≠ ListingStatus.inactive ∧
      req.checkIn = some ci ∧ req.checkOut = some co ∧ ci < co ∧ startOfToday env ≤ ci ∧
      guestsExceed req.guestsNum
        (if listing.maxGuests = 0 then 4 else listing.maxGuests) = false ∧
      (∀ bs, listing.bookingSettings = some bs →
        bs.minStay ≤ mathCeil (((co - ci : Int) : ℚ) / (msPerDay : ℚ))) ∧
      (bookings.filter (payConflictQuery listingId ci co)).length = 0 ∧
      calculateSeasonalPrice (fixedOffset env.tz) listing.price ci co = Except.ok sp ∧
      validAdults req.guestsNum = some adults ∧
      p.status = PaymentStatus.pending ∧
      (createBookingAndPay env listings bookings req cf).2 =
        bookings ++ [{ newBooking (freshId bookings) listingId req.user listing ci co adults
          (strOr listing.pricingUnit "night") sp req.message with payment := p }] ∧
      (∀ o, cf = Except.ok o → (createBookingAndPay env listings bookings req cf).1 =
        Except.ok { newBooking (freshId bookings) listingId req.user listing ci co adults
          (strOr listing.pricingUnit "night") sp req.message with payment := p }) := by
  unfold createBookingAndPay
  cases hid : req.listingId with
  | none => left; exact ⟨rfl, _, rfl⟩
  | some listingId =>
    dsimp only
    cases hl : findListing listings listingId with
    | none => left; exact ⟨rfl, _, rfl⟩
    | some listing =>
      dsimp only
      by_cases hst : listing.status = ListingStatus.deleted ∨
          listing.status = ListingStatus.inactive
      · left; rw [if_pos hst]; exact ⟨rfl, _, rfl⟩
      · rw [if_neg hst]
        cases hci : req.checkIn with
        | none => left; exact ⟨rfl, _, rfl⟩
        | some ci =>
          cases hco : req.checkOut with
          | none => left; exact ⟨rfl, _, rfl⟩
          | some co =>
            dsimp only
            by_cases hge : ci ≥ co
            · left; rw [if_pos hge]; exact ⟨rfl, _, rfl⟩
            · rw [if_neg hge]
              by_cases hpast : ci < startOfToday env
              · left; rw [if_pos hpast]; exact ⟨rfl, _, rfl⟩
              · rw [if_neg hpast]
                cases hg : guestsExceed req.guestsNum
                    (if listing.maxGuests = 0 then 4 else listing.maxGuests) with
                | true => left; rw [if_pos rfl]; exact ⟨rfl, _, rfl⟩
                | false =>
                  rw [if_neg (by decide)]
                  cases hm : (match listing.bookingSettings with
                      | some bs =>
                        decide (mathCeil (((co - ci : Int) : ℚ) / (msPerDay : ℚ)) < bs.minStay)
                      | none => false) with
                  | true => left; rw [if_pos rfl]; exact ⟨rfl, _, rfl⟩
                  | false =>
                    rw [if_neg (by decide)]
                    by_cases hc : (bookings.filter
                        (payConflictQuery listingId ci co)).length > 0
                    · left; rw [if_pos hc]; exact ⟨rfl, _, rfl⟩
                    · rw [if_neg hc]
                      cases hsp : calculateSeasonalPrice (fixedOffset env.tz) listing.price ci co with
                      | error e => left; exact ⟨rfl, _, rfl⟩
                      | ok sp =>
                        dsimp only
                        cases hva : validAdults req.guestsNum with
                        | none => left; exact ⟨rfl, _, rfl⟩
                        | some adults =>
                          right
                          have hmin : ∀ bs, listing.bookingSettings = some bs →
                              bs.minStay ≤
                                mathCeil (((co - ci : Int) : ℚ) / (msPerDay : ℚ)) := by
                            intro bs hbs
                            rw [hbs] at hm
                            simpa using hm
                          cases cf with
                          | error e =>
                            exact ⟨listingId, listing, ci, co, adults, sp,
                              { provider := "cashfree", status := PaymentStatus.pending },
                              rfl, hl, fun h => hst (Or.inl h), fun h => hst (Or.inr h),
                              rfl, rfl, not_le.mp hge, not_lt.mp hpast, hg, hmin, by omega,
                              hsp, rfl, rfl, rfl, fun o ho => by cases ho⟩
                          | ok o =>
                            exact ⟨listingId, listing, ci, co, adults, sp,
                              { provider := "cashfree", status := PaymentStatus.pending,
                                cfOrderId := o.order_id,
                                cfPaymentSessionId := o.payment_session_id },
                              rfl, hl, fun h => hst (Or.inl h), fun h => hst (Or.inr h),
                              rfl, rfl, not_le.mp hge, not_lt.mp hpast, hg, hmin, by omega,
                              hsp, rfl, rfl, rfl, fun o' _ => rfl⟩

/-- The pricing of a successful availability quote, from the seasonal pricing of its range. -/
theorem quote_cases (env : Env) (listings : List Listing) (bookings : List Booking)
    (listingId : Option Nat) (checkIn checkOut : Option Int) (guestsNum : Option Int)
    (q : QuotePricing)
    (h : (BookingController.checkAvailability env listings bookings listingId checkIn checkOut
      guestsNum).pricing = some q) :
    ∃ lid listing ci co sp,
      listingId = some lid ∧ findListing listings lid = some listing ∧
      checkIn = some ci ∧ checkOut = some co ∧
      calculateSeasonalPrice (fixedOffset env.tz) listing.price ci co = Except.ok sp ∧
      q.subtotal = sp.subtotal ∧
      q.serviceFee = mathRound ((sp.subtotal : ℚ) * (12 / 100)) ∧
      q.total = mathRound (((sp.subtotal + q.serviceFee : Int) : ℚ)) := by
  unfold BookingController.checkAvailability at h
  cases listingId with
  | none => cases h
  | some lid =>
    dsimp only at h
    cases hl : findListing listings lid with
    | none => rw [hl] at h; cases h
    | some listing =>
      rw [hl] at h
      dsimp only at h
      cases checkIn with
      | none => cases h
      | some ci =>
        cases checkOut with
        | none => cases h
        | some co =>
          dsimp only at h
          by_cases hge : ci ≥ co
          · rw [if_pos hge] at h; cases h
          · rw [if_neg hge] at h
            by_cases hg : guestsExceed guestsNum listing.maxGuests = true
            · rw [if_pos hg] at h; cases h
            · rw [if_neg hg] at h
              by_cases hav : (!(checkAvailability env bookings lid (some ci) (some co)
                  none).available) = true
              · rw [if_pos hav] at h; cases h
              · rw [if_neg hav] at h
                cases hsp : calculateSeasonalPrice (fixedOffset env.tz) listing.price ci co with
                | error e => rw [hsp] at h; cases h
                | ok sp =>
                  rw [hsp] at h
                  dsimp only at h
                  cases h
                  exact ⟨lid, listing, ci, co, sp, rfl, hl, rfl, rfl, hsp, rfl, rfl, rfl⟩

/-! ## C11: the service fee and the total -/

/-- The fee and total stored by `newBooking`, in terms of the subtotal. -/
theorem newBooking_fee_total (id listingId guest : Nat) (listing : Listing) (ci co adults : Int)
    (unit : String) (sp : PricingResult) (message : Option String) :
    (newBooking id listingId guest listing ci co adults unit sp message).pricing.serviceFee =
        mathRound ((12 / 100 : ℚ) * (sp.subtotal : ℚ)) ∧
    (newBooking id listingId guest listing ci co adults unit sp message).pricing.total =
        sp.subtotal + mathRound ((12 / 100 : ℚ) * (sp.subtotal : ℚ)) := by
  constructor
  · simp only [newBooking, serviceFeeOf, mul_comm]
  · simp only [newBooking, serviceFeeOf, totalOf, mathRound_intCast, mul_comm]

/-- The fee and total of the quote and of the two reserve handlers, from the subtotal of the
seasonal pricing of the range. -/
theorem fee_and_total_parts (tz nowQ nowB nowP : Int) (listings : List Listing)
    (bookingsQ bookingsB bookingsP : List Booking) (listingId : Nat) (listing : Listing)
    (ci co : Int) (guestsQ : Option Int) (req reqP : ReserveRequest)
    (cf : Except String CfCreatedOrder)
    (hl : findListing listings listingId = some listing) (hlt : ci < co)
    (hreq : req.listingId = some listingId ∧ req.checkIn = some ci ∧ req.checkOut = some co)
    (hreqP : reqP.listingId = some listingId ∧ reqP.checkIn = some ci ∧
      reqP.checkOut = some co) :
    ∃ sp, calculateSeasonalPrice (fixedOffset tz) listing.price ci co = Except.ok sp ∧
      (∀ q, (BookingController.checkAvailability { tz := tz, now := nowQ } listings bookingsQ
            (some listingId) (some ci) (some co) guestsQ).pricing = some q →
          q.serviceFee = mathRound ((12 / 100 : ℚ) * (sp.subtotal : ℚ)) ∧
          q.total = sp.subtotal + q.serviceFee) ∧
      (∀ b, (createBooking { tz := tz, now := nowB } listings bookingsB req).2
            = bookingsB ++ [b] →
          b.pricing.serviceFee = mathRound ((12 / 100 : ℚ) * (sp.subtotal : ℚ)) ∧
          b.pricing.total = sp.subtotal + b.pricing.serviceFee) ∧
      (∀ b, (createBookingAndPay { tz := tz, now := nowP } listings bookingsP reqP cf).2
            = bookingsP ++ [b] →
          b.pricing.serviceFee = mathRound ((12 / 100 : ℚ) * (sp.subtotal : ℚ)) ∧
          b.pricing.total = sp.subtotal + b.pricing.serviceFee) := by
  obtain ⟨sp, hsp, -⟩ := calculateSeasonalPrice_of_lt (fixedOffset tz) listing.price ci co hlt
  refine ⟨sp, hsp, ?_, ?_, ?_⟩
  · intro q hq
    obtain ⟨lid, listing1, ci1, co1, sp1, h1, h2, h3, h4, h5, -, h7, h8⟩ :=
      quote_cases _ listings bookingsQ _ _ _ guestsQ q hq
    cases h1; cases h3; cases h4
    rw [hl] at h2; cases h2
    rw [hsp] at h5; cases h5
    rw [h8, mathRound_intCast, h7, mul_comm]
    exact ⟨rfl, rfl⟩
  · intro b hb
    rcases createBooking_cases { tz := tz, now := nowB } listings bookingsB req with
      ⟨hsame, -⟩ | ⟨lid, listing1, ci1, co1, adults, sp1, h1, h2, h3, h4, -, -, h5, -, -, -, h6⟩
    · rw [hsame] at hb
      exact absurd hb (by simp)
    · rw [hreq.1] at h1; cases h1
      rw [hreq.2.1] at h3; cases h3
      rw [hreq.2.2] at h4; cases h4
      rw [hl] at h2; cases h2
      rw [hsp] at h5; cases h5
      rw [h6] at hb
      have hbe := List.append_cancel_left hb
      cases hbe
      have := newBooking_fee_total (freshId bookingsB) listingId req.user listing ci co adults
        listing.pricingUnit sp req.message
      exact ⟨this.1, by rw [this.2, this.1]⟩
  · intro b hb
    rcases createBookingAndPay_cases { tz := tz, now := nowP } listings bookingsP reqP cf with
      ⟨hsame, -⟩ | ⟨lid, listing1, ci1, co1, adults, sp1, p, h1, h2, -, -, h3, h4, -, -, -, -,
        -, h5, -, -, h6, -⟩
    · rw [hsame] at hb
      exact absurd hb (by simp)
    · rw [hreqP.1] at h1; cases h1
      rw [hreqP.2.1] at h3; cases h3
      rw [hreqP.2.2] at h4; cases h4
      rw [hl] at h2; cases h2
      rw [hsp] at h5; cases h5
      rw [h6] at hb
      have hbe := List.append_cancel_left hb
      cases hbe
      have := newBooking_fee_total (freshId bookingsP) listingId reqP.user listing ci co adults
        (strOr listing.pricingUnit "night") sp reqP.message
      exact ⟨this.1, by rw [this.2, this.1]⟩

/-- C11: for every listing price and range with `checkIn < checkOut`, `calculateSeasonalPrice`
returns a result, and from its subtotal the availability quote (controller
`checkAvailability`), `createBooking` and `createBookingAndPay` each compute
`serviceFee = round(0.12 * subtotal)` and `total = subtotal + serviceFee`; so the total of a
quote equals the total stored in a booking created for the same listing and range, whatever
the clock and the stored bookings of each request. -/
theorem C11_fee_and_total (tz nowQ nowB nowP : Int) (listings : List Listing)
    (bookingsQ bookingsB bookingsP : List Booking) (listingId : Nat) (listing : Listing)
    (ci co : Int) (guestsQ : Option Int) (req reqP : ReserveRequest)
    (cf : Except String CfCreatedOrder)
    (hl : findListing listings listingId = some listing) (hlt : ci < co)
    (hreq : req.listingId = some listingId ∧ req.checkIn = some ci ∧ req.checkOut = some co)
    (hreqP : reqP.listingId = some listingId ∧ reqP.checkIn = some ci ∧
      reqP.checkOut = some co) :
    ∃ sp, calculateSeasonalPrice (fixedOffset tz) listing.price ci co = Except.ok sp ∧
      (∀ q, (BookingController.checkAvailability { tz := tz, now := nowQ } listings bookingsQ
            (some listingId) (some ci) (some co) guestsQ).pricing = some q →
          q.serviceFee = mathRound ((12 / 100 : ℚ) * (sp.subtotal : ℚ)) ∧
          q.total = sp.subtotal + q.serviceFee) ∧
      (∀ b, (createBooking { tz := tz, now := nowB } listings bookingsB req).2
            = bookingsB ++ [b] →
          b.pricing.serviceFee = mathRound ((12 / 100 : ℚ) * (sp.subtotal : ℚ)) ∧
          b.pricing.total = sp.subtotal + b.pricing.serviceFee) ∧
      (∀ b, (createBookingAndPay { tz := tz, now := nowP } listings bookingsP reqP cf).2
            = bookingsP ++ [b] →
          b.pricing.serviceFee = mathRound ((12 / 100 : ℚ) * (sp.subtotal : ℚ)) ∧
          b.pricing.total = sp.subtotal + b.pricing.serviceFee) ∧
      (∀ q b bP,
        (BookingController.checkAvailability { tz := tz, now := nowQ } listings bookingsQ
            (some listingId) (some ci) (some co) guestsQ).pricing = some q →
        (createBooking { tz := tz, now := nowB } listings bookingsB req).2
            = bookingsB ++ [b] →
        (createBookingAndPay { tz := tz, now := nowP } listings bookingsP reqP cf).2
            = bookingsP ++ [bP] →
        q.total = b.pricing.total ∧ q.total = bP.pricing.total) := by
  obtain ⟨sp, hsp, hQ, hB, hP⟩ := fee_and_total_parts tz nowQ nowB nowP listings bookingsQ
    bookingsB bookingsP listingId listing ci co guestsQ req reqP cf hl hlt hreq hreqP
  refine ⟨sp, hsp, hQ, hB, hP, ?_⟩
  intro q b bP hq hb hp
  obtain ⟨hq1, hq2⟩ := hQ q hq
  obtain ⟨hb1, hb2⟩ := hB b hb
  obtain ⟨hp1, hp2⟩ := hP bP hp
  constructor
  · rw [hq2, hb2, hq1, hb1]
  · rw [hq2, hp2, hq1, hp1]

/-- C11 witness: the quote and the two reserve handlers on the nights 2025-12-31 to
2026-01-02 of listing 7, with no booking stored. -/
theorem C11_fee_and_total_witness :
    ∃ sp, calculateSeasonalPrice (fixedOffset 0) exampleListing.price 1767139200000 1767312000000
        = Except.ok sp ∧
      (∀ q, (BookingController.checkAvailability { tz := 0, now := 1767052800000 }
            [exampleListing] [] (some 7) (some 1767139200000) (some 1767312000000)
            (some 2)).pricing = some q →
          q.serviceFee = mathRound ((12 / 100 : ℚ) * (sp.subtotal : ℚ)) ∧
          q.total = sp.subtotal + q.serviceFee) ∧
      (∀ b, (createBooking { tz := 0, now := 1767052800000 } [exampleListing] []
            (exampleRequest 2 2 1767139200000 1767312000000)).2 = [] ++ [b] →
          b.pricing.serviceFee = mathRound ((12 / 100 : ℚ) * (sp.subtotal : ℚ)) ∧
          b.pricing.total = sp.subtotal + b.pricing.serviceFee) ∧
      (∀ b, (createBookingAndPay { tz := 0, now := 1767052800000 } [exampleListing] []
            (exampleRequest 3 2 1767139200000 1767312000000)
            (Except.ok { order_id := some "order_1",
                         payment_session_id := some "session_1" })).2 = [] ++ [b] →
          b.pricing.serviceFee = mathRound ((12 / 100 : ℚ) * (sp.subtotal : ℚ)) ∧
          b.pricing.total = sp.subtotal + b.pricing.serviceFee) ∧
      (∀ q b bP,
        (BookingController.checkAvailability { tz := 0, now := 1767052800000 }
            [exampleListing] [] (some 7) (some 1767139200000) (some 1767312000000)
            (some 2)).pricing = some q →
        (createBooking { tz := 0, now := 1767052800000 } [exampleListing] []
            (exampleRequest 2 2 1767139200000 1767312000000)).2 = [] ++ [b] →
        (createBookingAndPay { tz := 0, now := 1767052800000 } [exampleListing] []
            (exampleRequest 3 2 1767139200000 1767312000000)
            (Except.ok { order_id := some "order_1",
                         payment_session_id := some "session_1" })).2 = [] ++ [bP] →
        q.total = b.pricing.total ∧ q.total = bP.pricing.total) :=
  C11_fee_and_total 0 1767052800000 1767052800000 1767052800000 [exampleListing] [] [] [] 7
    exampleListing 1767139200000 1767312000000 (some 2)
    (exampleRequest 2 2 1767139200000 1767312000000)
    (exampleRequest 3 2 1767139200000 1767312000000)
    (Except.ok { order_id := some "order_1", payment_session_id := some "session_1" })
    rfl (by decide) ⟨rfl, rfl, rfl⟩ ⟨rfl, rfl, rfl⟩

/-! ## The lifecycle handlers, case by case -/

/-- `acceptBooking` either fails and stores nothing, or saves the found booking with status
`confirmed`; the latter exactly for the host of a booking whose payment is `paid`. -/
theorem acceptBooking_cases (bookings : List Booking) (bookingId user : Nat) :
    ((acceptBooking bookings bookingId user).2 = bookings ∧
      ∃ e, (acceptBooking bookings bookingId user).1 = Except.error e) ∨
    ∃ b0, findBooking bookings bookingId = some b0 ∧ b0.host = user ∧
      b0.payment.status = PaymentStatus.paid ∧
      acceptBooking bookings bookingId user =
        (Except.ok { b0 with status := BookingStatus.confirmed },
          saveBooking bookings { b0 with status := BookingStatus.confirmed }) := by
  unfold acceptBooking
  cases hf : findBooking bookings bookingId with
  | none => left; exact ⟨rfl, _, rfl⟩
  | some b0 =>
    dsimp only
    by_cases hh : b0.host ≠ user
    · left; rw [if_pos hh]; exact ⟨rfl, _, rfl⟩
    · rw [if_neg hh]
      by_cases hp : b0.payment.status ≠ PaymentStatus.paid
      · left; rw [if_pos hp]; exact ⟨rfl, _, rfl⟩
      · rw [if_neg hp]
        right
        exact ⟨b0, rfl, not_not.mp hh, not_not.mp hp, rfl⟩

/-- `rejectBooking` either fails and stores nothing, or saves the found booking as rejected
by its host. -/
theorem rejectBooking_cases (env : Env) (bookings : List Booking) (bookingId user : Nat)
    (reason : Option String) :
    ((rejectBooking env bookings bookingId user reason).2 = bookings ∧
      ∃ e, (rejectBooking env bookings bookingId user reason).1 = Except.error e) ∨
    ∃ b0 c, findBooking bookings bookingId = some b0 ∧ b0.host = user ∧
      c.cancelledBy = some CancelledBy.host ∧
      c.refundStatus = (if b0.payment.status = PaymentStatus.paid then RefundStatus.pending
        else RefundStatus.none) ∧
      c.refundAmount = some (if b0.payment.status = PaymentStatus.paid then b0.pricing.total
        else 0) ∧
      rejectBooking env bookings bookingId user reason =
        (Except.ok { b0 with status := BookingStatus.rejected, hostResponse := reason,
                             cancellation := c },
          saveBooking bookings { b0 with status := BookingStatus.rejected,
                                         hostResponse := reason, cancellation := c }) := by
  unfold rejectBooking
  cases hf : findBooking bookings bookingId with
  | none => left; exact ⟨rfl, _, rfl⟩
  | some b0 =>
    dsimp only
    by_cases hh : b0.host ≠ user
    · left; rw [if_pos hh]; exact ⟨rfl, _, rfl⟩
    · rw [if_neg hh]
      right
      exact ⟨b0, _, rfl, not_not.mp hh, rfl, rfl, rfl, rfl⟩

/-- `cancelBooking` either fails and stores nothing, or saves the found booking as cancelled
by its guest or host. -/
theorem cancelBooking_cases (env : Env) (bookings : List Booking) (bookingId user : Nat)
    (reason : Option String) :
    ((cancelBooking env bookings bookingId user reason).2 = bookings ∧
      ∃ e, (cancelBooking env bookings bookingId user reason).1 = Except.error e) ∨
    ∃ b0 c, findBooking bookings bookingId = some b0 ∧ (b0.guest = user ∨ b0.host = user) ∧
      c.cancelledBy = some (if b0.host = user then CancelledBy.host else CancelledBy.guest) ∧
      c.cancelledAt = some env.now ∧
      c.refundStatus = (if b0.payment.status = PaymentStatus.paid then RefundStatus.pending
        else RefundStatus.none) ∧
      c.refundAmount = some (if b0.payment.status = PaymentStatus.paid then b0.pricing.total
        else 0) ∧
      cancelBooking env bookings bookingId user reason =
        (Except.ok { b0 with status := BookingStatus.cancelled, cancellation := c },
          saveBooking bookings { b0 with status := BookingStatus.cancelled,
                                         cancellation := c }) := by
  unfold cancelBooking
  cases hf : findBooking bookings bookingId with
  | none => left; exact ⟨rfl, _, rfl⟩
  | some b0 =>
    dsimp only
    by_cases hauth : b0.guest = user ∨ b0.host = user
    · have hcond : (!decide (b0.guest = user) && !decide (b0.host = user)) = false := by
        rcases hauth with h | h <;> simp [h]
      rw [hcond, if_neg Bool.false_ne_true]
      right
      refine ⟨b0, _, rfl, hauth, ?_, ?_, ?_, ?_, rfl⟩
      · simp
      · rfl
      · rfl
      · rfl
    · have hcond : (!decide (b0.guest = user) && !decide (b0.host = user)) = true := by
        simp [not_or.mp hauth]
      rw [hcond, if_pos rfl]
      left; exact ⟨rfl, _, rfl⟩

/-- `cashfreeReturn` either fails and stores nothing, or, the provider reporting `PAID`, saves
the found booking as paid. -/
theorem cashfreeReturn_cases (env : Env) (bookings : List Booking) (req : ReturnRequest)
    (cf : Except String CfOrder) :
    ((cashfreeReturn env bookings req cf).2 = bookings ∧
      ∃ e, (cashfreeReturn env bookings req cf).1 = Except.error e) ∨
    ∃ b0 p o, cf = Except.ok o ∧ o.order_status = some "PAID" ∧
      (∃ bookingId, req.bookingId = some bookingId ∧
        findBooking bookings bookingId = some b0) ∧
      p.status = PaymentStatus.paid ∧ p.paidAt = some env.now ∧
      cashfreeReturn env bookings req cf =
        (Except.ok { b0 with payment := p, status := BookingStatus.paid },
          saveBooking bookings { b0 with payment := p, status := BookingStatus.paid }) := by
  unfold cashfreeReturn
  cases ho : req.order_id with
  | none => left; exact ⟨rfl, _, rfl⟩
  | some orderId =>
    dsimp only
    by_cases he : orderId = ""
    · left; rw [if_pos he]; exact ⟨rfl, _, rfl⟩
    · rw [if_neg he]
      cases hb : req.bookingId with
      | none => left; exact ⟨rfl, _, rfl⟩
      | some bookingId =>
        dsimp only
        cases hf : findBooking bookings bookingId with
        | none => left; exact ⟨rfl, _, rfl⟩
        | some b0 =>
          dsimp only
          cases cf with
          | error e => left; exact ⟨rfl, _, rfl⟩
          | ok o =>
            dsimp only
            by_cases hp : o.order_status = some "PAID"
            · rw [if_pos hp]
              right
              exact ⟨b0, _, o, rfl, hp, ⟨bookingId, rfl, hf⟩, rfl, rfl, rfl⟩
            · rw [if_neg hp]
              left; exact ⟨rfl, _, rfl⟩

/-- `initiatePayment` either stores nothing, or, the provider having created the order, saves
the found booking with the order's identifiers and payment status `pending`; the latter only
for a booking whose payment is not `paid`. -/
theorem initiatePayment_cases (bookings : List Booking) (bookingId : Option Nat) (user : Nat)
    (cf : Except String CfCreatedOrder) :
    (initiatePayment bookings bookingId user cf).2 = bookings ∨
    ∃ b0 p o, cf = Except.ok o ∧
      (∃ id, bookingId = some id ∧ findBooking bookings id = some b0) ∧
      b0.guest = user ∧ b0.payment.status ≠ PaymentStatus.paid ∧
      p.status = PaymentStatus.pending ∧
      initiatePayment bookings bookingId user cf =
        (Except.ok { b0 with payment := p }, saveBooking bookings { b0 with payment := p }) := by
  unfold initiatePayment
  cases bookingId with
  | none => left; rfl
  | some id =>
    dsimp only
    cases hf : findBooking bookings id with
    | none => left; rfl
    | some b0 =>
      dsimp only
      by_cases hg : b0.guest ≠ user
      · left; rw [if_pos hg]
      · rw [if_neg hg]
        by_cases hp : b0.payment.status = PaymentStatus.paid
        · left; rw [if_pos hp]
        · rw [if_neg hp]
          by_cases hs : strTruthy b0.payment.cfPaymentSessionId = true
          · left; rw [if_pos hs]
          · rw [if_neg hs]
            cases cf with
            | error e => left; rfl
            | ok o =>
              right
              exact ⟨b0, _, o, rfl, ⟨id, rfl, hf⟩, not_not.mp hg, hp, rfl, rfl⟩

/-! ## The lifecycle handlers on a found booking -/

/-- Saving over a collection of one document with the same id leaves the saved document. -/
theorem saveBooking_singleton (b0 b : Booking) (h : b.id = b0.id) :
    saveBooking [b0] b = [b] := by
  simp [saveBooking, h]

/-- `acceptBooking` by the host of a booking whose payment is `paid`. -/
theorem acceptBooking_of_paid (bookings : List Booking) (bookingId user : Nat) (b : Booking)
    (hfind : findBooking bookings bookingId = some b) (hhost : b.host = user)
    (hpaid : b.payment.status = PaymentStatus.paid) :
    acceptBooking bookings bookingId user =
      (Except.ok { b with status := BookingStatus.confirmed },
        saveBooking bookings { b with status := BookingStatus.confirmed }) := by
  unfold acceptBooking
  simp only [hfind, hhost, hpaid, ne_eq, not_true_eq_false, if_false]

/-- `acceptBooking` by the host of a booking whose payment is not `paid`. -/
theorem acceptBooking_of_unpaid (bookings : List Booking) (bookingId user : Nat) (b : Booking)
    (hfind : findBooking bookings bookingId = some b) (hhost : b.host = user)
    (hunpaid : b.payment.status ≠ PaymentStatus.paid) :
    acceptBooking bookings bookingId user =
      (Except.error "Cannot accept booking - payment not received", bookings) := by
  unfold acceptBooking
  simp only [hfind, hhost, ne_eq, not_true_eq_false, if_false, hunpaid, not_false_eq_true,
    if_true]

/-- `rejectBooking` by the host of a booking, whatever its status. -/
theorem rejectBooking_of_host (env : Env) (bookings : List Booking) (bookingId user : Nat)
    (reason : Option String) (b : Booking)
    (hfind : findBooking bookings bookingId = some b) (hhost : b.host = user) :
    ∃ c : Cancellation, c.cancelledBy = some CancelledBy.host ∧
      c.refundStatus = (if b.payment.status = PaymentStatus.paid then RefundStatus.pending
        else RefundStatus.none) ∧
      c.refundAmount = some (if b.payment.status = PaymentStatus.paid then b.pricing.total
        else 0) ∧
      rejectBooking env bookings bookingId user reason =
        (Except.ok { b with status := BookingStatus.rejected, hostResponse := reason,
                            cancellation := c },
          saveBooking bookings { b with status := BookingStatus.rejected,
                                        hostResponse := reason, cancellation := c }) := by
  unfold rejectBooking
  simp only [hfind, hhost, ne_eq, not_true_eq_false, if_false]
  exact ⟨_, rfl, rfl, rfl, rfl⟩

/-- `cancelBooking` by the guest or the host of a booking, whatever its status. -/
theorem cancelBooking_of_party (env : Env) (bookings : List Booking) (bookingId user : Nat)
    (reason : Option String) (b : Booking)
    (hfind : findBooking bookings bookingId = some b)
    (hparty : b.guest = user ∨ b.host = user) :
    ∃ c : Cancellation,
      c.cancelledBy = some (if b.host = user then CancelledBy.host else CancelledBy.guest) ∧
      c.cancelledAt = some env.now ∧
      c.refundStatus = (if b.payment.status = PaymentStatus.paid then RefundStatus.pending
        else RefundStatus.none) ∧
      c.refundAmount = some (if b.payment.status = PaymentStatus.paid then b.pricing.total
        else 0) ∧
      cancelBooking env bookings bookingId user reason =
        (Except.ok { b with status := BookingStatus.cancelled, cancellation := c },
          saveBooking bookings { b with status := BookingStatus.cancelled,
                                        cancellation := c }) := by
  have hcond : (!decide (b.guest = user) && !decide (b.host = user)) = false := by
    rcases hparty with h | h <;> simp [h]
  unfold cancelBooking
  simp only [hfind, hcond, Bool.false_eq_true, if_false]
  refine ⟨_, ?_, ?_, ?_, ?_, rfl⟩
  · simp
  · rfl
  · rfl
  · rfl

/-- `cashfreeReturn` on a stored booking when the provider reports `PAID`, whatever the
booking's status. -/
theorem cashfreeReturn_of_paid (env : Env) (bookings : List Booking) (orderId : String)
    (bookingId : Nat) (o : CfOrder) (b : Booking) (horder : orderId ≠ "")
    (hfind : findBooking bookings bookingId = some b) (hpaid : o.order_status = some "PAID") :
    ∃ p : Payment, p.status = PaymentStatus.paid ∧ p.paidAt = some env.now ∧
      cashfreeReturn env bookings { order_id := some orderId, bookingId := some bookingId }
          (Except.ok o) =
        (Except.ok { b with payment := p, status := BookingStatus.paid },
          saveBooking bookings { b with payment := p, status := BookingStatus.paid }) := by
  unfold cashfreeReturn
  simp only [if_neg horder, hfind, hpaid, if_true]
  exact ⟨_, rfl, rfl, rfl⟩

/-- The example reservation: one `pending_payment` booking, id 1, guest 2, host 1. -/
theorem exampleReserved_spec :
    ∃ b, (createBooking exampleEnv [exampleListing] []
        (exampleRequest 2 2 1767139200000 1767312000000)).2 = [b] ∧
      b.id = 1 ∧ b.guest = 2 ∧ b.host = 1 ∧ b.status = BookingStatus.pending_payment ∧
      b.payment.status = PaymentStatus.pending := by
  obtain ⟨sp, -, hA⟩ := createBooking_validated exampleEnv [exampleListing] []
    (exampleRequest 2 2 1767139200000 1767312000000) 7 exampleListing
    1767139200000 1767312000000 rfl rfl rfl rfl (by decide)
    (fun g hg => by cases hg; decide) example_minStay
  rw [if_pos ⟨rfl, by decide⟩] at hA
  rw [hA]
  exact ⟨_, rfl, rfl, rfl, rfl, rfl, rfl⟩

/-- The example paid store: one booking, id 1, guest 2, host 1, status and payment `paid`. -/
theorem examplePaidStore_spec :
    ∃ b, examplePaidStore = [b] ∧ b.id = 1 ∧ b.guest = 2 ∧ b.host = 1 ∧
      b.status = BookingStatus.paid ∧ b.payment.status = PaymentStatus.paid := by
  obtain ⟨b0, hb0, hid, hg, hh, -, -⟩ := exampleReserved_spec
  have hfind : findBooking [b0] 1 = some b0 := by simp [findBooking, hid]
  obtain ⟨p, hp, -, hret⟩ := cashfreeReturn_of_paid exampleEnv [b0] "order_1" 1 paidOrder b0
    (by decide) hfind rfl
  unfold examplePaidStore
  rw [hb0, hret]
  exact ⟨_, saveBooking_singleton b0 _ rfl, hid, hg, hh, rfl, hp⟩

/-- The example cancelled store: booking 1 of host 1, cancelled by its guest after paying. -/
theorem exampleCancelledStore_spec :
    Reachable [exampleListing] exampleCancelledStore ∧
    ∃ b, exampleCancelledStore = [b] ∧ b.id = 1 ∧ b.host = 1 ∧
      b.status = BookingStatus.cancelled ∧ b.payment.status = PaymentStatus.paid := by
  constructor
  · exact Reachable.cancelBooking _ _ _ _
      (Reachable.cashfreeReturn _ _ _ (Reachable.createBooking _ _ Reachable.empty))
  · obtain ⟨b0, hb0, hid, hg, hh, -, hp⟩ := examplePaidStore_spec
    have hfind : findBooking [b0] 1 = some b0 := by simp [findBooking, hid]
    obtain ⟨c, -, -, -, -, hc⟩ :=
      cancelBooking_of_party exampleEnv [b0] 1 2 none b0 hfind (Or.inl hg)
    unfold exampleCancelledStore
    rw [hb0, hc]
    exact ⟨_, saveBooking_singleton b0 _ rfl, hid, hh, rfl, hp⟩

/-- The example abandoned store: booking 1, cancelled by its guest before any payment. -/
theorem exampleAbandonedStore_spec :
    Reachable [exampleListing] exampleAbandonedStore ∧
    ∃ b, exampleAbandonedStore = [b] ∧ b.id = 1 ∧
      b.status = BookingStatus.cancelled ∧ b.payment.status = PaymentStatus.pending := by
  constructor
  · exact Reachable.cancelBooking _ _ _ _ (Reachable.createBooking _ _ Reachable.empty)
  · obtain ⟨b0, hb0, hid, hg, -, -, hp⟩ := exampleReserved_spec
    have hfind : findBooking [b0] 1 = some b0 := by simp [findBooking, hid]
    obtain ⟨c, -, -, -, -, hc⟩ :=
      cancelBooking_of_party exampleEnv [b0] 1 2 none b0 hfind (Or.inl hg)
    unfold exampleAbandonedStore
    rw [hb0, hc]
    exact ⟨_, saveBooking_singleton b0 _ rfl, hid, rfl, hp⟩

/-! ## C12: accepting a booking -/

/-- C12 (as stated, refuted): guest 2 reserves, pays and then cancels booking 1; the booking
is in status `cancelled`, yet `acceptBooking` by its host succeeds and sets it to
`confirmed`. -/
theorem C12_counterexample :
    Reachable [exampleListing] exampleCancelledStore ∧
    ∃ b0, findBooking exampleCancelledStore 1 = some b0 ∧ b0.host = 1 ∧
      b0.status = BookingStatus.cancelled ∧
      ∃ b, acceptBooking exampleCancelledStore 1 1 =
          (Except.ok b, saveBooking exampleCancelledStore b) ∧
        b.status = BookingStatus.confirmed := by
  obtain ⟨hreach, b0, hb0, hid, hh, hst, hp⟩ := exampleCancelledStore_spec
  have hfind : findBooking exampleCancelledStore 1 = some b0 := by
    rw [hb0]; simp [findBooking, hid]
  exact ⟨hreach, b0, hfind, hh, hst, _,
    acceptBooking_of_paid exampleCancelledStore 1 1 b0 hfind hh hp, rfl⟩

/-- C12 (amended): for every stored booking and its host, `acceptBooking` succeeds (setting
status to `confirmed`) exactly when the booking's `payment.status` is `paid`, whatever its
current status; when `payment.status` is not `paid` it fails with the payment-not-received
error and leaves the stored bookings unchanged. -/
theorem C12_accept_gate (bookings : List Booking) (bookingId user : Nat) (b : Booking)
    (hfind : findBooking bookings bookingId = some b) (hhost : b.host = user) :
    (b.payment.status = PaymentStatus.paid →
      ∃ b', acceptBooking bookings bookingId user = (Except.ok b', saveBooking bookings b') ∧
        b'.status = BookingStatus.confirmed ∧ b'.id = b.id) ∧
    (b.payment.status ≠ PaymentStatus.paid →
      acceptBooking bookings bookingId user =
        (Except.error "Cannot accept booking - payment not received", bookings)) :=
  ⟨fun hpaid => ⟨_, acceptBooking_of_paid bookings bookingId user b hfind hhost hpaid, rfl, rfl⟩,
    fun hunpaid => acceptBooking_of_unpaid bookings bookingId user b hfind hhost hunpaid⟩

/-- C12 witness: the host accepts a paid booking, and cannot accept an unpaid one. -/
theorem C12_accept_gate_witness :
    (∃ b', acceptBooking [examplePaidBooking 1 BookingStatus.paid 1767139200000 1767312000000]
          1 1 =
        (Except.ok b',
          saveBooking [examplePaidBooking 1 BookingStatus.paid 1767139200000 1767312000000]
            b') ∧
      b'.status = BookingStatus.confirmed ∧
      b'.id = (examplePaidBooking 1 BookingStatus.paid 1767139200000 1767312000000).id) ∧
    acceptBooking [exampleBooking 1 BookingStatus.pending_payment 1767139200000 1767312000000]
        1 1 =
      (Except.error "Cannot accept booking - payment not received",
        [exampleBooking 1 BookingStatus.pending_payment 1767139200000 1767312000000]) :=
  ⟨(C12_accept_gate [examplePaidBooking 1 BookingStatus.paid 1767139200000 1767312000000] 1 1
      (examplePaidBooking 1 BookingStatus.paid 1767139200000 1767312000000) rfl rfl).1 rfl,
    (C12_accept_gate
      [exampleBooking 1 BookingStatus.pending_payment 1767139200000 1767312000000] 1 1
      (exampleBooking 1 BookingStatus.pending_payment 1767139200000 1767312000000)
      rfl rfl).2 (by decide)⟩

/-! ## C13: unauthorized actors -/

/-- C13: for every stored booking, `cancelBooking` by a user who is neither its guest nor its
host, and `acceptBooking` or `rejectBooking` by a user who is not its host, fail with the
not-authorized error and leave the stored bookings, hence every field of the booking,
unchanged. -/
theorem C13_not_authorized (env : Env) (bookings : List Booking) (bookingId user : Nat)
    (reason : Option String) (b : Booking)
    (hfind : findBooking bookings bookingId = some b) :
    (b.guest ≠ user → b.host ≠ user →
      cancelBooking env bookings bookingId user reason =
        (Except.error "Not authorized", bookings)) ∧
    (b.host ≠ user →
      acceptBooking bookings bookingId user = (Except.error "Not authorized", bookings) ∧
      rejectBooking env bookings bookingId user reason =
        (Except.error "Not authorized", bookings)) := by
  constructor
  · intro hg hh
    unfold cancelBooking
    simp [hfind, hg, hh]
  · intro hh
    constructor
    · unfold acceptBooking
      simp [hfind, hh]
    · unfold rejectBooking
      simp [hfind, hh]

/-- C13 witness: user 9, a stranger to booking 1 (guest 2, host 1), is refused by all three
handlers. -/
theorem C13_not_authorized_witness :
    cancelBooking exampleEnv
        [examplePaidBooking 1 BookingStatus.paid 1767139200000 1767312000000] 1 9 none =
      (Except.error "Not authorized",
        [examplePaidBooking 1 BookingStatus.paid 1767139200000 1767312000000]) ∧
    acceptBooking [examplePaidBooking 1 BookingStatus.paid 1767139200000 1767312000000] 1 9 =
      (Except.error "Not authorized",
        [examplePaidBooking 1 BookingStatus.paid 1767139200000 1767312000000]) ∧
    rejectBooking exampleEnv
        [examplePaidBooking 1 BookingStatus.paid 1767139200000 1767312000000] 1 9 none =
      (Except.error "Not authorized",
        [examplePaidBooking 1 BookingStatus.paid 1767139200000 1767312000000]) :=
  have h := C13_not_authorized exampleEnv
    [examplePaidBooking 1 BookingStatus.paid 1767139200000 1767312000000] 1 9 none
    (examplePaidBooking 1 BookingStatus.paid 1767139200000 1767312000000) rfl
  ⟨h.1 (by decide) (by decide), h.2 (by decide)⟩

/-! ## C14: rejecting a booking -/

/-- C14 (as stated, refuted): booking 1, just reserved by guest 2 and still in status
`pending_payment`, is moved to `rejected` by `rejectBooking` of its host. -/
theorem C14_counterexample :
    ∃ b0, findBooking exampleReservedStore 1 = some b0 ∧ b0.host = 1 ∧
      b0.status = BookingStatus.pending_payment ∧
      ∃ b, rejectBooking exampleEnv exampleReservedStore 1 1 none =
          (Except.ok b, saveBooking exampleReservedStore b) ∧
        b.status = BookingStatus.rejected := by
  obtain ⟨b0, hb0, hid, -, hh, hst, -⟩ := exampleReserved_spec
  have hfind : findBooking exampleReservedStore 1 = some b0 := by
    unfold exampleReservedStore
    rw [hb0]; simp [findBooking, hid]
  obtain ⟨c, -, -, -, hr⟩ :=
    rejectBooking_of_host exampleEnv exampleReservedStore 1 1 none b0 hfind hh
  exact ⟨b0, hfind, hh, hst, _, hr, rfl⟩

/-- C14 (amended): for every stored booking and its host, `rejectBooking` moves the booking to
`rejected` whatever its current status (`paid` or any other): it has no status precondition
and never fails for the host. -/
theorem C14_reject_any_status (env : Env) (bookings : List Booking) (bookingId user : Nat)
    (reason : Option String) (b : Booking)
    (hfind : findBooking bookings bookingId = some b) (hhost : b.host = user) :
    ∃ b', rejectBooking env bookings bookingId user reason =
        (Except.ok b', saveBooking bookings b') ∧
      b'.status = BookingStatus.rejected ∧ b'.id = b.id := by
  obtain ⟨c, -, -, -, hr⟩ := rejectBooking_of_host env bookings bookingId user reason b hfind hhost
  exact ⟨_, hr, rfl, rfl⟩

/-- C14 witness: host 1 rejects the confirmed booking 1. -/
theorem C14_reject_any_status_witness :
    ∃ b', rejectBooking exampleEnv
          [examplePaidBooking 1 BookingStatus.confirmed 1767139200000 1767312000000] 1 1 none =
        (Except.ok b',
          saveBooking [examplePaidBooking 1 BookingStatus.confirmed 1767139200000 1767312000000]
            b') ∧
      b'.status = BookingStatus.rejected ∧
      b'.id = (examplePaidBooking 1 BookingStatus.confirmed 1767139200000 1767312000000).id :=
  C14_reject_any_status exampleEnv
    [examplePaidBooking 1 BookingStatus.confirmed 1767139200000 1767312000000] 1 1 none
    (examplePaidBooking 1 BookingStatus.confirmed 1767139200000 1767312000000) rfl rfl

/-! ## C15: cancelling a booking -/

/-- C15 (as stated, refuted): booking 1, just reserved by guest 2 and still in status
`pending_payment`, is moved to `cancelled` by `cancelBooking` of its guest. -/
theorem C15_counterexample :
    ∃ b0, findBooking exampleReservedStore 1 = some b0 ∧ b0.guest = 2 ∧
      b0.status = BookingStatus.pending_payment ∧
      ∃ b, cancelBooking exampleEnv exampleReservedStore 1 2 none =
          (Except.ok b, saveBooking exampleReservedStore b) ∧
        b.status = BookingStatus.cancelled := by
  obtain ⟨b0, hb0, hid, hg, -, hst, -⟩ := exampleReserved_spec
  have hfind : findBooking exampleReservedStore 1 = some b0 := by
    unfold exampleReservedStore
    rw [hb0]; simp [findBooking, hid]
  obtain ⟨c, -, -, -, -, hc⟩ :=
    cancelBooking_of_party exampleEnv exampleReservedStore 1 2 none b0 hfind (Or.inl hg)
  exact ⟨b0, hfind, hg, hst, _, hc, rfl⟩

/-- C15 (amended): for every stored booking and every actor who is its guest or host,
`cancelBooking` moves the booking to `cancelled` whatever its current status, and replaces its
cancellation record by a new one stamped with the current time: it has no status
precondition and never fails for the guest or the host. -/
theorem C15_cancel_any_status (env : Env) (bookings : List Booking) (bookingId user : Nat)
    (reason : Option String) (b : Booking)
    (hfind : findBooking bookings bookingId = some b)
    (hparty : b.guest = user ∨ b.host = user) :
    ∃ b', cancelBooking env bookings bookingId user reason =
        (Except.ok b', saveBooking bookings b') ∧
      b'.status = BookingStatus.cancelled ∧ b'.id = b.id ∧
      b'.cancellation.cancelledAt = some env.now := by
  obtain ⟨c, -, hat, -, -, hc⟩ :=
    cancelBooking_of_party env bookings bookingId user reason b hfind hparty
  exact ⟨_, hc, rfl, rfl, hat⟩

/-- C15 witness: the guest cancels the rejected booking 1. -/
theorem C15_cancel_any_status_witness :
    ∃ b', cancelBooking exampleEnv
          [examplePaidBooking 1 BookingStatus.rejected 1767139200000 1767312000000] 1 2 none =
        (Except.ok b',
          saveBooking [examplePaidBooking 1 BookingStatus.rejected 1767139200000 1767312000000]
            b') ∧
      b'.status = BookingStatus.cancelled ∧
      b'.id = (examplePaidBooking 1 BookingStatus.rejected 1767139200000 1767312000000).id ∧
      b'.cancellation.cancelledAt = some exampleEnv.now :=
  C15_cancel_any_status exampleEnv
    [examplePaidBooking 1 BookingStatus.rejected 1767139200000 1767312000000] 1 2 none
    (examplePaidBooking 1 BookingStatus.rejected 1767139200000 1767312000000) rfl (Or.inl rfl)

/-! ## C16: settling a payment -/

/-- C16 (as stated, refuted): guest 2 reserves booking 1 and cancels it before paying; the
booking is in status `cancelled`, yet a payment return with the provider reporting `PAID`
sets it to `paid`. -/
theorem C16_counterexample :
    Reachable [exampleListing] exampleAbandonedStore ∧
    ∃ b0, findBooking exampleAbandonedStore 1 = some b0 ∧
      b0.status = BookingStatus.cancelled ∧
      ∃ b, cashfreeReturn exampleEnv exampleAbandonedStore
            { order_id := some "order_1", bookingId := some 1 } (Except.ok paidOrder) =
          (Except.ok b, saveBooking exampleAbandonedStore b) ∧
        b.status = BookingStatus.paid := by
  obtain ⟨hreach, b0, hb0, hid, hst, -⟩ := exampleAbandonedStore_spec
  have hfind : findBooking exampleAbandonedStore 1 = some b0 := by
    rw [hb0]; simp [findBooking, hid]
  obtain ⟨p, -, -, hret⟩ := cashfreeReturn_of_paid exampleEnv exampleAbandonedStore "order_1" 1
    paidOrder b0 (by decide) hfind rfl
  exact ⟨hreach, b0, hfind, hst, _, hret, rfl⟩

/-- C16 (amended): for every stored booking, the payment-settled transition (`cashfreeReturn`
with the provider reporting `PAID`) sets status to `paid`, `payment.status` to `paid` and
`payment.paidAt` to the current time whatever the booking's current status
(`pending_payment` or any other): it has no status precondition. -/
theorem C16_settle_any_status (env : Env) (bookings : List Booking) (orderId : String)
    (bookingId : Nat) (cfOrder : CfOrder) (b : Booking) (horder : orderId ≠ "")
    (hfind : findBooking bookings bookingId = some b)
    (hpaid : cfOrder.order_status = some "PAID") :
    ∃ b', cashfreeReturn env bookings { order_id := some orderId, bookingId := some bookingId }
          (Except.ok cfOrder) = (Except.ok b', saveBooking bookings b') ∧
      b'.status = BookingStatus.paid ∧ b'.payment.status = PaymentStatus.paid ∧
      b'.payment.paidAt = some env.now ∧ b'.id = b.id := by
  obtain ⟨p, hp, hat, hret⟩ :=
    cashfreeReturn_of_paid env bookings orderId bookingId cfOrder b horder hfind hpaid
  exact ⟨_, hret, rfl, hp, hat, rfl⟩

/-- C16 witness: a payment return for the already confirmed booking 1. -/
theorem C16_settle_any_status_witness :
    ∃ b', cashfreeReturn exampleEnv
          [examplePaidBooking 1 BookingStatus.confirmed 1767139200000 1767312000000]
          { order_id := some "order_1", bookingId := some 1 } (Except.ok paidOrder) =
        (Except.ok b',
          saveBooking [examplePaidBooking 1 BookingStatus.confirmed 1767139200000 1767312000000]
            b') ∧
      b'.status = BookingStatus.paid ∧ b'.payment.status = PaymentStatus.paid ∧
      b'.payment.paidAt = some exampleEnv.now ∧
      b'.id = (examplePaidBooking 1 BookingStatus.confirmed 1767139200000 1767312000000).id :=
  C16_settle_any_status exampleEnv
    [examplePaidBooking 1 BookingStatus.confirmed 1767139200000 1767312000000] "order_1" 1
    paidOrder (examplePaidBooking 1 BookingStatus.confirmed 1767139200000 1767312000000)
    (by decide) rfl rfl

/-! ## C17: provider failures -/

/-- C17: if the provider call fails (the order creation of `initiatePayment` throws, or the
order-status query of `cashfreeReturn` throws) or the queried order status is anything other
than `PAID`, then the stored bookings are unchanged: no status is advanced and no payment
sub-record is modified. -/
theorem C17_provider_failure (env : Env) (bookings : List Booking) (bookingId : Option Nat)
    (user : Nat) (req : ReturnRequest) :
    (∀ e, (initiatePayment bookings bookingId user (Except.error e)).2 = bookings) ∧
    (∀ e, (cashfreeReturn env bookings req (Except.error e)).2 = bookings) ∧
    (∀ o, o.order_status ≠ some "PAID" →
      (cashfreeReturn env bookings req (Except.ok o)).2 = bookings) := by
  refine ⟨?_, ?_, ?_⟩
  · intro e
    rcases initiatePayment_cases bookings bookingId user (Except.error e) with
      h | ⟨b0, p, o, hcf, -⟩
    · exact h
    · cases hcf
  · intro e
    rcases cashfreeReturn_cases env bookings req (Except.error e) with
      ⟨h, -⟩ | ⟨b0, p, o, hcf, -⟩
    · exact h
    · cases hcf
  · intro o ho
    rcases cashfreeReturn_cases env bookings req (Except.ok o) with
      ⟨h, -⟩ | ⟨b0, p, o', hcf, hpaid, -⟩
    · exact h
    · cases hcf
      exact absurd hpaid ho

/-- C17 witness: a payment return for booking 1 while the provider reports the order as
`ACTIVE` stores nothing. -/
theorem C17_provider_failure_witness :
    (cashfreeReturn exampleEnv
      [exampleBooking 1 BookingStatus.pending_payment 1767139200000 1767312000000]
      { order_id := some "order_1", bookingId := some 1 }
      (Except.ok { order_status := some "ACTIVE", cf_order_id := some "cf_1" })).2 =
      [exampleBooking 1 BookingStatus.pending_payment 1767139200000 1767312000000] :=
  (C17_provider_failure exampleEnv
    [exampleBooking 1 BookingStatus.pending_payment 1767139200000 1767312000000] (some 1) 2
    { order_id := some "order_1", bookingId := some 1 }).2.2
    { order_status := some "ACTIVE", cf_order_id := some "cf_1" } (by decide)

/-! ## C18: the cancellation record -/

/-- C18: for every stored booking and every actor who is its guest or host, `cancelBooking`
succeeds, sets status to `cancelled` and writes a cancellation record whose `cancelledBy` is
the actor's role (`host` when the actor is the booking's host, otherwise `guest`) and whose
refund is full when the booking's payment was `paid` (`refundAmount = pricing.total`,
`refundStatus = pending`) and empty otherwise (`refundAmount = 0`, `refundStatus = none`). -/
theorem C18_cancel_record (env : Env) (bookings : List Booking) (bookingId user : Nat)
    (reason : Option String) (b : Booking)
    (hfind : findBooking bookings bookingId = some b)
    (hparty : b.guest = user ∨ b.host = user) :
    ∃ b', cancelBooking env bookings bookingId user reason =
        (Except.ok b', saveBooking bookings b') ∧
      b'.status = BookingStatus.cancelled ∧
      b'.cancellation.cancelledBy =
        some (if b.host = user then CancelledBy.host else CancelledBy.guest) ∧
      (b.payment.status = PaymentStatus.paid →
        b'.cancellation.refundAmount = some b.pricing.total ∧
        b'.cancellation.refundStatus = RefundStatus.pending) ∧
      (b.payment.status ≠ PaymentStatus.paid →
        b'.cancellation.refundAmount = some 0 ∧
        b'.cancellation.refundStatus = RefundStatus.none) := by
  obtain ⟨c, hby, -, hrs, hra, hc⟩ :=
    cancelBooking_of_party env bookings bookingId user reason b hfind hparty
  refine ⟨_, hc, rfl, hby, ?_, ?_⟩
  · intro hpaid
    exact ⟨by rw [hra, if_pos hpaid], by rw [hrs, if_pos hpaid]⟩
  · intro hunpaid
    exact ⟨by rw [hra, if_neg hunpaid], by rw [hrs, if_neg hunpaid]⟩

/-- C18 witness: the guest cancels the paid booking 1 (total 2240) and is owed a full
refund. -/
theorem C18_cancel_record_witness :
    ∃ b', cancelBooking exampleEnv
          [examplePaidBooking 1 BookingStatus.paid 1767139200000 1767312000000] 1 2 none =
        (Except.ok b',
          saveBooking [examplePaidBooking 1 BookingStatus.paid 1767139200000 1767312000000]
            b') ∧
      b'.status = BookingStatus.cancelled ∧
      b'.cancellation.cancelledBy = some CancelledBy.guest ∧
      b'.cancellation.refundAmount = some 2240 ∧
      b'.cancellation.refundStatus = RefundStatus.pending := by
  obtain ⟨b', h1, h2, h3, h4, -⟩ := C18_cancel_record exampleEnv
    [examplePaidBooking 1 BookingStatus.paid 1767139200000 1767312000000] 1 2 none
    (examplePaidBooking 1 BookingStatus.paid 1767139200000 1767312000000) rfl (Or.inl rfl)
  exact ⟨b', h1, h2, h3, (h4 rfl).1, (h4 rfl).2⟩

/-! ## C19: rejecting a reachable paid booking -/

/-- A property of every stored document survives a save of a document that has it. -/
theorem forall_mem_saveBooking (P : Booking → Prop) (bookings : List Booking) (b : Booking)
    (hall : ∀ x ∈ bookings, P x) (hb : P b) : ∀ x ∈ saveBooking bookings b, P x := by
  intro x hx
  rcases mem_saveBooking bookings b x hx with h | h
  · rw [h]; exact hb
  · exact hall x h

/-- In every reachable collection a booking in status `paid` has payment status `paid`:
only `cashfreeReturn` sets the status `paid`, together with the payment status, and
`initiatePayment` resets the payment status only of a booking whose payment is not `paid`. -/
theorem reachable_paid_payment (listings : List Listing) (bookings : List Booking)
    (hreach : Reachable listings bookings) :
    ∀ b ∈ bookings, b.status = BookingStatus.paid → b.payment.status = PaymentStatus.paid := by
  induction hreach with
  | empty => intro b hb; cases hb
  | @createBooking env req bs _ ih =>
    rcases createBooking_cases env listings bs req with
      ⟨h, -⟩ | ⟨lid, l, ci, co, a, sp, -, -, -, -, -, -, -, -, -, -, h⟩
    · rw [h]; exact ih
    · rw [h]
      intro b hb hst
      rcases List.mem_append.mp hb with hb | hb
      · exact ih b hb hst
      · rw [List.mem_singleton.mp hb] at hst
        cases hst
  | @createBookingAndPay env req cf bs _ ih =>
    rcases createBookingAndPay_cases env listings bs req cf with
      ⟨h, -⟩ | ⟨lid, l, ci, co, a, sp, p, -, -, -, -, -, -, -, -, -, -, -, -, -, -, h, -⟩
    · rw [h]; exact ih
    · rw [h]
      intro b hb hst
      rcases List.mem_append.mp hb with hb | hb
      · exact ih b hb hst
      · rw [List.mem_singleton.mp hb] at hst
        cases hst
  | @initiatePayment bookingId user cf bs _ ih =>
    rcases initiatePayment_cases bs bookingId user cf with
      h | ⟨b0, p, o, -, ⟨id, -, hfind⟩, -, hunpaid, -, h⟩
    · rw [h]; exact ih
    · rw [h]
      apply forall_mem_saveBooking _ bs _ ih
      intro hst
      exact absurd (ih b0 (findBooking_some bs id b0 hfind).1 hst) hunpaid
  | @cashfreeReturn env req cf bs _ ih =>
    rcases cashfreeReturn_cases env bs req cf with
      ⟨h, -⟩ | ⟨b0, p, o, -, -, -, hp, -, h⟩
    · rw [h]; exact ih
    · rw [h]
      apply forall_mem_saveBooking _ bs _ ih
      intro _
      exact hp
  | @acceptBooking bookingId user bs _ ih =>
    rcases acceptBooking_cases bs bookingId user with ⟨h, -⟩ | ⟨b0, -, -, -, h⟩
    · rw [h]; exact ih
    · rw [h]
      apply forall_mem_saveBooking _ bs _ ih
      intro hst
      cases hst
  | @rejectBooking env bookingId user reason bs _ ih =>
    rcases rejectBooking_cases env bs bookingId user reason with
      ⟨h, -⟩ | ⟨b0, c, -, -, -, -, -, h⟩
    · rw [h]; exact ih
    · rw [h]
      apply forall_mem_saveBooking _ bs _ ih
      intro hst
      cases hst
  | @cancelBooking env bookingId user reason bs _ ih =>
    rcases cancelBooking_cases env bs bookingId user reason with
      ⟨h, -⟩ | ⟨b0, c, -, -, -, -, -, -, h⟩
    · rw [h]; exact ih
    · rw [h]
      apply forall_mem_saveBooking _ bs _ ih
      intro hst
      cases hst

/-- C19: for every booking in status `paid` of a collection reachable through the system's
operations, `rejectBooking` by its host succeeds and yields status `rejected` and a
cancellation record with `cancelledBy = host`, `refundAmount` equal to the booking's
`pricing.total` and `refundStatus = pending`. -/
theorem C19_reject_paid (env : Env) (listings : List Listing) (bookings : List Booking)
    (bookingId user : Nat) (reason : Option String) (b : Booking)
    (hreach : Reachable listings bookings)
    (hfind : findBooking bookings bookingId = some b)
    (hstatus : b.status = BookingStatus.paid) (hhost : b.host = user) :
    ∃ b', rejectBooking env bookings bookingId user reason =
        (Except.ok b', saveBooking bookings b') ∧
      b'.status = BookingStatus.rejected ∧
      b'.cancellation.cancelledBy = some CancelledBy.host ∧
      b'.cancellation.refundAmount = some b.pricing.total ∧
      b'.cancellation.refundStatus = RefundStatus.pending := by
  have hpaid : b.payment.status = PaymentStatus.paid :=
    reachable_paid_payment listings bookings hreach b
      (findBooking_some bookings bookingId b hfind).1 hstatus
  obtain ⟨c, hby, hrs, hra, hr⟩ :=
    rejectBooking_of_host env bookings bookingId user reason b hfind hhost
  exact ⟨_, hr, rfl, hby, by rw [hra, if_pos hpaid], by rw [hrs, if_pos hpaid]⟩

/-- C19 witness: guest 2 reserves and pays booking 1 of listing 7, and host 1 rejects it. -/
theorem C19_reject_paid_witness :
    ∃ b b', findBooking examplePaidStore 1 = some b ∧ b.status = BookingStatus.paid ∧
      rejectBooking exampleEnv examplePaidStore 1 1 none =
        (Except.ok b', saveBooking examplePaidStore b') ∧
      b'.status = BookingStatus.rejected ∧
      b'.cancellation.cancelledBy = some CancelledBy.host ∧
      b'.cancellation.refundAmount = some b.pricing.total ∧
      b'.cancellation.refundStatus = RefundStatus.pending := by
  obtain ⟨b, hb, hid, -, hh, hst, -⟩ := examplePaidStore_spec
  have hfind : findBooking examplePaidStore 1 = some b := by
    rw [hb]; simp [findBooking, hid]
  have hreach : Reachable [exampleListing] examplePaidStore :=
    Reachable.cashfreeReturn _ _ _ (Reachable.createBooking _ _ Reachable.empty)
  obtain ⟨b', h⟩ := C19_reject_paid exampleEnv [exampleListing] examplePaidStore 1 1 none b
    hreach hfind hst hh
  exact ⟨b, b', hfind, hst, h⟩

/-! ## Ids of the stored bookings -/

/-- A save keeps the ids of the collection. -/
theorem saveBooking_ids (bookings : List Booking) (b : Booking) :
    (saveBooking bookings b).map (fun x => x.id) = bookings.map (fun x => x.id) := by
  unfold saveBooking
  rw [List.map_map]
  apply List.map_congr_left
  intro old _
  by_cases h : (old.id == b.id) = true
  · show (if (old.id == b.id) = true then b else old).id = old.id
    rw [if_pos h]
    exact (beq_iff_eq.mp h).symm
  · show (if (old.id == b.id) = true then b else old).id = old.id
    rw [if_neg h]

theorem le_foldl_max (l : List Nat) (init : Nat) :
    init ≤ l.foldl max init ∧ ∀ x ∈ l, x ≤ l.foldl max init := by
  induction l generalizing init with
  | nil => simp
  | cons a l ih =>
    obtain ⟨h1, h2⟩ := ih (max init a)
    refine ⟨le_trans (le_max_left init a) h1, ?_⟩
    intro x hx
    rcases List.mem_cons.mp hx with rfl | hx
    · exact le_trans (le_max_right init x) h1
    · exact h2 x hx

/-- The id given to a new booking is above every stored id. -/
theorem lt_freshId (bookings : List Booking) (b : Booking) (hb : b ∈ bookings) :
    b.id < freshId bookings := by
  unfold freshId
  have := (le_foldl_max (bookings.map (fun x => x.id)) 0).2 b.id (List.mem_map_of_mem _ hb)
  omega

/-- Appending a document under the fresh id keeps the ids distinct. -/
theorem nodup_append_fresh (bookings : List Booking) (b : Booking)
    (hnodup : (bookings.map (fun x => x.id)).Nodup) (hid : b.id = freshId bookings) :
    ((bookings ++ [b]).map (fun x => x.id)).Nodup := by
  rw [List.map_append, List.nodup_append]
  refine ⟨hnodup, by simp, ?_⟩
  intro x hx hx'
  obtain ⟨y, hy, rfl⟩ := List.mem_map.mp hx
  simp only [List.map_cons, List.map_nil, List.mem_singleton] at hx'
  have := lt_freshId bookings y hy
  omega

/-- The ids of a reachable collection are distinct. -/
theorem reachable_nodup (listings : List Listing) (bookings : List Booking)
    (hreach : Reachable listings bookings) : (bookings.map (fun x => x.id)).Nodup := by
  induction hreach with
  | empty => simp
  | @createBooking env req bs _ ih =>
    rcases createBooking_cases env listings bs req with
      ⟨h, -⟩ | ⟨lid, l, ci, co, a, sp, -, -, -, -, -, -, -, -, -, -, h⟩
    · rw [h]; exact ih
    · rw [h]; exact nodup_append_fresh bs _ ih rfl
  | @createBookingAndPay env req cf bs _ ih =>
    rcases createBookingAndPay_cases env listings bs req cf with
      ⟨h, -⟩ | ⟨lid, l, ci, co, a, sp, p, -, -, -, -, -, -, -, -, -, -, -, -, -, -, h, -⟩
    · rw [h]; exact ih
    · rw [h]; exact nodup_append_fresh bs _ ih rfl
  | @initiatePayment bookingId user cf bs _ ih =>
    rcases initiatePayment_cases bs bookingId user cf with h | ⟨b0, p, o, -, -, -, -, -, h⟩
    · rw [h]; exact ih
    · rw [h, saveBooking_ids]; exact ih
  | @cashfreeReturn env req cf bs _ ih =>
    rcases cashfreeReturn_cases env bs req cf with ⟨h, -⟩ | ⟨b0, p, o, -, -, -, -, -, h⟩
    · rw [h]; exact ih
    · rw [h, saveBooking_ids]; exact ih
  | @acceptBooking bookingId user bs _ ih =>
    rcases acceptBooking_cases bs bookingId user with ⟨h, -⟩ | ⟨b0, -, -, -, h⟩
    · rw [h]; exact ih
    · rw [h, saveBooking_ids]; exact ih
  | @rejectBooking env bookingId user reason bs _ ih =>
    rcases rejectBooking_cases env bs bookingId user reason with
      ⟨h, -⟩ | ⟨b0, c, -, -, -, -, -, h⟩
    · rw [h]; exact ih
    · rw [h, saveBooking_ids]; exact ih
  | @cancelBooking env bookingId user reason bs _ ih =>
    rcases cancelBooking_cases env bs bookingId user reason with
      ⟨h, -⟩ | ⟨b0, c, -, -, -, -, -, -, h⟩
    · rw [h]; exact ih
    · rw [h, saveBooking_ids]; exact ih

/-! ## C20: the immutable snapshot -/

/-- C20: for stored bookings with distinct ids, each post-creation operation
(`initiatePayment`, `cashfreeReturn`, `acceptBooking`, `rejectBooking`, `cancelBooking`),
whatever its inputs and outcome, leaves every stored booking's pricing snapshot unchanged,
as well as its id, listing, guest, host, `checkIn` and `checkOut`. -/
theorem C20_snapshot_frame (env : Env) (bookings : List Booking)
    (payId : Option Nat) (bookingId user : Nat) (cfCreate : Except String CfCreatedOrder)
    (ret : ReturnRequest) (cfQuery : Except String CfOrder) (reason : Option String)
    (hnodup : (bookings.map (fun b => b.id)).Nodup) :
    (initiatePayment bookings payId user cfCreate).2.map snapshot = bookings.map snapshot ∧
    (cashfreeReturn env bookings ret cfQuery).2.map snapshot = bookings.map snapshot ∧
    (acceptBooking bookings bookingId user).2.map snapshot = bookings.map snapshot ∧
    (rejectBooking env bookings bookingId user reason).2.map snapshot
      = bookings.map snapshot ∧
    (cancelBooking env bookings bookingId user reason).2.map snapshot
      = bookings.map snapshot := by
  refine ⟨?_, ?_, ?_, ?_, ?_⟩
  · rcases initiatePayment_cases bookings payId user cfCreate with
      h | ⟨b0, p, o, -, ⟨id, -, hfind⟩, -, -, -, h⟩
    · rw [h]
    · rw [h]
      exact saveBooking_snapshot bookings b0 _ hnodup (findBooking_some bookings id b0 hfind).1
        rfl
  · rcases cashfreeReturn_cases env bookings ret cfQuery with
      ⟨h, -⟩ | ⟨b0, p, o, -, -, ⟨id, -, hfind⟩, -, -, h⟩
    · rw [h]
    · rw [h]
      exact saveBooking_snapshot bookings b0 _ hnodup (findBooking_some bookings id b0 hfind).1
        rfl
  · rcases acceptBooking_cases bookings bookingId user with ⟨h, -⟩ | ⟨b0, hfind, -, -, h⟩
    · rw [h]
    · rw [h]
      exact saveBooking_snapshot bookings b0 _ hnodup
        (findBooking_some bookings bookingId b0 hfind).1 rfl
  · rcases rejectBooking_cases env bookings bookingId user reason with
      ⟨h, -⟩ | ⟨b0, c, hfind, -, -, -, -, h⟩
    · rw [h]
    · rw [h]
      exact saveBooking_snapshot bookings b0 _ hnodup
        (findBooking_some bookings bookingId b0 hfind).1 rfl
  · rcases cancelBooking_cases env bookings bookingId user reason with
      ⟨h, -⟩ | ⟨b0, c, hfind, -, -, -, -, -, h⟩
    · rw [h]
    · rw [h]
      exact saveBooking_snapshot bookings b0 _ hnodup
        (findBooking_some bookings bookingId b0 hfind).1 rfl

/-- C20 witness: the five operations called by guest 2 on a collection holding the
`pending_payment` booking 1. -/
theorem C20_snapshot_frame_witness :
    (initiatePayment [exampleBooking 1 BookingStatus.pending_payment 1767139200000
        1767312000000] (some 1) 2
      (Except.ok { order_id := some "order_1",
                   payment_session_id := some "session_1" })).2.map snapshot =
      [exampleBooking 1 BookingStatus.pending_payment 1767139200000 1767312000000].map
        snapshot ∧
    (cashfreeReturn exampleEnv
      [exampleBooking 1 BookingStatus.pending_payment 1767139200000 1767312000000]
      { order_id := some "order_1", bookingId := some 1 }
      (Except.ok paidOrder)).2.map snapshot =
      [exampleBooking 1 BookingStatus.pending_payment 1767139200000 1767312000000].map
        snapshot ∧
    (acceptBooking [exampleBooking 1 BookingStatus.pending_payment 1767139200000
        1767312000000] 1 2).2.map snapshot =
      [exampleBooking 1 BookingStatus.pending_payment 1767139200000 1767312000000].map
        snapshot ∧
    (rejectBooking exampleEnv
      [exampleBooking 1 BookingStatus.pending_payment 1767139200000 1767312000000]
      1 2 none).2.map snapshot =
      [exampleBooking 1 BookingStatus.pending_payment 1767139200000 1767312000000].map
        snapshot ∧
    (cancelBooking exampleEnv
      [exampleBooking 1 BookingStatus.pending_payment 1767139200000 1767312000000]
      1 2 none).2.map snapshot =
      [exampleBooking 1 BookingStatus.pending_payment 1767139200000 1767312000000].map
        snapshot :=
  C20_snapshot_frame exampleEnv
    [exampleBooking 1 BookingStatus.pending_payment 1767139200000 1767312000000]
    (some 1) 1 2
    (Except.ok { order_id := some "order_1", payment_session_id := some "session_1" })
    { order_id := some "order_1", bookingId := some 1 } (Except.ok paidOrder) none
    (by decide)

/-! ## C21: the created booking -/

/-- C21: every booking created by a reserve (`createBooking` or `createBookingAndPay`) has
status `pending_payment`, `payment.status` `pending`, host equal to the listing's owner, guest
equal to the requesting user, and a pricing snapshot whose `nightlyRate` is the listing price
and whose `nights`, `basePrice`, `seasonalAdjustment` and `seasonBreakdown` are exactly those
returned by `calculateSeasonalPrice(listing.price, checkIn, checkOut)`. -/
theorem C21_created_booking (env : Env) (listings : List Listing) (bookings : List Booking)
    (req : ReserveRequest) (cf : Except String CfCreatedOrder) (b : Booking)
    (hcreated : (createBooking env listings bookings req).2 = bookings ++ [b] ∨
      (createBookingAndPay env listings bookings req cf).2 = bookings ++ [b]) :
    ∃ listingId listing ci co sp,
      req.listingId = some listingId ∧ findListing listings listingId = some listing ∧
      req.checkIn = some ci ∧ req.checkOut = some co ∧
      calculateSeasonalPrice (fixedOffset env.tz) listing.price ci co = Except.ok sp ∧
      b.status = BookingStatus.pending_payment ∧ b.payment.status = PaymentStatus.pending ∧
      b.host = listing.owner ∧ b.guest = req.user ∧ b.listing = listingId ∧
      b.checkIn = ci ∧ b.checkOut = co ∧
      b.pricing.nightlyRate = listing.price ∧ b.pricing.nights = sp.nights ∧
      b.pricing.basePrice = sp.basePrice ∧
      b.pricing.seasonalAdjustment = sp.seasonalAdjustment ∧
      b.pricing.seasonBreakdown = sp.breakdown := by
  rcases hcreated with hb | hb
  · rcases createBooking_cases env listings bookings req with
      ⟨hsame, -⟩ | ⟨lid, listing, ci, co, adults, sp, h1, h2, h3, h4, -, -, h5, -, -, -, h6⟩
    · rw [hsame] at hb
      exact absurd hb (by simp)
    · rw [h6] at hb
      have hbe := List.append_cancel_left hb
      cases hbe
      exact ⟨lid, listing, ci, co, sp, h1, h2, h3, h4, h5, rfl, rfl, rfl, rfl, rfl, rfl, rfl,
        rfl, rfl, rfl, rfl, rfl⟩
  · rcases createBookingAndPay_cases env listings bookings req cf with
      ⟨hsame, -⟩ | ⟨lid, listing, ci, co, adults, sp, p, h1, h2, -, -, h3, h4, -, -, -, -, -,
        h5, -, hp, h6, -⟩
    · rw [hsame] at hb
      exact absurd hb (by simp)
    · rw [h6] at hb
      have hbe := List.append_cancel_left hb
      cases hbe
      exact ⟨lid, listing, ci, co, sp, h1, h2, h3, h4, h5, rfl, hp, rfl, rfl, rfl, rfl, rfl,
        rfl, rfl, rfl, rfl, rfl⟩

/-- C21 witness: the booking created by guest 2 for the nights 2025-12-31 to 2026-01-02 of
listing 7. -/
theorem C21_created_booking_witness :
    ∃ b, (createBooking exampleEnv [exampleListing] []
        (exampleRequest 2 2 1767139200000 1767312000000)).2 = [] ++ [b] ∧
      ∃ listingId listing ci co sp,
        (exampleRequest 2 2 1767139200000 1767312000000).listingId = some listingId ∧
        findListing [exampleListing] listingId = some listing ∧
        (exampleRequest 2 2 1767139200000 1767312000000).checkIn = some ci ∧
        (exampleRequest 2 2 1767139200000 1767312000000).checkOut = some co ∧
        calculateSeasonalPrice (fixedOffset exampleEnv.tz) listing.price ci co = Except.ok sp ∧
        b.status = BookingStatus.pending_payment ∧ b.payment.status = PaymentStatus.pending ∧
        b.host = listing.owner ∧
        b.guest = (exampleRequest 2 2 1767139200000 1767312000000).user ∧
        b.listing = listingId ∧ b.checkIn = ci ∧ b.checkOut = co ∧
        b.pricing.nightlyRate = listing.price ∧ b.pricing.nights = sp.nights ∧
        b.pricing.basePrice = sp.basePrice ∧
        b.pricing.seasonalAdjustment = sp.seasonalAdjustment ∧
        b.pricing.seasonBreakdown = sp.breakdown := by
  obtain ⟨b, hb, -⟩ := exampleReserved_spec
  exact ⟨b, hb, C21_created_booking exampleEnv [exampleListing] []
    (exampleRequest 2 2 1767139200000 1767312000000) (Except.error "") b (Or.inl hb)⟩

/-! ## C22: the reserve validations -/

/-- The value stored by the `adults` validator is the parsed guest count, at least 1. -/
theorem validAdults_some (guestsNum : Option Int) (adults : Int)
    (h : validAdults guestsNum = some adults) : guestsNum = some adults ∧ 1 ≤ adults := by
  unfold validAdults at h
  cases guestsNum with
  | none => cases h
  | some g =>
    dsimp only at h
    by_cases hg : g ≥ 1
    · rw [if_pos hg] at h
      cases h
      exact ⟨rfl, hg⟩
    · rw [if_neg hg] at h
      cases h

/-- The guest-count check passed means the parsed guest count is within the maximum. -/
theorem guestsExceed_false (g max : Int) (h : guestsExceed (some g) max = false) : g ≤ max := by
  simpa [guestsExceed] using h

/-- The nights of a returned pricing are the rounded-up day difference of its range. -/
theorem nights_of_ok (zone : TimeZone) (base : ℚ) (ci co : Int) (sp : PricingResult)
    (hlt : ci < co) (hsp : calculateSeasonalPrice zone base ci co = Except.ok sp) :
    sp.nights = mathCeil (((co - ci : Int) : ℚ) / (msPerDay : ℚ)) := by
  obtain ⟨r, hr, hn, -⟩ := calculateSeasonalPrice_of_lt zone base ci co hlt
  rw [hsp] at hr
  cases hr
  exact hn

/-- A request the validation rejects does not get through `createBooking`. -/
theorem createBooking_invalid (env : Env) (listings : List Listing) (bookings : List Booking)
    (req : ReserveRequest) (listingId : Nat) (listing : Listing)
    (hid : req.listingId = some listingId) (hl : findListing listings listingId = some listing)
    (hinv : ReserveInvalid listing.maxGuests listing req) :
    (createBooking env listings bookings req).2 = bookings ∧
      ∃ e, (createBooking env listings bookings req).1 = Except.error e := by
  rcases createBooking_cases env listings bookings req with
    h | ⟨lid, listing1, ci, co, adults, sp, h1, h2, h3, h4, hlt, hg, hsp, hmin, -, hva, -⟩
  · exact h
  · exfalso
    rw [hid] at h1; cases h1
    rw [hl] at h2; cases h2
    have hn := nights_of_ok (fixedOffset env.tz) listing.price ci co sp hlt hsp
    obtain ⟨hgn, -⟩ := validAdults_some req.guestsNum adults hva
    rcases hinv with h | h | ⟨ci1, co1, a, b, c⟩ | ⟨g, a, b⟩ | ⟨ci1, co1, bs, a, b, c, d⟩
    · rw [h3] at h; cases h
    · rw [h4] at h; cases h
    · rw [h3] at a; cases a
      rw [h4] at b; cases b
      omega
    · rw [hgn] at a; cases a
      rw [hgn] at hg
      have := guestsExceed_false adults listing.maxGuests hg
      omega
    · rw [h3] at a; cases a
      rw [h4] at b; cases b
      have := hmin bs c
      rw [hn] at this
      omega

/-- A request the validation rejects does not get through `createBookingAndPay`. -/
theorem createBookingAndPay_invalid (env : Env) (listings : List Listing)
    (bookings : List Booking) (req : ReserveRequest) (cf : Except String CfCreatedOrder)
    (listingId : Nat) (listing : Listing)
    (hid : req.listingId = some listingId) (hl : findListing listings listingId = some listing)
    (hinv : ReserveInvalid (effectiveMaxGuests listing) listing req) :
    (createBookingAndPay env listings bookings req cf).2 = bookings ∧
      ∃ e, (createBookingAndPay env listings bookings req cf).1 = Except.error e := by
  rcases createBookingAndPay_cases env listings bookings req cf with
    h | ⟨lid, listing1, ci, co, adults, sp, p, h1, h2, -, -, h3, h4, hlt, -, hg, hmin, -, -,
      hva, -⟩
  · exact h
  · exfalso
    rw [hid] at h1; cases h1
    rw [hl] at h2; cases h2
    obtain ⟨hgn, -⟩ := validAdults_some req.guestsNum adults hva
    rcases hinv with h | h | ⟨ci1, co1, a, b, c⟩ | ⟨g, a, b⟩ | ⟨ci1, co1, bs, a, b, c, d⟩
    · rw [h3] at h; cases h
    · rw [h4] at h; cases h
    · rw [h3] at a; cases a
      rw [h4] at b; cases b
      omega
    · rw [hgn] at a; cases a
      rw [hgn] at hg
      have := guestsExceed_false adults _ hg
      unfold effectiveMaxGuests at b
      omega
    · rw [h3] at a; cases a
      rw [h4] at b; cases b
      have := hmin bs c
      omega

/-- C22: for every reserve request (`createBooking` or `createBookingAndPay`) on a listing,
if the dates are unparseable, or `checkIn >= checkOut`, or the requested occupancy exceeds the
maximum the handler enforces for the listing (`listing.maxGuests`; in `createBookingAndPay`
`listing.maxGuests || 4`), or the number of nights is below the listing's minimum stay, then
the request fails and no booking is created; and every created booking satisfies
`checkIn < checkOut`, occupancy within that maximum and `nights >= minStay`. -/
theorem C22_reserve_validation (env : Env) (listings : List Listing) (bookings : List Booking)
    (req : ReserveRequest) (cf : Except String CfCreatedOrder) :
    (∀ listingId listing, req.listingId = some listingId →
      findListing listings listingId = some listing →
      (ReserveInvalid listing.maxGuests listing req →
        (createBooking env listings bookings req).2 = bookings ∧
        ∃ e, (createBooking env listings bookings req).1 = Except.error e) ∧
      (ReserveInvalid (effectiveMaxGuests listing) listing req →
        (createBookingAndPay env listings bookings req cf).2 = bookings ∧
        ∃ e, (createBookingAndPay env listings bookings req cf).1 = Except.error e)) ∧
    (∀ b, (createBooking env listings bookings req).2 = bookings ++ [b] →
      ∃ listing, findListing listings b.listing = some listing ∧
        b.checkIn < b.checkOut ∧ b.adults ≤ listing.maxGuests ∧
        ∀ bs, listing.bookingSettings = some bs → bs.minStay ≤ b.pricing.nights) ∧
    (∀ b, (createBookingAndPay env listings bookings req cf).2 = bookings ++ [b] →
      ∃ listing, findListing listings b.listing = some listing ∧
        b.checkIn < b.checkOut ∧ b.adults ≤ effectiveMaxGuests listing ∧
        ∀ bs, listing.bookingSettings = some bs → bs.minStay ≤ b.pricing.nights) := by
  refine ⟨?_, ?_, ?_⟩
  · intro listingId listing hid hl
    exact ⟨createBooking_invalid env listings bookings req listingId listing hid hl,
      createBookingAndPay_invalid env listings bookings req cf listingId listing hid hl⟩
  · intro b hb
    rcases createBooking_cases env listings bookings req with
      ⟨hsame, -⟩ | ⟨lid, listing, ci, co, adults, sp, -, h2, -, -, hlt, hg, -, hmin, -, hva, h6⟩
    · rw [hsame] at hb
      exact absurd hb (by simp)
    · rw [h6] at hb
      have hbe := List.append_cancel_left hb
      cases hbe
      obtain ⟨hgn, -⟩ := validAdults_some req.guestsNum adults hva
      rw [hgn] at hg
      exact ⟨listing, h2, hlt, guestsExceed_false adults _ hg, hmin⟩
  · intro b hb
    rcases createBookingAndPay_cases env listings bookings req cf with
      ⟨hsame, -⟩ | ⟨lid, listing, ci, co, adults, sp, p, -, h2, -, -, -, -, hlt, -, hg, hmin,
        -, hsp, hva, -, h6, -⟩
    · rw [hsame] at hb
      exact absurd hb (by simp)
    · rw [h6] at hb
      have hbe := List.append_cancel_left hb
      cases hbe
      obtain ⟨hgn, -⟩ := validAdults_some req.guestsNum adults hva
      rw [hgn] at hg
      have hn := nights_of_ok (fixedOffset env.tz) listing.price ci co sp hlt hsp
      refine ⟨listing, h2, hlt, guestsExceed_false adults _ hg, ?_⟩
      intro bs hbs
      show bs.minStay ≤ sp.nights
      rw [hn]
      exact hmin bs hbs

/-- C22 witness: a request for nine guests on listing 7 (at most four) is refused by both
handlers. -/
theorem C22_reserve_validation_witness :
    ((createBooking exampleEnv [exampleListing] []
        (exampleRequest 3 9 1767139200000 1767312000000)).2 = [] ∧
      ∃ e, (createBooking exampleEnv [exampleListing] []
        (exampleRequest 3 9 1767139200000 1767312000000)).1 = Except.error e) ∧
    ((createBookingAndPay exampleEnv [exampleListing] []
        (exampleRequest 3 9 1767139200000 1767312000000) (Except.error "")).2 = [] ∧
      ∃ e, (createBookingAndPay exampleEnv [exampleListing] []
        (exampleRequest 3 9 1767139200000 1767312000000) (Except.error "")).1
          = Except.error e) :=
  have h := (C22_reserve_validation exampleEnv [exampleListing] []
    (exampleRequest 3 9 1767139200000 1767312000000) (Except.error "")).1 7 exampleListing
    rfl rfl
  ⟨h.1 (Or.inr (Or.inr (Or.inr (Or.inl ⟨9, rfl, by decide⟩)))),
    h.2 (Or.inr (Or.inr (Or.inr (Or.inl ⟨9, rfl, by decide⟩))))⟩

/-! ## C23: a check-in date in the past -/

/-- Every range with `checkIn < checkOut` meets the minimum stay of the example listing. -/
theorem exampleListing_minStay (ci co : Int) (hlt : ci < co) (bs : BookingSettings)
    (h : exampleListing.bookingSettings = some bs) :
    bs.minStay ≤ mathCeil (((co - ci : Int) : ℚ) / (msPerDay : ℚ)) := by
  have hpos := (ceil_nights_pos_iff ci co).mpr hlt
  cases h
  show (1 : Int) ≤ _
  omega

/-- C23 (the code at the failing input): on 2025-12-30 guest 3 asks for listing 7 from
2025-12-29 (yesterday) to 2025-12-31 (tomorrow).  Both handlers create no booking;
`createBookingAndPay` fails with the validation error `Cannot book dates in the past`, but
`createBooking` fails with the dates-unavailable error, the message of a conflict. -/
theorem C23_past_date_errors :
    (1766966400000 : Int) < startOfToday exampleEnv ∧
    createBooking exampleEnv [exampleListing] []
        (exampleRequest 3 2 1766966400000 1767139200000) =
      (Except.error "Selected dates are no longer available", []) ∧
    createBookingAndPay exampleEnv [exampleListing] []
        (exampleRequest 3 2 1766966400000 1767139200000) (Except.error "") =
      (Except.error "Cannot book dates in the past", []) := by
  refine ⟨by decide, ?_, rfl⟩
  obtain ⟨sp, -, hcb⟩ := createBooking_validated exampleEnv [exampleListing] []
    (exampleRequest 3 2 1766966400000 1767139200000) 7 exampleListing
    1766966400000 1767139200000 rfl rfl rfl rfl (by decide)
    (fun g hg => by cases hg; decide)
    (exampleListing_minStay 1766966400000 1767139200000 (by decide))
  rw [hcb, if_neg (fun h => absurd h.2 (by decide))]
  rfl

/-! ## C27: status and payment status -/

/-- In every reachable collection a booking in status `confirmed` has payment status `paid`,
and one in status `pending_payment` has payment status `pending`. -/
theorem reachable_status_payment (listings : List Listing) (bookings : List Booking)
    (hreach : Reachable listings bookings) :
    ∀ b ∈ bookings,
      (b.status = BookingStatus.confirmed → b.payment.status = PaymentStatus.paid) ∧
      (b.status = BookingStatus.pending_payment →
        b.payment.status = PaymentStatus.pending) := by
  induction hreach with
  | empty => intro b hb; cases hb
  | @createBooking env req bs _ ih =>
    rcases createBooking_cases env listings bs req with
      ⟨h, -⟩ | ⟨lid, l, ci, co, a, sp, -, -, -, -, -, -, -, -, -, -, h⟩
    · rw [h]; exact ih
    · rw [h]
      intro b hb
      rcases List.mem_append.mp hb with hb | hb
      · exact ih b hb
      · rw [List.mem_singleton.mp hb]
        exact ⟨fun hst => (by cases hst), fun _ => rfl⟩
  | @createBookingAndPay env req cf bs _ ih =>
    rcases createBookingAndPay_cases env listings bs req cf with
      ⟨h, -⟩ | ⟨lid, l, ci, co, a, sp, p, -, -, -, -, -, -, -, -, -, -, -, -, -, hp, h, -⟩
    · rw [h]; exact ih
    · rw [h]
      intro b hb
      rcases List.mem_append.mp hb with hb | hb
      · exact ih b hb
      · rw [List.mem_singleton.mp hb]
        exact ⟨fun hst => (by cases hst), fun _ => hp⟩
  | @initiatePayment bookingId user cf bs hprev ih =>
    rcases initiatePayment_cases bs bookingId user cf with
      h | ⟨b0, p, o, -, ⟨id, -, hfind⟩, -, hunpaid, hp, h⟩
    · rw [h]; exact ih
    · rw [h]
      apply forall_mem_saveBooking _ bs _ ih
      have hb0 := (findBooking_some bs id b0 hfind).1
      exact ⟨fun hst => absurd ((ih b0 hb0).1 hst) hunpaid, fun _ => hp⟩
  | @cashfreeReturn env req cf bs _ ih =>
    rcases cashfreeReturn_cases env bs req cf with
      ⟨h, -⟩ | ⟨b0, p, o, -, -, -, hp, -, h⟩
    · rw [h]; exact ih
    · rw [h]
      apply forall_mem_saveBooking _ bs _ ih
      exact ⟨fun hst => (by cases hst), fun hst => (by cases hst)⟩
  | @acceptBooking bookingId user bs _ ih =>
    rcases acceptBooking_cases bs bookingId user with ⟨h, -⟩ | ⟨b0, -, -, hpaid, h⟩
    · rw [h]; exact ih
    · rw [h]
      apply forall_mem_saveBooking _ bs _ ih
      exact ⟨fun _ => hpaid, fun hst => (by cases hst)⟩
  | @rejectBooking env bookingId user reason bs _ ih =>
    rcases rejectBooking_cases env bs bookingId user reason with
      ⟨h, -⟩ | ⟨b0, c, -, -, -, -, -, h⟩
    · rw [h]; exact ih
    · rw [h]
      apply forall_mem_saveBooking _ bs _ ih
      exact ⟨fun hst => (by cases hst), fun hst => (by cases hst)⟩
  | @cancelBooking env bookingId user reason bs _ ih =>
    rcases cancelBooking_cases env bs bookingId user reason with
      ⟨h, -⟩ | ⟨b0, c, -, -, -, -, -, -, h⟩
    · rw [h]; exact ih
    · rw [h]
      apply forall_mem_saveBooking _ bs _ ih
      exact ⟨fun hst => (by cases hst), fun hst => (by cases hst)⟩

/-- C27: in every state reachable from an empty booking set through `createBooking`,
`createBookingAndPay`, `initiatePayment`, `cashfreeReturn`, `acceptBooking`, `rejectBooking`
and `cancelBooking`, every booking whose status is `paid` or `confirmed` has
`payment.status = paid`, and every booking whose status is `pending_payment` has
`payment.status = pending`. -/
theorem C27_status_payment_invariant (listings : List Listing) (bookings : List Booking)
    (hreach : Reachable listings bookings) (b : Booking) (hb : b ∈ bookings) :
    ((b.status = BookingStatus.paid ∨ b.status = BookingStatus.confirmed) →
      b.payment.status = PaymentStatus.paid) ∧
    (b.status = BookingStatus.pending_payment → b.payment.status = PaymentStatus.pending) := by
  obtain ⟨h1, h2⟩ := reachable_status_payment listings bookings hreach b hb
  refine ⟨?_, h2⟩
  rintro (h | h)
  · exact reachable_paid_payment listings bookings hreach b hb h
  · exact h1 h

/-- C27 witness: the paid booking 1 of the example store, reached by a reserve and a payment
return. -/
theorem C27_status_payment_invariant_witness :
    ∃ b, b ∈ examplePaidStore ∧ b.status = BookingStatus.paid ∧
      ((b.status = BookingStatus.paid ∨ b.status = BookingStatus.confirmed) →
        b.payment.status = PaymentStatus.paid) ∧
      (b.status = BookingStatus.pending_payment →
        b.payment.status = PaymentStatus.pending) := by
  obtain ⟨b, hb, -, -, -, hst, -⟩ := examplePaidStore_spec
  have hmem : b ∈ examplePaidStore := by rw [hb]; simp
  have hreach : Reachable [exampleListing] examplePaidStore :=
    Reachable.cashfreeReturn _ _ _ (Reachable.createBooking _ _ Reachable.empty)
  exact ⟨b, hmem, hst,
    C27_status_payment_invariant [exampleListing] examplePaidStore hreach b hmem⟩

/-! ## C28: the three conflict checks -/

/-- `findOne` finds a document exactly when the filter by the same query is non-empty. -/
theorem find?_isSome_iff_filter_ne_nil (p : Booking → Bool) (l : List Booking) :
    (l.find? p).isSome = true ↔ l.filter p ≠ [] := by
  induction l with
  | nil => simp
  | cons a l ih =>
    by_cases h : p a = true
    · simp [List.find?, List.filter, h]
    · have h' : p a = false := by simpa using h
      simp only [List.find?, List.filter, h']
      exact ih

/-- C28 (as stated, refuted): on 2025-12-30, for the past range 2025-12-28 to 2025-12-29
(`checkIn < checkOut`) of listing 7, which a paid booking covers, `hasConflict` returns true
while the conflicts list of `checkAvailability` is empty. -/
theorem C28_counterexample :
    (1766880000000 : Int) < 1766966400000 ∧
    hasConflict [exampleBooking 1 BookingStatus.paid 1766880000000 1767052800000] 7
      1766880000000 1766966400000 none = true ∧
    (checkAvailability exampleEnv
      [exampleBooking 1 BookingStatus.paid 1766880000000 1767052800000] 7
      (some 1766880000000) (some 1766966400000) none).conflicts = [] := by
  decide

/-- C28 (amended): for every listing, range and set of stored bookings, the three conflict
checks select the same bookings: the query of `checkAvailability`, the query of
`Booking.hasConflict` and the inline query of `createBookingAndPay` each match exactly the
bookings of that listing with status `paid`, `pending_approval` or `confirmed` for which
`datesOverlap(checkIn, checkOut, booking.checkIn, booking.checkOut)` is true; hence, for a
range with `checkIn < checkOut` whose `checkIn` is not before the start of the current day,
`hasConflict` returns true if and only if the conflicts list of `checkAvailability` is
non-empty. -/
theorem C28_conflict_checks_agree (env : Env) (bookings : List Booking) (listingId : Nat)
    (checkIn checkOut : Int) (excludeBookingId : Option Nat) :
    (∀ b, conflictQuery listingId checkIn checkOut excludeBookingId b =
        hasConflictQuery listingId checkIn checkOut excludeBookingId b ∧
      hasConflictQuery listingId checkIn checkOut none b =
        payConflictQuery listingId checkIn checkOut b ∧
      (payConflictQuery listingId checkIn checkOut b = true ↔
        b.listing = listingId ∧
        (b.status = BookingStatus.paid ∨ b.status = BookingStatus.pending_approval ∨
          b.status = BookingStatus.confirmed) ∧
        datesOverlap checkIn checkOut b.checkIn b.checkOut = true)) ∧
    (checkIn < checkOut → startOfToday env ≤ checkIn →
      (hasConflict bookings listingId checkIn checkOut excludeBookingId = true ↔
        (checkAvailability env bookings listingId (some checkIn) (some checkOut)
          excludeBookingId).conflicts ≠ [])) := by
  constructor
  · intro b
    refine ⟨rfl, ?_, ?_⟩
    · simp [hasConflictQuery, payConflictQuery]
    · rw [payConflictQuery_eq]
      exact conflictQuery_none_iff listingId checkIn checkOut b
  · intro hlt hpast
    rw [checkAvailability_of_valid env bookings listingId checkIn checkOut excludeBookingId
      hlt hpast]
    unfold hasConflict
    have hq : hasConflictQuery listingId checkIn checkOut excludeBookingId =
        conflictQuery listingId checkIn checkOut excludeBookingId := rfl
    rw [hq, find?_isSome_iff_filter_ne_nil]
    simp

/-- C28 witness: for the nights 2025-12-31 to 2026-01-01 of listing 7, which a paid booking
covers, both checks report the conflict. -/
theorem C28_conflict_checks_agree_witness :
    hasConflict [exampleBooking 1 BookingStatus.paid 1767139200000 1767312000000] 7
        1767139200000 1767225600000 none = true ↔
      (checkAvailability exampleEnv
        [exampleBooking 1 BookingStatus.paid 1767139200000 1767312000000] 7
        (some 1767139200000) (some 1767225600000) none).conflicts ≠ [] :=
  (C28_conflict_checks_agree exampleEnv
    [exampleBooking 1 BookingStatus.paid 1767139200000 1767312000000] 7
    1767139200000 1767225600000 none).2 (by decide) (by decide)

/-! ## C29: the dates of the breakdown -/

/-- Night `i` of a stay, for `i` below the number of nights, starts before the check-out. -/
theorem night_lt_checkOut (ci co : Int) (i : Nat)
    (hi : (i : Int) < mathCeil (((co - ci : Int) : ℚ) / (msPerDay : ℚ))) :
    ci + (i : Int) * msPerDay < co := by
  have hms : (0 : ℚ) < (msPerDay : ℚ) := by norm_num [msPerDay]
  unfold mathCeil at hi
  rw [Int.lt_ceil] at hi
  have h1 : ((i : Int) : ℚ) * (msPerDay : ℚ) < ((co - ci : Int) : ℚ) := by
    rwa [lt_div_iff₀ hms] at hi
  have h2 : (i : Int) * msPerDay < co - ci := by exact_mod_cast h1
  omega

/-- C29 (as stated, refuted): in a zone that leaves daylight time on 2026-11-01, for the stay
from local midnight of 2026-11-01 (04:00Z) to local midnight of 2026-11-02 (05:00Z), which
lasts 25 hours, `calculateSeasonalPrice` returns two nights; `setDate` keeps the local time
of day, so the second entry is dated at `checkOut` itself, which is neither before
`checkOut` nor `checkIn` plus one day of 86400000 ms. -/
theorem C29_counterexample :
    (1793505600000 : Int) < 1793595600000 ∧
    ∃ r, calculateSeasonalPrice exampleDstZone 1000 1793505600000 1793595600000 =
        Except.ok r ∧
      r.nights = 2 ∧
      r.breakdown.map (fun e => e.date) = [1793505600000, 1793595600000] ∧
      (∃ e ∈ r.breakdown, ¬ e.date < 1793595600000) ∧
      (1793595600000 : Int) ≠ 1793505600000 + 1 * msPerDay := by
  obtain ⟨r, hr, hn, -, -, hb, -⟩ :=
    calculateSeasonalPrice_of_lt exampleDstZone 1000 1793505600000 1793595600000 (by decide)
  have hn2 : r.nights = 2 := by
    rw [hn]
    norm_num [mathCeil, msPerDay, Int.ceil_eq_iff]
  have hr2 : List.range (2 : Int).toNat = [0, 1] := by decide
  have hbd : r.breakdown =
      [nightEntry exampleDstZone 1000 1793505600000 0,
       nightEntry exampleDstZone 1000 1793505600000 1] := by
    rw [hb, hn2, hr2]
    rfl
  have hd0 : (nightEntry exampleDstZone 1000 1793505600000 0).date = 1793505600000 := by
    show addDays exampleDstZone 1793505600000 0 = 1793505600000
    decide
  have hd1 : (nightEntry exampleDstZone 1000 1793505600000 1).date = 1793595600000 := by
    show addDays exampleDstZone 1793505600000 1 = 1793595600000
    decide
  refine ⟨by decide, r, hr, hn2, ?_, ?_, by decide⟩
  · rw [hbd]
    simp only [List.map_cons, List.map_nil, hd0, hd1]
  · refine ⟨nightEntry exampleDstZone 1000 1793505600000 1, ?_, ?_⟩
    · rw [hbd]; simp
    · rw [hd1]; decide

/-- C29 (amended): for every base rate and every range with `checkOut > checkIn`, in a time
zone of constant offset from UTC (no daylight-saving change), the breakdown returned by
`calculateSeasonalPrice` has one entry per night, the `i`-th entry (`i = 0 .. nights-1`)
dated exactly `checkIn + i` days of 86400000 ms, so the entries are in ascending date order,
and every entry's date `d` satisfies `checkIn <= d < checkOut`. -/
theorem C29_breakdown_dates (tz : Int) (baseRate : ℚ) (checkIn checkOut : Int)
    (h : checkIn < checkOut) :
    ∃ r, calculateSeasonalPrice (fixedOffset tz) baseRate checkIn checkOut = Except.ok r ∧
      (r.breakdown.length : Int) = r.nights ∧
      r.breakdown.map (fun e => e.date) =
        (List.range r.breakdown.length).map (fun (i : Nat) => checkIn + (i : Int) * msPerDay) ∧
      (r.breakdown.map (fun e => e.date)).Pairwise (fun a b => a < b) ∧
      ∀ e ∈ r.breakdown, checkIn ≤ e.date ∧ e.date < checkOut := by
  obtain ⟨r, hr, hn, hpos, -, hb, -⟩ :=
    calculateSeasonalPrice_of_lt (fixedOffset tz) baseRate checkIn checkOut h
  have hlen : r.breakdown.length = r.nights.toNat := by
    rw [hb, List.length_map, List.length_range]
  have hdate : ∀ i : Nat, (nightEntry (fixedOffset tz) baseRate checkIn i).date =
      checkIn + (i : Int) * msPerDay := fun i => addDays_fixedOffset tz checkIn i
  have hdates : r.breakdown.map (fun e => e.date) =
      (List.range r.breakdown.length).map (fun (i : Nat) => checkIn + (i : Int) * msPerDay) := by
    rw [hlen, hb, List.map_map]
    exact List.map_congr_left (fun i _ => hdate i)
  have hms : (0 : Int) < msPerDay := by decide
  refine ⟨r, hr, ?_, hdates, ?_, ?_⟩
  · rw [hlen]
    exact Int.toNat_of_nonneg hpos.le
  · rw [hdates, List.pairwise_map]
    refine List.Pairwise.imp ?_ (List.pairwise_lt_range _)
    intro a b hab
    have : (a : Int) < (b : Int) := by exact_mod_cast hab
    nlinarith
  · intro e he
    rw [hb] at he
    obtain ⟨i, hi, rfl⟩ := mem_breakdown (fixedOffset tz) baseRate checkIn _ e he
    rw [hdate]
    constructor
    · have : (0 : Int) ≤ (i : Int) * msPerDay :=
        mul_nonneg (Int.ofNat_nonneg i) hms.le
      omega
    · apply night_lt_checkOut
      rw [← hn]
      omega

/-- C29 witness: the two nights from 2025-12-30 at base rate 2000, in UTC. -/
theorem C29_breakdown_dates_witness :
    ∃ r, calculateSeasonalPrice (fixedOffset 0) 2000 1767052800000 1767225600000 =
        Except.ok r ∧
      (r.breakdown.length : Int) = r.nights ∧
      r.breakdown.map (fun e => e.date) =
        (List.range r.breakdown.length).map
          (fun (i : Nat) => 1767052800000 + (i : Int) * msPerDay) ∧
      (r.breakdown.map (fun e => e.date)).Pairwise (fun a b => a < b) ∧
      ∀ e ∈ r.breakdown, 1767052800000 ≤ e.date ∧ e.date < 1767225600000 :=
  C29_breakdown_dates 0 2000 1767052800000 1767225600000 (by decide)

/-! ## C24: the season table and the weekend -/

/-- The month index of every day number is between 0 and 11. -/
theorem monthOfDay_range (D : Int) : 0 ≤ monthOfDay D ∧ monthOfDay D ≤ 11 := by
  unfold monthOfDay
  simp only
  split_ifs <;> omega

/-- The one season of the table that lists month number `m`: December and January are peak,
April and May summer, July and August monsoon, every other month regular. -/
theorem seasons_of_month (m : Int) (h1 : 1 ≤ m) (h2 : m ≤ 12) :
    SEASONAL_CONFIG.filter (fun season => season.months.contains m) =
      [if m = 12 ∨ m = 1 then peakSeason
       else if m = 4 ∨ m = 5 then summerSeason
       else if m = 7 ∨ m = 8 then monsoonSeason
       else regularSeason] := by
  unfold SEASONAL_CONFIG
  interval_cases m <;>
    simp [List.filter, peakSeason, summerSeason, monsoonSeason, regularSeason]

/-- C24: for every month number `m` from 1 to 12 exactly one season of `SEASONAL_CONFIG` lists
`m`: Peak Season (multiplier 1.3) for 12 and 1, Summer Season (1.2) for 4 and 5, Monsoon Drop
(0.85) for 7 and 8, Regular Season (1.0) for every other month; for every date the month
number `getMonth() + 1` is between 1 and 12 and `getSeasonForDate` returns that one season;
`isWeekend` is true exactly when `getDay()` is 6 (Saturday) or 0 (Sunday); and the night's
multiplier is the season's multiplier, times `WEEKEND_MULTIPLIER = 1.1` on a weekend,
whichever the season (rounded to two decimals as `getMultiplierForDate` does). -/
theorem C24_season_table (tz d m : Int) (h1 : 1 ≤ m) (h2 : m ≤ 12) :
    SEASONAL_CONFIG.filter (fun season => season.months.contains m) =
      [if m = 12 ∨ m = 1 then peakSeason
       else if m = 4 ∨ m = 5 then summerSeason
       else if m = 7 ∨ m = 8 then monsoonSeason
       else regularSeason] ∧
    (peakSeason.name = "Peak Season" ∧ peakSeason.multiplier = 13 / 10) ∧
    (summerSeason.name = "Summer Season" ∧ summerSeason.multiplier = 12 / 10) ∧
    (monsoonSeason.name = "Monsoon Drop" ∧ monsoonSeason.multiplier = 85 / 100) ∧
    (regularSeason.name = "Regular Season" ∧ regularSeason.multiplier = 1) ∧
    (1 ≤ getMonth tz d + 1 ∧ getMonth tz d + 1 ≤ 12) ∧
    SEASONAL_CONFIG.filter (fun season => season.months.contains (getMonth tz d + 1)) =
      [getSeasonForDate tz d] ∧
    (getMonth tz d + 1 = m →
      getSeasonForDate tz d =
        if m = 12 ∨ m = 1 then peakSeason
        else if m = 4 ∨ m = 5 then summerSeason
        else if m = 7 ∨ m = 8 then monsoonSeason
        else regularSeason) ∧
    (0 ≤ getDay tz d ∧ getDay tz d ≤ 6) ∧
    (isWeekend tz d = true ↔ getDay tz d = 6 ∨ getDay tz d = 0) ∧
    WEEKEND_MULTIPLIER = 11 / 10 ∧
    (getMultiplierForDate tz d).seasonName = (getSeasonForDate tz d).name ∧
    (getMultiplierForDate tz d).multiplier =
      round2 ((getSeasonForDate tz d).multiplier *
        (if isWeekend tz d then WEEKEND_MULTIPLIER else 1)) := by
  have hm := monthOfDay_range (localDay tz d)
  have hm1 : 1 ≤ getMonth tz d + 1 := by unfold getMonth; omega
  have hm2 : getMonth tz d + 1 ≤ 12 := by unfold getMonth; omega
  refine ⟨seasons_of_month m h1 h2, ⟨rfl, rfl⟩, ⟨rfl, rfl⟩, ⟨rfl, rfl⟩, ⟨rfl, rfl⟩,
    ⟨hm1, hm2⟩, ?_, ?_, ?_, ?_, rfl, rfl, getMultiplierForDate_multiplier tz d⟩
  · rw [seasons_of_month _ hm1 hm2, getSeasonForDate_eq]
  · intro h
    rw [getSeasonForDate_eq, h]
  · unfold getDay
    omega
  · unfold isWeekend
    simp only [Bool.or_eq_true, beq_iff_eq]
    tauto

/-- C24 witness: 2025-07-05, a Saturday of July (month number 7), is a weekend night of the
Monsoon Drop season. -/
theorem C24_season_table_witness :
    getMonth 0 1751673600000 + 1 = 7 ∧ getDay 0 1751673600000 = 6 ∧
    getSeasonForDate 0 1751673600000 = monsoonSeason ∧
    isWeekend 0 1751673600000 = true :=
  have h := C24_season_table 0 1751673600000 7 (by decide) (by decide)
  ⟨by decide, by decide, h.2.2.2.2.2.2.2.1 (by decide),
    h.2.2.2.2.2.2.2.2.2.1.mpr (Or.inl (by decide))⟩

/-! ## C26: free ranges and the horizon -/

/-- C26 (code bug): on 2025-12-30 with `daysAhead = 90` (horizon 2026-03-30) and one paid
booking of listing 7 from 2026-04-09 to 2026-04-11, `getAvailableDateRanges` returns the
single range from 2025-12-30 to 2026-04-09, whose end lies after `today + daysAhead`: the
range pushed inside the loop is not clamped to `endDate`. -/
theorem C26_range_beyond_horizon :
    (1775692800000 : Int) < 1775865600000 ∧
    startOfToday exampleEnv = 1767052800000 ∧
    addDays (fixedOffset exampleEnv.tz) (startOfToday exampleEnv) 90 = 1774828800000 ∧
    getAvailableDateRanges exampleEnv
        [exampleBooking 1 BookingStatus.paid 1775692800000 1775865600000] 7 90 =
      [{ start := 1767052800000, stop := 1775692800000 }] ∧
    ¬ ((1775692800000 : Int) ≤
      addDays (fixedOffset exampleEnv.tz) (startOfToday exampleEnv) 90) := by
  refine ⟨by decide, by decide, by decide, by decide, by decide⟩

/-! ## C30: the calendar against the availability check -/

/-- The time value of `new Date(year, month, date)` is a local midnight. -/
theorem newDate_midnight (tz year month date : Int) :
    (newDate tz year month date + tz) % msPerDay = 0 := by
  unfold newDate
  simp only [sub_add_cancel]
  exact Int.mul_emod_left _ _

/-- For two local midnights, the night starting at `a` ends after `b` exactly when `a` is
not before `b`. -/
theorem midnight_succ_gt_iff (tz a b : Int) (ha : (a + tz) % msPerDay = 0)
    (hb : (b + tz) % msPerDay = 0) : a + msPerDay > b ↔ a ≥ b := by
  have hms : msPerDay = 86400000 := by decide
  rw [hms] at ha hb ⊢
  omega

/-- Membership in the status filter of the conflict queries. -/
theorem holdStatuses_contains_iff (st : BookingStatus) :
    holdStatuses.contains st = true ↔
      st = BookingStatus.paid ∨ st = BookingStatus.pending_approval ∨
        st = BookingStatus.confirmed := by
  cases st <;> decide

/-- A day of the calendar is flagged blocked exactly when a booking of the listing in a hold
status covers it. -/
theorem calendarDay_isBlocked_iff (tz today : Int) (bookings : List Booking) (listingId : Nat)
    (year month d : Int) :
    (calendarDay tz today (getBlockedDates bookings listingId) year month d).isBlocked = true ↔
      ∃ b ∈ bookings, b.listing = listingId ∧
        (b.status = BookingStatus.paid ∨ b.status = BookingStatus.pending_approval ∨
          b.status = BookingStatus.confirmed) ∧
        b.checkIn ≤ newDate tz year month d ∧ newDate tz year month d < b.checkOut := by
  have hdef : (calendarDay tz today (getBlockedDates bookings listingId) year month d).isBlocked =
      (getBlockedDates bookings listingId).any (fun blocked =>
        decide (newDate tz year month d ≥ blocked.checkIn) &&
          decide (newDate tz year month d < blocked.checkOut)) := rfl
  rw [hdef, List.any_eq_true]
  unfold getBlockedDates
  constructor
  · rintro ⟨x, hx, hcov⟩
    obtain ⟨b, hbf, rfl⟩ := List.mem_map.mp hx
    obtain ⟨hbm, hq⟩ := List.mem_filter.mp hbf
    rw [Bool.and_eq_true, beq_iff_eq, holdStatuses_contains_iff] at hq
    rw [Bool.and_eq_true, decide_eq_true_eq, decide_eq_true_eq] at hcov
    exact ⟨b, hbm, hq.1, hq.2, hcov.1, hcov.2⟩
  · rintro ⟨b, hbm, hl, hs, h1, h2⟩
    refine ⟨_, List.mem_map.mpr ⟨b, List.mem_filter.mpr ⟨hbm, ?_⟩, rfl⟩, ?_⟩
    · rw [Bool.and_eq_true, beq_iff_eq, holdStatuses_contains_iff]
      exact ⟨hl, hs⟩
    · rw [Bool.and_eq_true, decide_eq_true_eq, decide_eq_true_eq]
      exact ⟨h1, h2⟩

/-- The calendar day and the one-night availability check agree when the stored bookings
start and end at local midnights. -/
theorem calendarDay_agrees (env : Env) (bookings : List Booking) (listingId : Nat)
    (hb : ∀ b ∈ bookings,
      (b.checkIn + env.tz) % msPerDay = 0 ∧ (b.checkOut + env.tz) % msPerDay = 0)
    (year month d : Int)
    (hpast : (calendarDay env.tz (startOfToday env) (getBlockedDates bookings listingId)
      year month d).isPast = false) :
    (calendarDay env.tz (startOfToday env) (getBlockedDates bookings listingId)
        year month d).available = true ↔
      (checkAvailability env bookings listingId
        (some (calendarDay env.tz (startOfToday env) (getBlockedDates bookings listingId)
          year month d).date)
        (some ((calendarDay env.tz (startOfToday env) (getBlockedDates bookings listingId)
          year month d).date + msPerDay)) none).available = true := by
  have hdate : (calendarDay env.tz (startOfToday env) (getBlockedDates bookings listingId)
      year month d).date = newDate env.tz year month d := rfl
  have hav : (calendarDay env.tz (startOfToday env) (getBlockedDates bookings listingId)
      year month d).available =
      (!(calendarDay env.tz (startOfToday env) (getBlockedDates bookings listingId)
        year month d).isBlocked &&
       !(calendarDay env.tz (startOfToday env) (getBlockedDates bookings listingId)
        year month d).isPast) := rfl
  have htoday : startOfToday env ≤ newDate env.tz year month d := by
    have h : decide (newDate env.tz year month d < startOfToday env) = false := hpast
    simpa using h
  have hms : (0 : Int) < msPerDay := by decide
  rw [hav, hpast, hdate,
    checkAvailability_of_valid env bookings listingId _ _ none (by omega) htoday]
  simp only [Bool.not_false, Bool.and_true, Bool.not_eq_true_eq_eq_false, List.length_map,
    beq_iff_eq, List.length_eq_zero]
  rw [← Bool.not_eq_true, calendarDay_isBlocked_iff, List.filter_eq_nil_iff]
  constructor
  · intro h b hbm hq
    obtain ⟨hl, hs, hov⟩ := (conflictQuery_none_iff listingId _ _ b).mp hq
    rw [datesOverlap, Bool.and_eq_true, decide_eq_true_eq, decide_eq_true_eq] at hov
    refine h ⟨b, hbm, hl, hs, ?_, hov.1⟩
    exact (midnight_succ_gt_iff env.tz _ _ (newDate_midnight env.tz year month d)
      (hb b hbm).1).mp hov.2
  · rintro h ⟨b, hbm, hl, hs, h1, h2⟩
    apply h b hbm
    rw [conflictQuery_none_iff]
    refine ⟨hl, hs, ?_⟩
    rw [datesOverlap, Bool.and_eq_true, decide_eq_true_eq, decide_eq_true_eq]
    constructor
    · exact h2
    · omega

/-- Every day entry of the calendar data is the object built for some year, month and day
number. -/
theorem mem_calendar_day (env : Env) (bookings : List Booking) (listingId months : Nat)
    (mo : CalendarMonth) (hmo : mo ∈ getCalendarData env bookings listingId months)
    (day : CalendarDay) (hday : day ∈ mo.days) :
    ∃ year month d, day = calendarDay env.tz (startOfToday env)
      (getBlockedDates bookings listingId) year month d := by
  unfold getCalendarData at hmo
  obtain ⟨m, -, rfl⟩ := List.mem_map.mp hmo
  unfold calendarMonth at hday
  obtain ⟨i, -, rfl⟩ := List.mem_map.mp hday
  exact ⟨_, _, _, rfl⟩

/-- C30: assuming every stored booking's `checkIn` and `checkOut` are local midnights (the
day boundaries of the calendar grid), for every listing, every number of months and every day
entry `d` of the calendar data that is not flagged past, `d.available` is true if and only if
`checkAvailability(listing, d.date, d.date + 1 day)` reports `available = true`. -/
theorem C30_calendar_agrees (env : Env) (bookings : List Booking) (listingId months : Nat)
    (hb : ∀ b ∈ bookings,
      (b.checkIn + env.tz) % msPerDay = 0 ∧ (b.checkOut + env.tz) % msPerDay = 0)
    (mo : CalendarMonth) (hmo : mo ∈ getCalendarData env bookings listingId months)
    (day : CalendarDay) (hday : day ∈ mo.days) (hpast : day.isPast = false) :
    day.available = true ↔
      (checkAvailability env bookings listingId (some day.date)
        (some (day.date + msPerDay)) none).available = true := by
  obtain ⟨year, month, d, rfl⟩ := mem_calendar_day env bookings listingId months mo hmo day hday
  exact calendarDay_agrees env bookings listingId hb year month d hpast

/-- C30 witness: on 2025-12-30, with a paid booking of listing 7 for 2025-12-31 to
2026-01-02, the calendar entry of 2025-12-31 and the one-night availability check agree (both
report the night as not available). -/
theorem C30_calendar_agrees_witness :
    (exampleCalendarDay.available = true ↔
      (checkAvailability exampleEnv exampleCalendarStore 7 (some exampleCalendarDay.date)
        (some (exampleCalendarDay.date + msPerDay)) none).available = true) ∧
    exampleCalendarDay.available = false :=
  ⟨C30_calendar_agrees exampleEnv exampleCalendarStore 7 1 (by decide)
    (calendarMonth 0 (startOfToday exampleEnv) (getBlockedDates exampleCalendarStore 7) 0)
    (List.mem_map.mpr ⟨0, by decide, rfl⟩)
    exampleCalendarDay
    (List.mem_map.mpr ⟨30, by decide, rfl⟩)
    rfl, rfl⟩

/-! ## The calendar: days, months and years -/

theorem yoeOf_step (d : Int) (h0 : 0 ≤ d) (h1 : d < 146096) : yoeOf d ≤ yoeOf (d + 1) := by
  unfold yoeOf
  omega

theorem yoeOf_mono_nat (a : Int) (h0 : 0 ≤ a) (n : Nat) (hb : a + (n : Int) ≤ 146096) :
    yoeOf a ≤ yoeOf (a + (n : Int)) := by
  induction n with
  | zero => simp
  | succ n ih =>
    have h1 := ih (by push_cast at hb; omega)
    have h2 := yoeOf_step (a + (n : Int)) (by omega) (by push_cast at hb; omega)
    have h3 : a + ((n + 1 : Nat) : Int) = a + (n : Int) + 1 := by push_cast; ring
    rw [h3]
    exact le_trans h1 h2

theorem yoeOf_mono (a b : Int) (h0 : 0 ≤ a) (hab : a ≤ b) (hb : b ≤ 146096) :
    yoeOf a ≤ yoeOf b := by
  have h := yoeOf_mono_nat a h0 (b - a).toNat (by omega)
  have h2 : a + ((b - a).toNat : Int) = b := by omega
  rwa [h2] at h

set_option maxRecDepth 100000 in
theorem yoeOf_ends : ∀ y : Fin 400,
    yoeOf (yearStart (y.val : Int)) = (y.val : Int) ∧
    yoeOf (yearStart ((y.val : Int) + 1) - 1) = (y.val : Int) := by
  decide!

theorem yoeOf_last : yoeOf 146096 = 399 := by decide

theorem yearStart_nonneg (yoe : Int) (h0 : 0 ≤ yoe) : 0 ≤ yearStart yoe := by
  unfold yearStart; omega

theorem yearStart_le (yoe : Int) (h0 : 0 ≤ yoe) (h1 : yoe ≤ 399) :
    yearStart (yoe + 1) ≤ 146096 := by
  unfold yearStart; omega

theorem yoeOf_year (yoe doy : Int) (h0 : 0 ≤ yoe) (h1 : yoe ≤ 399) (hd0 : 0 ≤ doy)
    (hd1 : yearStart yoe + doy < yearStart (yoe + 1) ∨ (yoe = 399 ∧ doy = 365)) :
    yoeOf (yearStart yoe + doy) = yoe := by
  obtain ⟨n, rfl⟩ : ∃ n : Fin 400, (n.val : Int) = yoe :=
    ⟨⟨yoe.toNat, by omega⟩, by simp only; omega⟩
  have hs := yearStart_nonneg (n.val : Int) h0
  have he := yearStart_le (n.val : Int) h0 h1
  have hends := yoeOf_ends n
  apply le_antisymm
  · rcases hd1 with hd1 | ⟨hy, hd⟩
    · calc yoeOf (yearStart (n.val : Int) + doy)
          ≤ yoeOf (yearStart ((n.val : Int) + 1) - 1) :=
            yoeOf_mono _ _ (by omega) (by omega) (by omega)
        _ = (n.val : Int) := hends.2
    · rw [hy, hd]
      decide
  · calc ((n.val : Int)) = yoeOf (yearStart (n.val : Int)) := hends.1.symm
      _ ≤ yoeOf (yearStart (n.val : Int) + doy) := by
        apply yoeOf_mono _ _ hs (by omega)
        rcases hd1 with hd1 | ⟨hy, hd⟩
        · omega
        · rw [hy, hd]; decide

/-- The calendar fields of the day that is day `doy` of the year `yoe` of era `era`, both
counted from the first of March. -/
theorem civil_of_decomp (D era yoe doy : Int)
    (hD : D + 719468 = era * 146097 + (yearStart yoe + doy))
    (h0 : 0 ≤ yoe) (h1 : yoe ≤ 399) (hd0 : 0 ≤ doy)
    (hd1 : yearStart yoe + doy < yearStart (yoe + 1) ∨ (yoe = 399 ∧ doy = 365)) :
    monthOfDay D =
      (if (5 * doy + 2) / 153 < 10 then (5 * doy + 2) / 153 + 2 else (5 * doy + 2) / 153 - 10) ∧
    yearOfDay D =
      (if (5 * doy + 2) / 153 < 10 then yoe + era * 400 else yoe + era * 400 + 1) ∧
    dateOfDay D = doy - (153 * ((5 * doy + 2) / 153) + 2) / 5 + 1 := by
  have hy := yoeOf_year yoe doy h0 h1 hd0 hd1
  have hs := yearStart_nonneg yoe h0
  have he := yearStart_le yoe h0 h1
  have hle : yearStart yoe + doy ≤ 146096 := by
    rcases hd1 with hd1 | ⟨hy, hd⟩
    · omega
    · rw [hy, hd]; decide
  have hera : (D + 719468) / 146097 = era := by omega
  have hdoe : D + 719468 - era * 146097 = yearStart yoe + doy := by omega
  have hyoe : (yearStart yoe + doy - (yearStart yoe + doy) / 1460 +
      (yearStart yoe + doy) / 36524 - (yearStart yoe + doy) / 146096) / 365 = yoe := hy
  have hdoy : yearStart yoe + doy - (365 * yoe + yoe / 4 - yoe / 100) = doy := by
    unfold yearStart; omega
  unfold monthOfDay yearOfDay dateOfDay
  simp only [hera, hdoe, hyoe, hdoy, and_self]

theorem firstOfMonth_decomp (y m y1 mp : Int)
    (hy1 : y1 = (if m < 2 then y - 1 else y)) (hmp : mp = (if m < 2 then m + 10 else m - 2)) :
    firstOfMonth y m + 719468 =
      y1 / 400 * 146097 + (yearStart (y1 - y1 / 400 * 400) + (153 * mp + 2) / 5) := by
  unfold firstOfMonth yearStart
  simp only [← hy1, ← hmp]
  ring

theorem firstOfMonth_next_decomp (y m y1 mp : Int) (hm0 : 0 ≤ m) (hm1 : m ≤ 11)
    (hy1 : y1 = (if m < 2 then y - 1 else y)) (hmp : mp = (if m < 2 then m + 10 else m - 2)) :
    firstOfMonth (y + (m + 1) / 12) ((m + 1) % 12) + 719468 =
      if m = 1 then y / 400 * 146097 + yearStart (y - y / 400 * 400)
      else y1 / 400 * 146097 +
        (yearStart (y1 - y1 / 400 * 400) + (153 * (mp + 1) + 2) / 5) := by
  unfold firstOfMonth yearStart
  interval_cases m <;> simp at hy1 hmp <;> subst hy1 <;> subst hmp <;> norm_num <;> ring_nf

theorem civil_of_first_add (y m i : Int) (hm0 : 0 ≤ m) (hm1 : m ≤ 11) (hi0 : 0 ≤ i)
    (hi1 : firstOfMonth y m + i < firstOfMonth (y + (m + 1) / 12) ((m + 1) % 12)) :
    yearOfDay (firstOfMonth y m + i) = y ∧ monthOfDay (firstOfMonth y m + i) = m ∧
      dateOfDay (firstOfMonth y m + i) = i + 1 := by
  have key : ∀ (y1 mp : Int), 0 ≤ mp → mp ≤ 11 →
      y1 = (if m < 2 then y - 1 else y) → mp = (if m < 2 then m + 10 else m - 2) →
      yearOfDay (firstOfMonth y m + i) = y ∧ monthOfDay (firstOfMonth y m + i) = m ∧
        dateOfDay (firstOfMonth y m + i) = i + 1 := by
    intro y1 mp hmp0 hmp1 hy1 hmp
    have hF := firstOfMonth_decomp y m y1 mp hy1 hmp
    have hF2 := firstOfMonth_next_decomp y m y1 mp hm0 hm1 hy1 hmp
    have hyoe0 : 0 ≤ y1 - y1 / 400 * 400 := by omega
    have hyoe1 : y1 - y1 / 400 * 400 ≤ 399 := by omega
    have hlen : yearStart (y1 - y1 / 400 * 400) + 365 ≤ yearStart (y1 - y1 / 400 * 400 + 1) := by
      unfold yearStart; omega
    have hdoy0 : 0 ≤ (153 * mp + 2) / 5 + i := by omega
    have hd1 : yearStart (y1 - y1 / 400 * 400) + ((153 * mp + 2) / 5 + i) <
          yearStart (y1 - y1 / 400 * 400 + 1) ∨
        (y1 - y1 / 400 * 400 = 399 ∧ (153 * mp + 2) / 5 + i = 365) := by
      by_cases h1 : m = 1
      · rw [if_pos h1] at hF2
        have hy1' : y1 = y - 1 := by rw [hy1, if_pos (by omega)]
        have hmp' : mp = 11 := by rw [hmp, if_pos (by omega)]; omega
        by_cases h399 : y1 - y1 / 400 * 400 = 399
        · have e1 : y / 400 = y1 / 400 + 1 := by omega
          have e2 : y - y / 400 * 400 = 0 := by omega
          rw [e2, e1] at hF2
          have h0 : yearStart 0 = 0 := by decide
          have h399s : yearStart 399 = 145731 := by decide
          have h400s : yearStart (399 + 1) = 146096 := by decide
          rw [h399] at hF ⊢
          rw [h0] at hF2
          rw [h399s] at hF ⊢
          rw [h400s]
          omega
        · have e1 : y / 400 = y1 / 400 := by omega
          have e2 : y - y / 400 * 400 = y1 - y1 / 400 * 400 + 1 := by omega
          rw [e2, e1] at hF2
          left
          omega
      · rw [if_neg h1] at hF2
        left
        omega
    have hD : firstOfMonth y m + i + 719468 =
        y1 / 400 * 146097 + (yearStart (y1 - y1 / 400 * 400) + ((153 * mp + 2) / 5 + i)) := by
      omega
    obtain ⟨hM, hY, hDt⟩ := civil_of_decomp _ _ _ _ hD hyoe0 hyoe1 hdoy0 hd1
    have hlen2 : yearStart (y1 - y1 / 400 * 400 + 1) ≤ yearStart (y1 - y1 / 400 * 400) + 366 := by
      unfold yearStart; omega
    have hmpq : (5 * ((153 * mp + 2) / 5 + i) + 2) / 153 = mp := by
      by_cases h1 : m = 1
      · have hmp' : mp = 11 := by rw [hmp, if_pos (by omega)]; omega
        subst hmp'
        omega
      · rw [if_neg h1] at hF2
        interval_cases mp <;> omega
    rw [hmpq] at hM hY hDt
    refine ⟨?_, ?_, ?_⟩
    · rw [hY]
      by_cases h2 : m < 2
      · rw [if_pos h2] at hy1 hmp
        rw [if_neg (by omega)]
        omega
      · rw [if_neg h2] at hy1 hmp
        rw [if_pos (by omega)]
        omega
    · rw [hM]
      by_cases h2 : m < 2
      · rw [if_pos h2] at hmp
        rw [if_neg (by omega)]
        omega
      · rw [if_neg h2] at hmp
        rw [if_pos (by omega)]
        omega
    · rw [hDt]
      omega
  exact key _ _ (by split_ifs <;> omega) (by split_ifs <;> omega) rfl rfl

theorem yoeOf_start (k : Int) (h0 : 0 ≤ k) (h1 : k ≤ 399) :
    yoeOf (yearStart k) = k ∧ yoeOf (yearStart (k + 1) - 1) = k := by
  obtain ⟨n, rfl⟩ : ∃ n : Fin 400, (n.val : Int) = k :=
    ⟨⟨k.toNat, by omega⟩, by simp only; omega⟩
  exact yoeOf_ends n

theorem firstOfMonth_lt_next (y m : Int) (hm0 : 0 ≤ m) (hm1 : m ≤ 11) :
    firstOfMonth y m + 28 ≤ firstOfMonth (y + (m + 1) / 12) ((m + 1) % 12) ∧
    firstOfMonth (y + (m + 1) / 12) ((m + 1) % 12) ≤ firstOfMonth y m + 31 := by
  unfold firstOfMonth
  interval_cases m <;> norm_num <;> omega

/-- Every day is a day of the month that its calendar fields name. -/
theorem civil_inverse (D : Int) :
    firstOfMonth (yearOfDay D) (monthOfDay D) + (dateOfDay D - 1) = D ∧ 1 ≤ dateOfDay D ∧
    D < firstOfMonth (yearOfDay D + (monthOfDay D + 1) / 12) ((monthOfDay D + 1) % 12) := by
  have hdoe0 : 0 ≤ D + 719468 - (D + 719468) / 146097 * 146097 := by omega
  have hdoe1 : D + 719468 - (D + 719468) / 146097 * 146097 ≤ 146096 := by omega
  generalize hera : (D + 719468) / 146097 = era at hdoe0 hdoe1
  generalize hdoe : D + 719468 - era * 146097 = doe at hdoe0 hdoe1
  have hk0 : 0 ≤ yoeOf doe := by unfold yoeOf; omega
  have hk1 : yoeOf doe ≤ 399 := by unfold yoeOf; omega
  generalize hk : yoeOf doe = k at hk0 hk1
  have hlow : yearStart k ≤ doe := by
    by_contra hcon
    have hk2 : 1 ≤ k := by
      by_contra h
      have : k = 0 := by omega
      subst this
      have : yearStart 0 = 0 := by decide
      omega
    have h1 := (yoeOf_start (k - 1) (by omega) (by omega)).2
    rw [sub_add_cancel] at h1
    have h2 := yoeOf_mono doe (yearStart k - 1) hdoe0 (by omega)
      (by have := yearStart_le (k - 1) (by omega) (by omega); rw [sub_add_cancel] at this; omega)
    omega
  have hhigh : doe < yearStart (k + 1) ∨ (k = 399 ∧ doe - yearStart k = 365) := by
    by_cases h399 : k = 399
    · subst h399
      have h1 : yearStart (399 + 1) = 146096 := by decide
      have h2 : yearStart 399 = 145731 := by decide
      rw [h1, h2]
      omega
    · left
      by_contra hcon
      have h1 := (yoeOf_start (k + 1) (by omega) (by omega)).1
      have h2 := yoeOf_mono (yearStart (k + 1)) doe
        (yearStart_nonneg _ (by omega)) (by omega) hdoe1
      omega
  have hD : D + 719468 = era * 146097 + (yearStart k + (doe - yearStart k)) := by omega
  have hd1 : yearStart k + (doe - yearStart k) < yearStart (k + 1) ∨
      (k = 399 ∧ doe - yearStart k = 365) := by
    rcases hhigh with h | h
    · left; omega
    · right; exact h
  obtain ⟨hM, hY, hDt⟩ := civil_of_decomp D era k (doe - yearStart k) hD hk0 hk1 (by omega) hd1
  generalize hdoy : doe - yearStart k = doy at *
  have hlen2 : yearStart (k + 1) ≤ yearStart k + 366 := by
    unfold yearStart; omega
  have hdoy0 : 0 ≤ doy := by omega
  have hdoy1 : doy ≤ 365 := by
    rcases hd1 with h | h
    · omega
    · omega
  generalize hmp : (5 * doy + 2) / 153 = mp at *
  have hmp0 : 0 ≤ mp := by omega
  have hmp1 : mp ≤ 11 := by omega
  rw [hM, hY, hDt]
  have hy1 : k + era * 400 =
      (if (if mp < 10 then mp + 2 else mp - 10) < 2
        then (if mp < 10 then k + era * 400 else k + era * 400 + 1) - 1
        else (if mp < 10 then k + era * 400 else k + era * 400 + 1)) := by
    split_ifs <;> omega
  have hmp2 : mp =
      (if (if mp < 10 then mp + 2 else mp - 10) < 2
        then (if mp < 10 then mp + 2 else mp - 10) + 10
        else (if mp < 10 then mp + 2 else mp - 10) - 2) := by
    split_ifs <;> omega
  have hm0 : 0 ≤ (if mp < 10 then mp + 2 else mp - 10) := by split_ifs <;> omega
  have hm1 : (if mp < 10 then mp + 2 else mp - 10) ≤ 11 := by split_ifs <;> omega
  have hF := firstOfMonth_decomp _ _ _ _ hy1 hmp2
  have hF2 := firstOfMonth_next_decomp _ _ _ _ hm0 hm1 hy1 hmp2
  have e1 : (k + era * 400) / 400 = era := by omega
  have e2 : k + era * 400 - era * 400 = k := by ring
  rw [e1, e2] at hF hF2
  refine ⟨by omega, by omega, ?_⟩
  by_cases h11 : mp = 11
  · have hmm : (if mp < 10 then mp + 2 else mp - 10) = 1 := by
      rw [if_neg (by omega)]; omega
    have hyy : (if mp < 10 then k + era * 400 else k + era * 400 + 1) = k + era * 400 + 1 := by
      rw [if_neg (by omega)]
    rw [hmm, hyy, if_pos rfl] at hF2
    rw [hmm, hyy]
    by_cases h399 : k = 399
    · have e3 : (k + era * 400 + 1) / 400 = era + 1 := by omega
      have e4 : k + era * 400 + 1 - (era + 1) * 400 = 0 := by omega
      have h0 : yearStart 0 = 0 := by decide
      rw [e3, e4, h0] at hF2
      omega
    · have e3 : (k + era * 400 + 1) / 400 = era := by omega
      have e4 : k + era * 400 + 1 - era * 400 = k + 1 := by ring
      rw [e3, e4] at hF2
      rcases hd1 with h | h
      · omega
      · omega
  · have hmm : ¬ (if mp < 10 then mp + 2 else mp - 10) = 1 := by
      split_ifs <;> omega
    rw [if_neg hmm] at hF2
    omega

/-- The days of month `m` of year `y` are those from its first day up to the first day of
the next month. -/
theorem month_days_iff (y m D : Int) (hm0 : 0 ≤ m) (hm1 : m ≤ 11) :
    (yearOfDay D = y ∧ monthOfDay D = m) ↔
      (firstOfMonth y m ≤ D ∧ D < firstOfMonth (y + (m + 1) / 12) ((m + 1) % 12)) := by
  constructor
  · rintro ⟨rfl, rfl⟩
    obtain ⟨h1, h2, h3⟩ := civil_inverse D
    exact ⟨by omega, h3⟩
  · rintro ⟨h1, h2⟩
    have h := civil_of_first_add y m (D - firstOfMonth y m) hm0 hm1 (by omega) (by omega)
    rw [add_sub_cancel] at h
    exact ⟨h.1, h.2.1⟩

/-! ## C25: the calendar data -/

/-- The local day of a local midnight. -/
theorem localDay_midnight (tz k : Int) : localDay tz (k * msPerDay - tz) = k := by
  unfold localDay
  rw [sub_add_cancel]
  exact Int.mul_ediv_cancel k (by decide)

/-- From the year 100 on, `new Date(year, month, date)` is local midnight of day `date` of
the month that lies `month` months after January of `year`. -/
theorem newDate_carry (tz year month date : Int) (hy : 100 ≤ year) :
    newDate tz year month date =
      (firstOfMonth (year + month / 12) (month % 12) + (date - 1)) * msPerDay - tz := by
  unfold newDate makeDay
  simp only
  rw [if_neg (by omega)]
  ring_nf

/-- The month entry `m` of the calendar data, from the year 100 on. -/
theorem calendarMonth_eq (tz today : Int) (blocked : List BlockedDate) (m : Nat)
    (hY : 100 ≤ getFullYear tz today) :
    calendarMonth tz today blocked m =
      { year := getFullYear tz today + (getMonth tz today + (m : Int)) / 12
        month := (getMonth tz today + (m : Int)) % 12
        days := (List.range
            (firstOfMonth
              (getFullYear tz today + (getMonth tz today + (m : Int)) / 12 +
                ((getMonth tz today + (m : Int)) % 12 + 1) / 12)
              (((getMonth tz today + (m : Int)) % 12 + 1) % 12) -
             firstOfMonth (getFullYear tz today + (getMonth tz today + (m : Int)) / 12)
              ((getMonth tz today + (m : Int)) % 12)).toNat).map
          (fun (i : Nat) => calendarDay tz today blocked
            (getFullYear tz today + (getMonth tz today + (m : Int)) / 12)
            ((getMonth tz today + (m : Int)) % 12) ((i : Int) + 1)) } := by
  have hM := monthOfDay_range (localDay tz today)
  have hM0 : 0 ≤ getMonth tz today := hM.1
  generalize hk : getMonth tz today + (m : Int) = k
  have hk0 : 0 ≤ k := by omega
  generalize hy : getFullYear tz today + k / 12 = y
  have hy100 : 100 ≤ y := by
    have : 0 ≤ k / 12 := Int.ediv_nonneg hk0 (by decide)
    omega
  generalize hmo : k % 12 = mo
  have hmo0 : 0 ≤ mo := by omega
  have hmo1 : mo ≤ 11 := by omega
  have hlen := firstOfMonth_lt_next y mo hmo0 hmo1
  have hcur : newDate tz (getFullYear tz today) k 1 = firstOfMonth y mo * msPerDay - tz := by
    rw [newDate_carry tz _ k 1 hY, hy, hmo]
    simp
  have hfirst := civil_of_first_add y mo 0 hmo0 hmo1 le_rfl (by omega)
  rw [add_zero] at hfirst
  have hyear : getFullYear tz (newDate tz (getFullYear tz today) k 1) = y := by
    show yearOfDay (localDay tz (newDate tz (getFullYear tz today) k 1)) = y
    rw [hcur, localDay_midnight]
    exact hfirst.1
  have hmonth : getMonth tz (newDate tz (getFullYear tz today) k 1) = mo := by
    show monthOfDay (localDay tz (newDate tz (getFullYear tz today) k 1)) = mo
    rw [hcur, localDay_midnight]
    exact hfirst.2.1
  have hlast := civil_of_first_add y mo
    (firstOfMonth (y + (mo + 1) / 12) ((mo + 1) % 12) - firstOfMonth y mo - 1)
    hmo0 hmo1 (by omega) (by omega)
  have hdim : getDate tz (newDate tz y (mo + 1) 0) =
      firstOfMonth (y + (mo + 1) / 12) ((mo + 1) % 12) - firstOfMonth y mo := by
    unfold getDate
    rw [newDate_carry tz y (mo + 1) 0 hy100, localDay_midnight]
    have e : firstOfMonth (y + (mo + 1) / 12) ((mo + 1) % 12) + (0 - 1) =
        firstOfMonth y mo +
          (firstOfMonth (y + (mo + 1) / 12) ((mo + 1) % 12) - firstOfMonth y mo - 1) := by
      ring
    rw [e, hlast.2.2]
    ring
  unfold calendarMonth
  simp only [hk, hyear, hmonth, hdim]

/-- The date of the calendar entry for day `i + 1` of a month, from the year 100 on: local
midnight of the day `i` days after the first of the month. -/
theorem calendarDay_date (tz today : Int) (blocked : List BlockedDate) (y mo i : Int)
    (hy : 100 ≤ y) (hmo0 : 0 ≤ mo) (hmo1 : mo ≤ 11) :
    (calendarDay tz today blocked y mo (i + 1)).date =
      (firstOfMonth y mo + i) * msPerDay - tz := by
  show newDate tz y mo (i + 1) = _
  rw [newDate_carry tz y mo (i + 1) hy]
  have h1 : mo / 12 = 0 := by omega
  have h2 : mo % 12 = mo := by omega
  rw [h1, h2, add_zero, add_sub_cancel_right]

/-- C25 (as stated, refuted for the hold set of paid and confirmed bookings): on 2025-12-30,
with one booking of listing 7 in status `pending_approval` for 2025-12-31 to 2026-01-02 and
no booking in status `paid` or `confirmed`, the calendar entry for the 31st of the current
month is flagged blocked. -/
theorem C25_counterexample :
    100 ≤ getFullYear exampleEnv.tz (startOfToday exampleEnv) ∧
    (((getCalendarData exampleEnv exampleApprovalStore 7 1)[0]?).bind
        (fun mo => mo.days[30]?)).map (fun d => (d.day, d.date, d.isBlocked)) =
      some (31, 1767139200000, true) ∧
    ∀ b ∈ exampleApprovalStore,
      b.status ≠ BookingStatus.paid ∧ b.status ≠ BookingStatus.confirmed := by
  refine ⟨by decide, by decide, by decide⟩

/-- C25 (amended): for every listing, every set of stored bookings and every `months = N`,
with the current year 100 or later, `getCalendarData` returns exactly `N` month entries;
entry `m` is the month `m` months after the current one; its days are numbered `1, 2, ...`,
their dates ascend, and they are the local midnights of exactly the days of that month; and
for each day entry `isBlocked` is true exactly when some booking of the listing with status
`paid`, `pending_approval` or `confirmed` has `checkIn <= date < checkOut`, `isPast` is true
exactly when the date is before the start of today, and
`available = !isBlocked && !isPast`. -/
theorem C25_calendar_data (env : Env) (bookings : List Booking) (listingId months : Nat)
    (hyear : 100 ≤ getFullYear env.tz (startOfToday env)) :
    (getCalendarData env bookings listingId months).length = months ∧
    ∀ m : Nat, m < months → ∃ mo : CalendarMonth,
      (getCalendarData env bookings listingId months)[m]? = some mo ∧
      mo.year = getFullYear env.tz (startOfToday env) +
        (getMonth env.tz (startOfToday env) + (m : Int)) / 12 ∧
      mo.month = (getMonth env.tz (startOfToday env) + (m : Int)) % 12 ∧
      mo.days.map (fun d => d.day) =
        (List.range mo.days.length).map (fun (i : Nat) => (i : Int) + 1) ∧
      (mo.days.map (fun d => d.date)).Pairwise (fun a b => a < b) ∧
      (∀ D : Int, (yearOfDay D = mo.year ∧ monthOfDay D = mo.month) ↔
        ∃ d ∈ mo.days, d.date = D * msPerDay - env.tz) ∧
      ∀ d ∈ mo.days,
        getFullYear env.tz d.date = mo.year ∧ getMonth env.tz d.date = mo.month ∧
        getDate env.tz d.date = d.day ∧
        (d.isBlocked = true ↔
          ∃ b ∈ bookings, b.listing = listingId ∧
            (b.status = BookingStatus.paid ∨ b.status = BookingStatus.pending_approval ∨
              b.status = BookingStatus.confirmed) ∧
            b.checkIn ≤ d.date ∧ d.date < b.checkOut) ∧
        (d.isPast = true ↔ d.date < startOfToday env) ∧
        d.available = (!d.isBlocked && !d.isPast) := by
  constructor
  · unfold getCalendarData
    simp
  intro m hm
  refine ⟨calendarMonth env.tz (startOfToday env) (getBlockedDates bookings listingId) m,
    ?_, ?_⟩
  · unfold getCalendarData
    simp only [List.getElem?_map, List.getElem?_range hm, Option.map_some']
  rw [calendarMonth_eq env.tz (startOfToday env) _ m hyear]
  have hM := monthOfDay_range (localDay env.tz (startOfToday env))
  have hM0 : 0 ≤ getMonth env.tz (startOfToday env) := hM.1
  have hk0 : 0 ≤ getMonth env.tz (startOfToday env) + (m : Int) := by omega
  generalize getMonth env.tz (startOfToday env) + (m : Int) = k at *
  have hy100 : 100 ≤ getFullYear env.tz (startOfToday env) + k / 12 := by
    have : 0 ≤ k / 12 := Int.ediv_nonneg hk0 (by decide)
    omega
  generalize getFullYear env.tz (startOfToday env) + k / 12 = y at *
  have hmo0 : 0 ≤ k % 12 := by omega
  have hmo1 : k % 12 ≤ 11 := by omega
  generalize k % 12 = mo at *
  have hlen := firstOfMonth_lt_next y mo hmo0 hmo1
  generalize hF' : firstOfMonth (y + (mo + 1) / 12) ((mo + 1) % 12) = F' at *
  have hms : (0 : Int) < msPerDay := by decide
  have hdate : ∀ i : Nat,
      (calendarDay env.tz (startOfToday env) (getBlockedDates bookings listingId) y mo
        ((i : Int) + 1)).date = (firstOfMonth y mo + (i : Int)) * msPerDay - env.tz :=
    fun i => calendarDay_date _ _ _ y mo i hy100 hmo0 hmo1
  refine ⟨rfl, rfl, ?_, ?_, ?_, ?_⟩
  · simp only [List.map_map, List.length_map, List.length_range]
    rfl
  · simp only [List.map_map]
    rw [List.pairwise_map]
    refine List.Pairwise.imp ?_ (List.pairwise_lt_range _)
    intro a b hab
    simp only [Function.comp]
    rw [hdate a, hdate b]
    have : (a : Int) < (b : Int) := by exact_mod_cast hab
    nlinarith
  · intro D
    rw [month_days_iff y mo D hmo0 hmo1, hF']
    constructor
    · rintro ⟨h1, h2⟩
      refine ⟨_, List.mem_map.mpr ⟨(D - firstOfMonth y mo).toNat,
        List.mem_range.mpr (by omega), rfl⟩, ?_⟩
      rw [hdate]
      have : firstOfMonth y mo + ((D - firstOfMonth y mo).toNat : Int) = D := by omega
      rw [this]
    · rintro ⟨d, hd, hdD⟩
      obtain ⟨i, hi, rfl⟩ := List.mem_map.mp hd
      have hi' := List.mem_range.mp hi
      rw [hdate] at hdD
      have hD : firstOfMonth y mo + (i : Int) = D := by
        have h := congrArg (fun t => (t + env.tz)) hdD
        simp only [sub_add_cancel] at h
        exact Int.eq_of_mul_eq_mul_right (by decide) h
      omega
  · intro d hd
    obtain ⟨i, hi, rfl⟩ := List.mem_map.mp hd
    have hi' := List.mem_range.mp hi
    have hciv := civil_of_first_add y mo (i : Int) hmo0 hmo1 (by omega) (by rw [hF']; omega)
    have hld : localDay env.tz
        (calendarDay env.tz (startOfToday env) (getBlockedDates bookings listingId) y mo
          ((i : Int) + 1)).date = firstOfMonth y mo + (i : Int) := by
      rw [hdate, localDay_midnight]
    refine ⟨?_, ?_, ?_, ?_, ?_, rfl⟩
    · show yearOfDay (localDay env.tz _) = y
      rw [hld]; exact hciv.1
    · show monthOfDay (localDay env.tz _) = mo
      rw [hld]; exact hciv.2.1
    · show dateOfDay (localDay env.tz _) = (i : Int) + 1
      rw [hld]; exact hciv.2.2
    · exact calendarDay_isBlocked_iff env.tz (startOfToday env) bookings listingId y mo _
    · show decide (_ < _) = true ↔ _
      rw [decide_eq_true_eq]
      rfl

/-- C25 witness: on 2025-12-30 the calendar data for three months has three entries. -/
theorem C25_calendar_data_witness :
    100 ≤ getFullYear exampleEnv.tz (startOfToday exampleEnv) ∧
    (getCalendarData exampleEnv exampleCalendarStore 7 3).length = 3 :=
  ⟨by decide, (C25_calendar_data exampleEnv exampleCalendarStore 7 3 (by decide)).1⟩

end RentSphere
